import Mathlib

/-!
# Ray tracing and line-of-fire validation (`rts/Game/TraceRay.cpp`)

A shallow embedding of `TraceRay::TraceRay`, `TraceRay::GuiTraceRay`,
`TraceRay::TestCone` and `TraceRay::TestTrajectoryCone` together with their two
file-local helpers.

Conventions of the embedding:

* `float` is modelled by `ℚ` (exact arithmetic; rounding, infinities and NaN are
  outside the model);
* an object pointer is modelled by the object it points to, `NULL` by `none`,
  and pointer equality by equality of the `id` field (the object's identity);
* the collaborators whose code is not part of this file (spatial index,
  collision handler, ground, team / LOS handlers, global state) are the fields
  of `Env`;
* dereferencing a null `owner` is undefined behaviour in the source; `TraceRay`
  therefore returns an `Option`, with `none` standing for that dereference;
* the `int` bit mask `avoidFlags` is a `Nat`, ally-team numbers and quad
  indices are `Int`; an index outside its array is outside the model.
-/

namespace Spring

/-! ## Data model -/

/-- Three-component vector (`float3`). -/
structure float3 where
  x : ℚ
  y : ℚ
  z : ℚ
  deriving DecidableEq

/-- The constant `ZeroVector`. -/
def ZeroVector : float3 := ⟨0, 0, 0⟩

/-- The constant `UpVector`. -/
def UpVector : float3 := ⟨0, 1, 0⟩

/-- Component-wise sum (`float3::operator+`). -/
def float3.add (a b : float3) : float3 := ⟨a.x + b.x, a.y + b.y, a.z + b.z⟩

/-- Component-wise difference (`float3::operator-`). -/
def float3.sub (a b : float3) : float3 := ⟨a.x - b.x, a.y - b.y, a.z - b.z⟩

/-- Scaling by a scalar (`float3::operator*(float)`). -/
def float3.scale (a : float3) (f : ℚ) : float3 := ⟨a.x * f, a.y * f, a.z * f⟩

/-- Scalar product (`float3::dot`). -/
def float3.dot (a b : float3) : ℚ := a.x * b.x + a.y * b.y + a.z * b.z

/-- The function `Clamp(v, lo, hi)` of `System/myMath.h`, that is
`std::min(hi, std::max(lo, v))`. -/
def Clamp (v lo hi : ℚ) : ℚ := min hi (max lo v)

/-- Modelled from the spec: the shape kinds of a collision volume
(`Sim/Misc/CollisionVolume.h` is not among the sources). -/
inductive VolumeShape where
  | sphere
  | box
  | cylinder
  | ellipsoid
  deriving DecidableEq

/-- Modelled from the spec: a collision volume is a shape kind, local-space
extents and a local-space offset from the entity origin
(`Sim/Misc/CollisionVolume.h` is not among the sources). -/
structure CollisionVolume where
  shape : VolumeShape
  extents : float3
  offsets : float3
  deriving DecidableEq

/-- Modelled from the spec: `CollisionVolume::InitSphere`, which turns a volume
into the icon substitute, a pure sphere determined by its radius only. -/
def CollisionVolume.InitSphere (_cv : CollisionVolume) (radius : ℚ) : CollisionVolume :=
  { shape := VolumeShape.sphere, extents := ⟨radius, radius, radius⟩, offsets := ZeroVector }

/-- Modelled from the spec: the raw geometric record of one collision query, the
two points where the ray enters and leaves the volume (`CollisionQuery` is
declared in `Sim/Misc/CollisionVolume.h`, not among the sources). -/
structure CollisionQuery where
  p0 : float3
  p1 : float3
  deriving DecidableEq

/-- The fields of `CUnit` read by this file. `id` is the identity of the
object; `quadMapRays` is `HasCollidableStateBit(CSTATE_BIT_QUADMAPRAYS)`,
`neutral` is `IsNeutral()`, `cloaked` is `IsCloaked()` and `isFactory` is
`unitDef->IsFactoryUnit()`. -/
structure CUnit where
  id : Nat
  allyteam : Int
  quadMapRays : Bool
  neutral : Bool
  cloaked : Bool
  noSelect : Bool
  isIcon : Bool
  iconRadius : ℚ
  isFactory : Bool
  collisionVolume : CollisionVolume
  deriving DecidableEq

/-- The fields of `CFeature` read by this file. -/
structure CFeature where
  id : Nat
  quadMapRays : Bool
  noSelect : Bool
  collisionVolume : CollisionVolume
  deriving DecidableEq

/-- One cell of the quad field (`CQuadField::Quad`): all units, the units per
ally-team, and the features whose footprint overlaps the cell. -/
structure Quad where
  units : List CUnit
  teamUnits : Int → List CUnit
  features : List CFeature

/-- The collaborators of `TraceRay.cpp`. `DetectHitU` / `DetectHitF` are
`CCollisionHandler::DetectHit` on a unit / a feature (with `forceTrace = true`):
they return the boolean result and the query record they wrote. -/
structure Env where
  /-- The call `quadField->GetQuadsOnRay(start, dir, length)`. -/
  GetQuadsOnRay : float3 → float3 → ℚ → List Int
  /-- The call `quadField->GetQuad(quadIdx)`. -/
  GetQuad : Int → Quad
  /-- The call `CCollisionHandler::DetectHit(u, p0, p1, &cq, true)` on a unit. -/
  DetectHitU : CUnit → float3 → float3 → Bool × CollisionQuery
  /-- The call `CCollisionHandler::DetectHit(f, p0, p1, &cq, true)` on a feature. -/
  DetectHitF : CFeature → float3 → float3 → Bool × CollisionQuery
  /-- The call `CCollisionHandler::MouseHit(u, p0, p1, &cv, &cq)`. -/
  MouseHit : CUnit → float3 → float3 → CollisionVolume → Bool × CollisionQuery
  /-- The method `cq.GetHitPosDist(pos, dir)`. -/
  GetHitPosDist : CollisionQuery → float3 → float3 → ℚ
  /-- The method `cq.GetIngressPosDist(pos, dir)`. -/
  GetIngressPosDist : CollisionQuery → float3 → float3 → ℚ
  /-- The method `cq.GetEgressPosDist(pos, dir)`. -/
  GetEgressPosDist : CollisionQuery → float3 → float3 → ℚ
  /-- The call `CGround::LineGroundCol(from, to)` (synced). -/
  LineGroundCol : float3 → float3 → ℚ
  /-- The call `CGround::LineGroundCol(from, to, false)` (unsynced). -/
  LineGroundColUnsynced : float3 → float3 → ℚ
  /-- The call `teamHandler->Ally(a, b)`. -/
  Ally : Int → Int → Bool
  /-- The call `losHandler->InRadar(unit, allyteam)`. -/
  InRadar : CUnit → Int → Bool
  /-- The array read `unit->losStatus[allyteam]`. -/
  losStatus : CUnit → Int → Nat
  /-- The call `f->IsInLosForAllyTeam(allyteam)`. -/
  IsInLosForAllyTeam : CFeature → Int → Bool
  /-- The global `gu->myAllyTeam`. -/
  myAllyTeam : Int
  /-- The global `gu->spectatingFullView`. -/
  spectatingFullView : Bool
  /-- The bit `LOS_INLOS`. -/
  LOS_INLOS : Nat
  /-- The bit `LOS_CONTRADAR`. -/
  LOS_CONTRADAR : Nat
  /-- The call `cv->GetWorldSpacePos(u, ZeroVector)` on a unit. -/
  GetWorldSpacePosU : CUnit → float3
  /-- The call `cv->GetWorldSpacePos(f, ZeroVector)` on a feature. -/
  GetWorldSpacePosF : CFeature → float3
  /-- The call `cv->GetPointSurfaceDistance(u, NULL, pos)` on a unit. -/
  GetPointSurfaceDistanceU : CUnit → float3 → ℚ
  /-- The call `cv->GetPointSurfaceDistance(f, NULL, pos)` on a feature. -/
  GetPointSurfaceDistanceF : CFeature → float3 → ℚ

/-! ## The filter bitmask -/

namespace Collision

/-- Modelled from the spec: the filter bits of a ray query, in the order the
spec lists them (the enum is declared in `Game/TraceRay.h`, not among the
sources). -/
def NOENEMIES : Nat := 1

/-- Modelled from the spec: second filter bit of `Game/TraceRay.h`. -/
def NOFRIENDLIES : Nat := 2

/-- Modelled from the spec: third filter bit of `Game/TraceRay.h`. -/
def NOFEATURES : Nat := 4

/-- Modelled from the spec: fourth filter bit of `Game/TraceRay.h`. -/
def NONEUTRALS : Nat := 8

/-- Modelled from the spec: fifth filter bit of `Game/TraceRay.h`. -/
def NOGROUND : Nat := 16

/-- Modelled from the spec: sixth filter bit of `Game/TraceRay.h`. -/
def NOCLOAKED : Nat := 32

end Collision

/-- The test `(avoidFlags & bit) != 0`. -/
def hasFlag (avoidFlags bit : Nat) : Bool := (avoidFlags &&& bit) != 0

/-- Pointer comparison `u == owner` of a non-null unit with a possibly null
unit pointer. -/
def ptrEqU (u : CUnit) (p : Option CUnit) : Bool :=
  match p with
  | none => false
  | some o => u.id == o.id

/-! ## `TraceRay::TraceRay` -/

/-- What `TraceRay` hands back: the returned length, the two hit outputs and
the final content of the caller's query record (`none` when the caller passed
`NULL` for `hitColQuery`). -/
structure TraceResult where
  length : ℚ
  hitUnit : Option CUnit
  hitFeature : Option CFeature
  hitColQuery : Option CollisionQuery
  deriving DecidableEq

/-- Body of the inner feature loop of `TraceRay` (source lines 199-216). -/
def traceFeatureStep (env : Env) (start dir : float3) (s : TraceResult) (f : CFeature) :
    TraceResult :=
  if !f.quadMapRays then s
  else
    let r := env.DetectHitF f start (start.add (dir.scale s.length))
    if r.1 then
      let len := env.GetHitPosDist r.2 start dir
      if len < s.length then
        { s with length := len, hitFeature := some f,
                 hitColQuery := s.hitColQuery.map (fun _ => r.2) }
      else s
    else s

/-- The feature loops of `TraceRay` over all quads (source lines 196-217). -/
def traceFeatures (env : Env) (start dir : float3) (quads : List Int) (s : TraceResult) :
    TraceResult :=
  quads.foldl (fun acc quadIdx => (env.GetQuad quadIdx).features.foldl
    (traceFeatureStep env start dir) acc) s

/-- The four team / state filters of the unit loop (source lines 230-237):
`some true` when the unit is skipped, `some false` when it is tested, `none`
when the filter dereferences a null `owner`. The conjunctions short-circuit,
so `owner` is read only when the matching flag is set. -/
def traceUnitSkipped (ignoreAllies ignoreEnemies ignoreNeutrals ignoreCloaked : Bool)
    (owner : Option CUnit) (u : CUnit) : Option Bool :=
  (if ignoreAllies then owner.map (fun o => decide (u.allyteam = o.allyteam))
   else some false).bind fun skipAlly =>
  if skipAlly then some true
  else
    (if ignoreEnemies then owner.map (fun o => decide (u.allyteam ≠ o.allyteam))
     else some false).bind fun skipEnemy =>
    if skipEnemy then some true
    else if ignoreNeutrals && u.neutral then some true
    else if ignoreCloaked && u.cloaked then some true
    else some false

/-- Body of the inner unit loop of `TraceRay` (source lines 225-249). -/
def traceUnitStep (env : Env) (start dir : float3)
    (ignoreAllies ignoreEnemies ignoreNeutrals ignoreCloaked : Bool)
    (owner : Option CUnit) (s : TraceResult) (u : CUnit) : Option TraceResult :=
  if ptrEqU u owner then some s
  else if !u.quadMapRays then some s
  else
    (traceUnitSkipped ignoreAllies ignoreEnemies ignoreNeutrals ignoreCloaked owner u).bind
      fun skipped =>
        if skipped then some s
        else
          let r := env.DetectHitU u start (start.add (dir.scale s.length))
          if r.1 then
            let len := env.GetHitPosDist r.2 start dir
            if len < s.length then
              some { s with length := len, hitUnit := some u,
                            hitColQuery := s.hitColQuery.map (fun _ => r.2) }
            else some s
          else some s

/-- The unit loops of `TraceRay` over all quads (source lines 222-250). -/
def traceUnits (env : Env) (start dir : float3)
    (ignoreAllies ignoreEnemies ignoreNeutrals ignoreCloaked : Bool)
    (owner : Option CUnit) (quads : List Int) (s : TraceResult) : Option TraceResult :=
  quads.foldlM (fun acc quadIdx => (env.GetQuad quadIdx).units.foldlM
    (traceUnitStep env start dir ignoreAllies ignoreEnemies ignoreNeutrals ignoreCloaked owner)
    acc) s

/-- The ground test that ends `TraceRay` (source lines 258-267). -/
def traceGround (env : Env) (start dir : float3) (ignoreGround : Bool) (s : TraceResult) :
    TraceResult :=
  if !ignoreGround then
    let groundLength := env.LineGroundCol start (start.add (dir.scale s.length))
    if s.length > groundLength ∧ groundLength > 0 then
      { s with length := groundLength, hitUnit := none, hitFeature := none }
    else s
  else s

/-- The entity part of `TraceRay` (source lines 184-256). -/
def traceEntities (env : Env) (start dir : float3) (avoidFlags : Nat)
    (owner : Option CUnit) (s : TraceResult) : Option TraceResult :=
  let ignoreEnemies := hasFlag avoidFlags Collision.NOENEMIES
  let ignoreAllies := hasFlag avoidFlags Collision.NOFRIENDLIES
  let ignoreFeatures := hasFlag avoidFlags Collision.NOFEATURES
  let ignoreNeutrals := hasFlag avoidFlags Collision.NONEUTRALS
  let ignoreCloaked := hasFlag avoidFlags Collision.NOCLOAKED
  let ignoreUnits := ignoreEnemies && ignoreAllies && ignoreNeutrals
  if !ignoreFeatures || !ignoreUnits then
    let quads := env.GetQuadsOnRay start dir s.length
    let s1 := if !ignoreFeatures then traceFeatures env start dir quads s else s
    if !ignoreUnits then
      (traceUnits env start dir ignoreAllies ignoreEnemies ignoreNeutrals ignoreCloaked
        owner quads s1).map fun s2 =>
          if s2.hitUnit.isSome then { s2 with hitFeature := none } else s2
    else some s1
  else some s

/-- The function `TraceRay::TraceRay`. `hitColQuery` is the initial content of
the caller's query record, `none` for a `NULL` pointer. The result is `none`
exactly when the source dereferences a null `owner`. -/
def TraceRay (env : Env) (start dir : float3) (length : ℚ) (avoidFlags : Nat)
    (owner : Option CUnit) (hitColQuery : Option CollisionQuery) : Option TraceResult :=
  let ignoreGround := hasFlag avoidFlags Collision.NOGROUND
  let s0 : TraceResult :=
    { length := length, hitUnit := none, hitFeature := none, hitColQuery := hitColQuery }
  if dir = ZeroVector then some { s0 with length := -1 }
  else
    (traceEntities env start dir avoidFlags owner s0).map
      (traceGround env start dir ignoreGround)

/-! ## `TraceRay::GuiTraceRay` -/

/-- What `GuiTraceRay` hands back: the returned distance and the two hit
outputs. -/
structure GuiResult where
  length : ℚ
  hitUnit : Option CUnit
  hitFeature : Option CFeature
  deriving DecidableEq

/-- The locals of `GuiTraceRay` that the quad loop updates. -/
structure GuiState where
  minIngressDist : ℚ
  minEgressDist : ℚ
  hitFactory : Bool
  hitUnit : Option CUnit
  hitFeature : Option CFeature
  deriving DecidableEq

/-- The local `unitIsEnemy` of the unit loop of `GuiTraceRay`. -/
def guiUnitIsEnemy (env : Env) (unit : CUnit) : Bool :=
  !env.Ally unit.allyteam env.myAllyTeam

/-- The local `unitOnRadar` of the unit loop of `GuiTraceRay`. -/
def guiUnitOnRadar (env : Env) (useRadar : Bool) (unit : CUnit) : Bool :=
  useRadar && env.InRadar unit env.myAllyTeam

/-- The local `unitInSight` of the unit loop of `GuiTraceRay`. -/
def guiUnitInSight (env : Env) (unit : CUnit) : Bool :=
  (env.losStatus unit env.myAllyTeam &&& (env.LOS_INLOS ||| env.LOS_CONTRADAR)) != 0

/-- The local `unitVisible` of the unit loop of `GuiTraceRay`. -/
def guiUnitVisible (env : Env) (useRadar : Bool) (unit : CUnit) : Bool :=
  !guiUnitIsEnemy env unit || guiUnitOnRadar env useRadar unit || guiUnitInSight env unit
    || env.spectatingFullView

/-- The volume `cv` that `GuiTraceRay` passes to `MouseHit` (source lines
331-338): a copy of the unit's volume, re-initialised as the icon sphere for
iconified units and radar blips. -/
def guiUnitVolume (env : Env) (useRadar : Bool) (unit : CUnit) : CollisionVolume :=
  if unit.isIcon ||
      (!guiUnitInSight env unit && guiUnitOnRadar env useRadar unit && guiUnitIsEnemy env unit)
  then unit.collisionVolume.InitSphere unit.iconRadius
  else unit.collisionVolume

/-- Body of the unit loop of `GuiTraceRay` (source lines 315-360). The guard
`if (false && ...) continue;` of line 324 never fires and is left out. -/
def guiUnitStep (env : Env) (start dir : float3) (guiRayLength : ℚ) (exclude : Option CUnit)
    (useRadar : Bool) (s : GuiState) (unit : CUnit) : GuiState :=
  if ptrEqU unit exclude then s
  else if unit.noSelect then s
  else if !guiUnitVisible env useRadar unit then s
  else
    let cv := guiUnitVolume env useRadar unit
    let r := env.MouseHit unit start (start.add (dir.scale guiRayLength)) cv
    if r.1 then
      let ingressDist := env.GetIngressPosDist r.2 start dir
      let egressDist := env.GetEgressPosDist r.2 start dir
      let factoryUnderCursor := unit.isFactory
      let factoryHitBeforeUnit : Bool :=
        (s.hitFactory && decide (ingressDist < s.minIngressDist)) ||
        (!s.hitFactory && decide (egressDist < s.minIngressDist))
      let unitHitInsideFactory : Bool :=
        (s.hitFactory && decide (ingressDist < s.minEgressDist)) ||
        (!s.hitFactory && decide (ingressDist < s.minIngressDist))
      if s.hitUnit.isNone || (factoryUnderCursor && factoryHitBeforeUnit) ||
          (!factoryUnderCursor && unitHitInsideFactory) then
        { s with hitFactory := factoryUnderCursor, minIngressDist := ingressDist,
                 minEgressDist := egressDist, hitUnit := some unit, hitFeature := none }
      else s
    else s

/-- Body of the feature loop of `GuiTraceRay` (source lines 363-388). The
guard `if (false && ...) continue;` of line 367 never fires and is left out. -/
def guiFeatureStep (env : Env) (start dir : float3) (guiRayLength : ℚ) (s : GuiState)
    (f : CFeature) : GuiState :=
  if !env.spectatingFullView && !env.IsInLosForAllyTeam f env.myAllyTeam then s
  else if f.noSelect then s
  else
    let r := env.DetectHitF f start (start.add (dir.scale guiRayLength))
    if r.1 then
      let hitDist := env.GetHitPosDist r.2 start dir
      let factoryHitBeforeUnit : Bool := s.hitFactory && decide (hitDist < s.minEgressDist)
      let unitHitInsideFactory : Bool := !s.hitFactory && decide (hitDist < s.minIngressDist)
      if s.hitUnit.isNone || factoryHitBeforeUnit || unitHitInsideFactory then
        { s with hitFactory := false, minIngressDist := hitDist, hitFeature := some f,
                 hitUnit := none }
      else s
    else s

/-- Body of the quad loop of `GuiTraceRay` (source lines 311-389): the units of
the quad, then its features. -/
def guiQuadStep (env : Env) (start dir : float3) (guiRayLength : ℚ) (exclude : Option CUnit)
    (useRadar : Bool) (s : GuiState) (quadIdx : Int) : GuiState :=
  let quad := env.GetQuad quadIdx
  let s1 := quad.units.foldl (guiUnitStep env start dir guiRayLength exclude useRadar) s
  quad.features.foldl (guiFeatureStep env start dir guiRayLength) s1

/-- The divisor `std::min(dir.y, -0.00001f)` of source line 293. -/
def guiWaterDivisor (dir : float3) : ℚ := min dir.y (-(1 / 100000 : ℚ))

/-- The local `waterRayLength` of `GuiTraceRay` (source line 293). -/
def guiWaterRayLength (start dir : float3) : ℚ :=
  ((Int.floor |start.y / guiWaterDivisor dir| : Int) : ℚ)

/-- The local `minRayLength` of `GuiTraceRay` after source line 304. -/
def guiMinRayLength (env : Env) (start dir : float3) (length : ℚ) (ignoreWater : Bool) : ℚ :=
  let groundRayLength := env.LineGroundColUnsynced start (start.add (dir.scale length))
  let waterRayLength := guiWaterRayLength start dir
  if !ignoreWater then min groundRayLength waterRayLength else groundRayLength

/-- The terrain-occlusion check that ends `GuiTraceRay` (source lines
391-398). -/
def guiFinish (minRayLength : ℚ) (s : GuiState) : GuiResult :=
  if minRayLength > 0 ∧ minRayLength + 200 < s.minIngressDist then
    { length := minRayLength, hitUnit := none, hitFeature := none }
  else
    { length := s.minIngressDist, hitUnit := s.hitUnit, hitFeature := s.hitFeature }

/-- The function `TraceRay::GuiTraceRay`. -/
def GuiTraceRay (env : Env) (start dir : float3) (length : ℚ) (exclude : Option CUnit)
    (useRadar groundOnly ignoreWater : Bool) : GuiResult :=
  if dir = ZeroVector then { length := -1, hitUnit := none, hitFeature := none }
  else
    let guiRayLength := length
    let minRayLength := guiMinRayLength env start dir guiRayLength ignoreWater
    if groundOnly then { length := minRayLength, hitUnit := none, hitFeature := none }
    else
      let s0 : GuiState :=
        { minIngressDist := length, minEgressDist := length, hitFactory := false,
          hitUnit := none, hitFeature := none }
      let quads := env.GetQuadsOnRay start dir length
      guiFinish minRayLength
        (quads.foldl (guiQuadStep env start dir guiRayLength exclude useRadar) s0)

/-! ## The firing-cone helpers -/

/-- A `const CSolidObject*` argument of the cone helpers: a unit or a
feature. -/
inductive CSolidObject where
  | unit (u : CUnit)
  | feature (f : CFeature)
  deriving DecidableEq

/-- The call `cv->GetWorldSpacePos(obj, ZeroVector)`. -/
def CSolidObject.worldSpacePos (env : Env) : CSolidObject → float3
  | CSolidObject.unit u => env.GetWorldSpacePosU u
  | CSolidObject.feature f => env.GetWorldSpacePosF f

/-- Modelled from the spec: the dispatch `obj->GetBlockingMapID() <
unitHandler->MaxUnits()` of the cone helpers, an id-range check that tells
whether the object is a mobile or a static entity (`GetBlockingMapID` and
`MaxUnits` are not among the sources); each branch calls
`GetPointSurfaceDistance` on the object cast to its own class. -/
def CSolidObject.pointSurfaceDistance (env : Env) (obj : CSolidObject) (p : float3) : ℚ :=
  match obj with
  | CSolidObject.unit u => env.GetPointSurfaceDistanceU u p
  | CSolidObject.feature f => env.GetPointSurfaceDistanceF f p

/-- The helper `TestConeHelper` (the debug drawing, which does not touch
`ret`, is left out). -/
def TestConeHelper (env : Env) (pos3D dir3D : float3) (length spread : ℚ)
    (obj : CSolidObject) : Bool :=
  let objVec3D := (obj.worldSpacePos env).sub pos3D
  let objDst1D := Clamp (objVec3D.dot dir3D) 0 length
  let coneSize := |objDst1D| * spread + 1
  let expVec3D := dir3D.scale objDst1D
  let expPos3D := pos3D.add expVec3D
  let ret := false
  let ret := if !ret then decide (obj.pointSurfaceDistance env pos3D - coneSize ≤ 0) else ret
  let ret := if !ret then decide (obj.pointSurfaceDistance env expPos3D - coneSize ≤ 0) else ret
  ret

/-- The helper `TestTrajectoryConeHelper` (the debug drawing, which does not
touch `ret`, is left out). -/
def TestTrajectoryConeHelper (env : Env) (pos3D dir2D : float3)
    (length linear quadratic spread baseSize : ℚ) (obj : CSolidObject) : Bool :=
  let objVec3D := (obj.worldSpacePos env).sub pos3D
  let objDst1D := Clamp (objVec3D.dot dir2D) 0 length
  let coneSize := |objDst1D| * spread + baseSize
  let expVec2D := dir2D.scale objDst1D
  let expPos2D := pos3D.add expVec2D
  let expPos3D := expPos2D.add (UpVector.scale (quadratic * objDst1D * objDst1D + linear * objDst1D))
  let ret := false
  let ret := if !ret then decide (obj.pointSurfaceDistance env pos3D - coneSize ≤ 0) else ret
  let ret := if !ret then decide (obj.pointSurfaceDistance env expPos3D - coneSize ≤ 0) else ret
  ret

/-! ## `TraceRay::TestCone` and `TraceRay::TestTrajectoryCone` -/

/-- Body of the quad loop shared by `TestCone` and `TestTrajectoryCone`: `true`
when one of the three inner loops returns `true` from the function. `helper` is
the call of the cone helper on one object. -/
def coneQuadHit (env : Env) (helper : CSolidObject → Bool)
    (ignoreAllies ignoreNeutrals ignoreFeatures : Bool) (allyteam : Int)
    (owner : Option CUnit) (quadIdx : Int) : Bool :=
  let quad := env.GetQuad quadIdx
  (!ignoreAllies && (quad.teamUnits allyteam).any fun u =>
      !ptrEqU u owner && u.quadMapRays && helper (CSolidObject.unit u)) ||
  (!ignoreNeutrals && quad.units.any fun u =>
      u.neutral && !ptrEqU u owner && u.quadMapRays && helper (CSolidObject.unit u)) ||
  (!ignoreFeatures && quad.features.any fun f =>
      f.quadMapRays && helper (CSolidObject.feature f))

/-- The function `TraceRay::TestCone`: `true` means unsafe to fire. -/
def TestCone (env : Env) (frm dir : float3) (length spread : ℚ) (allyteam : Int)
    (avoidFlags : Nat) (owner : Option CUnit) : Bool :=
  let quads := env.GetQuadsOnRay frm dir length
  if quads.isEmpty then true
  else
    let ignoreAllies := hasFlag avoidFlags Collision.NOFRIENDLIES
    let ignoreNeutrals := hasFlag avoidFlags Collision.NONEUTRALS
    let ignoreFeatures := hasFlag avoidFlags Collision.NOFEATURES
    quads.any (coneQuadHit env (TestConeHelper env frm dir length spread)
      ignoreAllies ignoreNeutrals ignoreFeatures allyteam owner)

/-- The function `TraceRay::TestTrajectoryCone`: `true` means unsafe to
fire. -/
def TestTrajectoryCone (env : Env) (frm dir : float3) (length linear quadratic spread : ℚ)
    (allyteam : Int) (avoidFlags : Nat) (owner : Option CUnit) : Bool :=
  let quads := env.GetQuadsOnRay frm dir length
  if quads.isEmpty then true
  else
    let ignoreAllies := hasFlag avoidFlags Collision.NOFRIENDLIES
    let ignoreNeutrals := hasFlag avoidFlags Collision.NONEUTRALS
    let ignoreFeatures := hasFlag avoidFlags Collision.NOFEATURES
    quads.any (coneQuadHit env
      (TestTrajectoryConeHelper env frm dir length linear quadratic spread 0)
      ignoreAllies ignoreNeutrals ignoreFeatures allyteam owner)

/-! ## Derived views used to state the properties -/

/-- The features of the crossed quads, in the order the loops of `TraceRay`
visit them. -/
def crossedFeatures (env : Env) (start dir : float3) (length : ℚ) : List CFeature :=
  (env.GetQuadsOnRay start dir length).flatMap fun quadIdx => (env.GetQuad quadIdx).features

/-- The units of the crossed quads, in the order the loops of `TraceRay` visit
them. -/
def crossedUnits (env : Env) (start dir : float3) (length : ℚ) : List CUnit :=
  (env.GetQuadsOnRay start dir length).flatMap fun quadIdx => (env.GetQuad quadIdx).units

/-- What the collision query reports for feature `f` on the segment of length
`len`: the hit distance, or `none` when `DetectHit` returns `false`. -/
def featureHitDist (env : Env) (start dir : float3) (len : ℚ) (f : CFeature) : Option ℚ :=
  let r := env.DetectHitF f start (start.add (dir.scale len))
  if r.1 then some (env.GetHitPosDist r.2 start dir) else none

/-- What the collision query reports for unit `u` on the segment of length
`len`: the hit distance, or `none` when `DetectHit` returns `false`. -/
def unitHitDist (env : Env) (start dir : float3) (len : ℚ) (u : CUnit) : Option ℚ :=
  let r := env.DetectHitU u start (start.add (dir.scale len))
  if r.1 then some (env.GetHitPosDist r.2 start dir) else none

/-- The unit `u` is a candidate of the unit loop of `TraceRay` for `owner`
under `avoidFlags`: none of the `continue` statements of source lines 226-237
skips it. -/
def unitCandidate (avoidFlags : Nat) (owner : Option CUnit) (u : CUnit) : Prop :=
  ptrEqU u owner = false ∧ u.quadMapRays = true ∧
  traceUnitSkipped (hasFlag avoidFlags Collision.NOFRIENDLIES)
    (hasFlag avoidFlags Collision.NOENEMIES) (hasFlag avoidFlags Collision.NONEUTRALS)
    (hasFlag avoidFlags Collision.NOCLOAKED) owner u = some false

/-- The flag combination `ignoreUnits` of `TraceRay` (source line 176). -/
def ignoreUnitsFlag (avoidFlags : Nat) : Bool :=
  hasFlag avoidFlags Collision.NOENEMIES && hasFlag avoidFlags Collision.NOFRIENDLIES &&
    hasFlag avoidFlags Collision.NONEUTRALS

/-- The state after feature `f` at distance `d` with record `cq` was accepted
(source lines 211-213). -/
def acceptFeature (s : TraceResult) (f : CFeature) (d : ℚ) (cq : CollisionQuery) :
    TraceResult :=
  { s with length := d, hitFeature := some f, hitColQuery := s.hitColQuery.map (fun _ => cq) }

/-- The state after unit `u` at distance `d` with record `cq` was accepted
(source lines 244-246). -/
def acceptUnit (s : TraceResult) (u : CUnit) (d : ℚ) (cq : CollisionQuery) : TraceResult :=
  { s with length := d, hitUnit := some u, hitColQuery := s.hitColQuery.map (fun _ => cq) }

/-- The feature loops of `TraceRay` as one pass over `crossedFeatures`, skipped
when NOFEATURES is set. -/
def tracePhaseF (env : Env) (start dir : float3) (length : ℚ) (avoidFlags : Nat)
    (s : TraceResult) : TraceResult :=
  if hasFlag avoidFlags Collision.NOFEATURES then s
  else (crossedFeatures env start dir length).foldl (traceFeatureStep env start dir) s

/-- The unit loops of `TraceRay` as one pass over `crossedUnits`, followed by
the reset of `hitFeature` when a unit was hit (source lines 252-254); both are
skipped when `ignoreUnits` holds. -/
def tracePhaseU (env : Env) (start dir : float3) (length : ℚ) (avoidFlags : Nat)
    (owner : Option CUnit) (s : TraceResult) : Option TraceResult :=
  if ignoreUnitsFlag avoidFlags then some s
  else
    ((crossedUnits env start dir length).foldlM
      (traceUnitStep env start dir (hasFlag avoidFlags Collision.NOFRIENDLIES)
        (hasFlag avoidFlags Collision.NOENEMIES) (hasFlag avoidFlags Collision.NONEUTRALS)
        (hasFlag avoidFlags Collision.NOCLOAKED) owner) s).map
      fun s2 => if s2.hitUnit.isSome then { s2 with hitFeature := none } else s2

/-- The scene `env` with every feature removed from every quad. -/
def Env.withoutFeatures (env : Env) : Env :=
  { env with GetQuad := fun quadIdx => { env.GetQuad quadIdx with features := [] } }

/-- The scene `env` with every unit removed from every quad. -/
def Env.withoutUnits (env : Env) : Env :=
  { env with GetQuad := fun quadIdx =>
      { env.GetQuad quadIdx with units := [], teamUnits := fun _ => [] } }

/-- The calls of `TraceRay` that never dereference a null `owner`: the owner is
non-null, or neither NOFRIENDLIES nor NOENEMIES is set, or the unit loop is
skipped altogether. -/
def ownerAvailable (avoidFlags : Nat) (owner : Option CUnit) : Prop :=
  owner.isSome = true ∨
    (hasFlag avoidFlags Collision.NOFRIENDLIES = false ∧
      hasFlag avoidFlags Collision.NOENEMIES = false) ∨
    ignoreUnitsFlag avoidFlags = true

/-- What the collision query reports for a unit or a feature on the segment
of length `len`. -/
def objHitDist (env : Env) (start dir : float3) (len : ℚ) : CSolidObject → Option ℚ
  | CSolidObject.unit u => unitHitDist env start dir len u
  | CSolidObject.feature f => featureHitDist env start dir len f

/-- The object is a valid candidate of `TraceRay` under the active filters: it
is listed in a crossed quad, its kind is not filtered out, it has the
QUADMAPRAYS bit and, for a unit, no `continue` of the unit loop skips it. -/
def objCandidate (env : Env) (start dir : float3) (length : ℚ) (avoidFlags : Nat)
    (owner : Option CUnit) : CSolidObject → Prop
  | CSolidObject.unit u =>
    u ∈ crossedUnits env start dir length ∧ unitCandidate avoidFlags owner u
  | CSolidObject.feature f =>
    hasFlag avoidFlags Collision.NOFEATURES = false ∧
      f ∈ crossedFeatures env start dir length ∧ f.quadMapRays = true

/-- The result references the object in the hit output of its kind. -/
def TraceResult.references (r : TraceResult) : CSolidObject → Prop
  | CSolidObject.unit u => r.hitUnit = some u
  | CSolidObject.feature f => r.hitFeature = some f

/-- The result references the object in the hit output of its kind and the
other hit output is null. -/
def TraceResult.hitsOnly (r : TraceResult) : CSolidObject → Prop
  | CSolidObject.unit u => r.hitUnit = some u ∧ r.hitFeature = none
  | CSolidObject.feature f => r.hitFeature = some f ∧ r.hitUnit = none

/-- The locals of `GuiTraceRay` when its quad loop is left (source line 389). -/
def guiLoop (env : Env) (start dir : float3) (length : ℚ) (exclude : Option CUnit)
    (useRadar : Bool) : GuiState :=
  (env.GetQuadsOnRay start dir length).foldl
    (guiQuadStep env start dir length exclude useRadar)
    { minIngressDist := length, minEgressDist := length, hitFactory := false,
      hitUnit := none, hitFeature := none }

/-- The unit is a candidate of the unit loop of `GuiTraceRay`: none of the
`continue` statements of source lines 321-329 skips it. -/
def guiUnitCandidate (env : Env) (exclude : Option CUnit) (useRadar : Bool) (u : CUnit) :
    Prop :=
  ptrEqU u exclude = false ∧ u.noSelect = false ∧ guiUnitVisible env useRadar u = true

/-- The feature is a candidate of the feature loop of `GuiTraceRay`: none of
the `continue` statements of source lines 364-370 skips it. -/
def guiFeatureCandidate (env : Env) (f : CFeature) : Prop :=
  (env.spectatingFullView = true ∨ env.IsInLosForAllyTeam f env.myAllyTeam = true) ∧
    f.noSelect = false

/-- What `MouseHit` reports for unit `u` in `GuiTraceRay`: the ingress and the
egress distance, or `none` when it returns `false`. -/
def guiUnitHit (env : Env) (start dir : float3) (length : ℚ) (useRadar : Bool) (u : CUnit) :
    Option (ℚ × ℚ) :=
  let r := env.MouseHit u start (start.add (dir.scale length)) (guiUnitVolume env useRadar u)
  if r.1 then some (env.GetIngressPosDist r.2 start dir, env.GetEgressPosDist r.2 start dir)
  else none

/-- The locals of `GuiTraceRay` before its quad loop (source lines 284-299). -/
def guiInitial (length : ℚ) : GuiState :=
  { minIngressDist := length, minEgressDist := length, hitFactory := false,
    hitUnit := none, hitFeature := none }

/-- The locals of `GuiTraceRay` after unit `u` with ingress distance `i` and
egress distance `e` was selected (source lines 352-357). -/
def guiSelectUnit (u : CUnit) (i e : ℚ) : GuiState :=
  { minIngressDist := i, minEgressDist := e, hitFactory := u.isFactory, hitUnit := some u,
    hitFeature := none }

/-- The locals of `GuiTraceRay` after feature `f` with hit distance `d` was
selected in state `s` (source lines 381-385). -/
def guiSelectFeature (s : GuiState) (f : CFeature) (d : ℚ) : GuiState :=
  { s with hitFactory := false, minIngressDist := d, hitFeature := some f, hitUnit := none }

/-- Modelled from the spec: the copy constructor of
`CollisionVolume cv(unit->collisionVolume)` (source line 331;
`Sim/Misc/CollisionVolume.h` is not among the sources) makes a temporary copy
that owns nothing of the volume it is made from. -/
def CollisionVolume.copy (v : CollisionVolume) : CollisionVolume := v

/-- Body of the unit loop of `GuiTraceRay` (source lines 315-360) on explicit
memory. The store `ms.1` holds the own volume `unit->collisionVolume` of every
unit, by the identity of the unit, and `ms.2` are the locals. The local `cv`
is a copy of the stored volume, `InitSphere` is called on that local, and
`MouseHit` is handed the address of the local. Returns the store and the
locals after the pass. -/
def guiUnitStepFrame (env : Env) (start dir : float3) (guiRayLength : ℚ)
    (exclude : Option CUnit) (useRadar : Bool) (ms : (Nat → CollisionVolume) × GuiState)
    (unit : CUnit) : (Nat → CollisionVolume) × GuiState :=
  let m := ms.1
  let s := ms.2
  if ptrEqU unit exclude then (m, s)
  else if unit.noSelect then (m, s)
  else if !guiUnitVisible env useRadar unit then (m, s)
  else
    let cv0 := (m unit.id).copy
    let cv :=
      if unit.isIcon ||
          (!guiUnitInSight env unit && guiUnitOnRadar env useRadar unit &&
            guiUnitIsEnemy env unit)
      then cv0.InitSphere unit.iconRadius
      else cv0
    let r := env.MouseHit unit start (start.add (dir.scale guiRayLength)) cv
    if r.1 then
      let ingressDist := env.GetIngressPosDist r.2 start dir
      let egressDist := env.GetEgressPosDist r.2 start dir
      let factoryUnderCursor := unit.isFactory
      let factoryHitBeforeUnit : Bool :=
        (s.hitFactory && decide (ingressDist < s.minIngressDist)) ||
        (!s.hitFactory && decide (egressDist < s.minIngressDist))
      let unitHitInsideFactory : Bool :=
        (s.hitFactory && decide (ingressDist < s.minEgressDist)) ||
        (!s.hitFactory && decide (ingressDist < s.minIngressDist))
      if s.hitUnit.isNone || (factoryUnderCursor && factoryHitBeforeUnit) ||
          (!factoryUnderCursor && unitHitInsideFactory) then
        (m, { s with hitFactory := factoryUnderCursor, minIngressDist := ingressDist,
                     minEgressDist := egressDist, hitUnit := some unit, hitFeature := none })
      else (m, s)
    else (m, s)

/-- Body of the quad loop of `GuiTraceRay` (source lines 311-389) on explicit
memory: the units of the quad, then its features, which do not reach the
store of unit volumes. -/
def guiQuadStepFrame (env : Env) (start dir : float3) (guiRayLength : ℚ)
    (exclude : Option CUnit) (useRadar : Bool) (ms : (Nat → CollisionVolume) × GuiState)
    (quadIdx : Int) : (Nat → CollisionVolume) × GuiState :=
  let quad := env.GetQuad quadIdx
  let ms1 := quad.units.foldl (guiUnitStepFrame env start dir guiRayLength exclude useRadar) ms
  (ms1.1, quad.features.foldl (guiFeatureStep env start dir guiRayLength) ms1.2)

/-- The function `TraceRay::GuiTraceRay` on explicit memory: it is given the
store `m` of the units' own volumes and returns the store it leaves behind
together with its result. -/
def GuiTraceRayFrame (env : Env) (start dir : float3) (length : ℚ) (exclude : Option CUnit)
    (useRadar groundOnly ignoreWater : Bool) (m : Nat → CollisionVolume) :
    (Nat → CollisionVolume) × GuiResult :=
  if dir = ZeroVector then (m, { length := -1, hitUnit := none, hitFeature := none })
  else
    let guiRayLength := length
    let minRayLength := guiMinRayLength env start dir guiRayLength ignoreWater
    if groundOnly then (m, { length := minRayLength, hitUnit := none, hitFeature := none })
    else
      let s0 : GuiState :=
        { minIngressDist := length, minEgressDist := length, hitFactory := false,
          hitUnit := none, hitFeature := none }
      let quads := env.GetQuadsOnRay start dir length
      let ms := quads.foldl (guiQuadStepFrame env start dir guiRayLength exclude useRadar)
        (m, s0)
      (ms.1, guiFinish minRayLength ms.2)

/-- Division of two `float`s, checked: `none` when the divisor is zero. -/
def checkedDiv (a b : ℚ) : Option ℚ := if b = 0 then none else some (a / b)

/-- The local `waterRayLength` of `GuiTraceRay` (source line 293) with its
division checked: `none` when `start.y` is divided by zero. -/
def guiWaterRayLengthChecked (start dir : float3) : Option ℚ :=
  (checkedDiv start.y (guiWaterDivisor dir)).map fun q => ((Int.floor |q| : Int) : ℚ)

/-! ## Concrete scenes -/

/-- A sphere volume of radius 10. -/
def sceneVolume : CollisionVolume :=
  { shape := VolumeShape.sphere, extents := ⟨10, 10, 10⟩, offsets := ZeroVector }

/-- A collidable, visible, non-neutral unit with the given identity and
ally-team. -/
def sceneUnit (id : Nat) (allyteam : Int) : CUnit :=
  { id := id, allyteam := allyteam, quadMapRays := true, neutral := false, cloaked := false,
    noSelect := false, isIcon := false, iconRadius := 0, isFactory := false,
    collisionVolume := sceneVolume }

/-- A collidable feature with the given identity. -/
def sceneFeature (id : Nat) : CFeature :=
  { id := id, quadMapRays := true, noSelect := false, collisionVolume := sceneVolume }

/-- The query record written for a hit at distance `d` along the x axis. -/
def sceneQuery (d : ℚ) : CollisionQuery := { p0 := ⟨d, 0, 0⟩, p1 := ⟨d, 0, 0⟩ }

/-- A scene whose ray crosses the quads `quads`, every quad holding the units
`units` and the features `features`. The collision query hits the unit with
identity `i` at distance `unitDist i` and the feature with identity `i` at
distance `featureDist i` (no hit for `none`), whatever the segment; the ground
service answers `ground`. -/
def sceneEnv (quads : List Int) (units : List CUnit) (features : List CFeature)
    (unitDist featureDist : Nat → Option ℚ) (ground : ℚ) : Env :=
  { GetQuadsOnRay := fun _ _ _ => quads
    GetQuad := fun _ =>
      { units := units, teamUnits := fun t => units.filter (fun u => u.allyteam == t),
        features := features }
    DetectHitU := fun u _ _ =>
      match unitDist u.id with
      | some d => (true, sceneQuery d)
      | none => (false, sceneQuery 0)
    DetectHitF := fun f _ _ =>
      match featureDist f.id with
      | some d => (true, sceneQuery d)
      | none => (false, sceneQuery 0)
    MouseHit := fun u _ _ _ =>
      match unitDist u.id with
      | some d => (true, sceneQuery d)
      | none => (false, sceneQuery 0)
    GetHitPosDist := fun cq _ _ => cq.p0.x
    GetIngressPosDist := fun cq _ _ => cq.p0.x
    GetEgressPosDist := fun cq _ _ => cq.p1.x
    LineGroundCol := fun _ _ => ground
    LineGroundColUnsynced := fun _ _ => ground
    Ally := fun a b => a == b
    InRadar := fun _ _ => false
    losStatus := fun _ _ => 1
    IsInLosForAllyTeam := fun _ _ => true
    myAllyTeam := 0
    spectatingFullView := false
    LOS_INLOS := 1
    LOS_CONTRADAR := 8
    GetWorldSpacePosU := fun _ => ZeroVector
    GetWorldSpacePosF := fun _ => ZeroVector
    GetPointSurfaceDistanceU := fun _ _ => 0
    GetPointSurfaceDistanceF := fun _ _ => 0 }

/-- The ray direction of the scenes: the x axis. -/
def sceneDir : float3 := ⟨1, 0, 0⟩

/-- The ray origin of the scenes. -/
def sceneStart : float3 := ⟨0, 0, 100⟩

/-- An empty scene: the ray crosses no quad and the ground is not hit. -/
def emptyScene : Env := sceneEnv [] [] [] (fun _ => none) (fun _ => none) (-1)

/-- A scene with one feature, hit at distance 90, and the ground at distance
50. -/
def groundScene : Env :=
  sceneEnv [0] [] [sceneFeature 1] (fun _ => none) (fun i => if i = 1 then some 90 else none) 50

/-- A scene with an enemy unit (identity 2, ally-team 1) hit at distance 90 and
a feature (identity 1) hit at distance 120. -/
def unitFeatureScene : Env :=
  sceneEnv [0] [sceneUnit 2 1] [sceneFeature 1] (fun i => if i = 2 then some 90 else none)
    (fun i => if i = 1 then some 120 else none) (-1)

/-- A scene with one unit (identity 2, ally-team 1) and one feature (identity
1), none of them hit by the collision query, and no ground intersection. -/
def missScene : Env :=
  sceneEnv [0] [sceneUnit 2 1] [sceneFeature 1] (fun _ => none) (fun _ => none) (-1)

/-- The scenario of the spec: a single entity (the unit with identity 2) whose
sphere of radius 10 is centred at distance 100 on the ray, so that the ray
enters it at distance 90; the unit is listed in both crossed quads, next to a
feature that the ray misses. No ground intersection. -/
def sphereScene : Env :=
  sceneEnv [0, 1] [sceneUnit 2 1] [sceneFeature 1] (fun i => if i = 2 then some 90 else none)
    (fun _ => none) (-1)

/-- A scene with a feature `A` (identity 1) hit at distance 90 and a unit `B`
(identity 2) hit at distance 150; the ground service answers `ground`. -/
def nearFarScene (ground : ℚ) : Env :=
  sceneEnv [0] [sceneUnit 2 1] [sceneFeature 1] (fun i => if i = 2 then some 150 else none)
    (fun i => if i = 1 then some 90 else none) ground

/-- The scene `nearFarScene` with a third entity, the unit with identity 3, hit
at distance 40. -/
def threeScene : Env :=
  sceneEnv [0] [sceneUnit 2 1, sceneUnit 3 1] [sceneFeature 1]
    (fun i => if i = 2 then some 150 else if i = 3 then some 40 else none)
    (fun i => if i = 1 then some 90 else none) (-1)

/-- A scene for the cone tests: the ray crosses one quad that holds a single
collidable unit of ally-team 0 (identity 2) whose volume is a cube of
half-extent `radius` centred at `centre`; the point-to-surface distance is the
largest coordinate offset from the centre minus `radius`. -/
def coneScene (centre : float3) (radius : ℚ) : Env :=
  { sceneEnv [0] [sceneUnit 2 0] [] (fun _ => none) (fun _ => none) (-1) with
    GetWorldSpacePosU := fun _ => centre
    GetPointSurfaceDistanceU := fun _ p =>
      max (max |p.x - centre.x| |p.y - centre.y|) |p.z - centre.z| - radius }

/-- The quad with unit `u` added: inserted at position `n` of the list of all
units and appended to the unit list of team `team`. -/
def Quad.addUnit (quad : Quad) (n : Nat) (u : CUnit) (team : Int) : Quad :=
  { units := quad.units.take n ++ u :: quad.units.drop n
    teamUnits := fun t => if t = team then quad.teamUnits t ++ [u] else quad.teamUnits t
    features := quad.features }

/-- The scene with unit `u` added to the quad `quadIdx` (see `Quad.addUnit`). -/
def Env.addUnit (env : Env) (quadIdx : Int) (n : Nat) (u : CUnit) (team : Int) : Env :=
  { env with GetQuad := fun q =>
      if q = quadIdx then (env.GetQuad q).addUnit n u team else env.GetQuad q }

/-- A scene for `GuiTraceRay`: one selectable, visible unit (identity 2) whose
volume the ray enters at distance 300, and the ground hit at distance 10. -/
def farUnitScene : Env :=
  sceneEnv [0] [sceneUnit 2 0] [] (fun i => if i = 2 then some 300 else none) (fun _ => none) 10

/-- A scene with one feature per quad: the feature with identity 1, hit at
distance 30, in quad 1 and the feature with identity 2, hit at distance 80, in
quad 2; the ray crosses the quads `quads`. No unit, no ground intersection. -/
def twoCellScene (quads : List Int) : Env :=
  { sceneEnv quads [] [] (fun _ => none)
      (fun i => if i = 1 then some 30 else if i = 2 then some 80 else none) (-1) with
    GetQuad := fun q =>
      if q = 1 then { units := [], teamUnits := fun _ => [], features := [sceneFeature 1] }
      else if q = 2 then
        { units := [], teamUnits := fun _ => [], features := [sceneFeature 2] }
      else { units := [], teamUnits := fun _ => [], features := [] } }

/-- A factory (identity 1) of ally-team 0. -/
def sceneFactory : CUnit := { sceneUnit 1 0 with isFactory := true }

/-- A scene for `GuiTraceRay` with the units `units` in its single quad: the
ray enters the factory (identity 1) at distance 40 and leaves it at distance
140, and it enters the unit with identity 2, which stands inside the factory,
at distance 90 and leaves it at distance 100. No ground intersection. -/
def factoryScene (units : List CUnit) : Env :=
  { sceneEnv [0] units [] (fun _ => none) (fun _ => none) (-1) with
    MouseHit := fun u _ _ _ =>
      if u.id = 1 then (true, { p0 := ⟨40, 0, 0⟩, p1 := ⟨140, 0, 0⟩ })
      else if u.id = 2 then (true, { p0 := ⟨90, 0, 0⟩, p1 := ⟨100, 0, 0⟩ })
      else (false, sceneQuery 0) }

/-- A scene for `GuiTraceRay` with two features in its single quad, listed in
the order of their distance: the feature with identity 1 is hit at distance 30
and the feature with identity 2 at distance 80. No unit, no ground
intersection. -/
def twoFeatureScene : Env :=
  sceneEnv [0] [] [sceneFeature 1, sceneFeature 2] (fun _ => none)
    (fun i => if i = 1 then some 30 else if i = 2 then some 80 else none) (-1)

/-- An iconified unit (identity 3, ally-team 0) with icon radius 7. -/
def sceneIconUnit : CUnit := { sceneUnit 3 0 with isIcon := true, iconRadius := 7 }

/-- A scene for `GuiTraceRay` with the units `units` in its single quad, whose
`MouseHit` looks at the volume it is handed: the ray passes through the centre
of every unit at distance 67, so it enters a sphere of radius `r` at distance
`67 - r` and leaves it at distance `67 + r`; a volume of another shape is
missed. No ground intersection. -/
def iconScene (units : List CUnit) : Env :=
  { sceneEnv [0] units [] (fun _ => none) (fun _ => none) (-1) with
    MouseHit := fun _ _ _ cv =>
      if cv.shape = VolumeShape.sphere then
        (true, { p0 := ⟨67 - cv.extents.x, 0, 0⟩, p1 := ⟨67 + cv.extents.x, 0, 0⟩ })
      else (false, sceneQuery 0) }

/-! ## Generic facts about the loops -/

theorem foldl_invariant {σ α : Type} (P : σ → Prop) (f : σ → α → σ) (l : List α)
    (hstep : ∀ s a, a ∈ l → P s → P (f s a)) (s : σ) (hs : P s) : P (l.foldl f s) := by
  induction l generalizing s with
  | nil => simpa using hs
  | cons a t ih =>
    simp only [List.foldl_cons]
    exact ih (fun s b hb => hstep s b (List.mem_cons_of_mem _ hb)) _
      (hstep s a (List.mem_cons_self _ _) hs)

theorem foldlM_invariant {σ α : Type} (P : σ → Prop) (f : σ → α → Option σ) (l : List α)
    (hstep : ∀ s a s', a ∈ l → P s → f s a = some s' → P s') (s s1 : σ) (hs : P s)
    (h : l.foldlM f s = some s1) : P s1 := by
  induction l generalizing s with
  | nil =>
    simp only [List.foldlM_nil] at h
    cases h
    exact hs
  | cons a t ih =>
    simp only [List.foldlM_cons] at h
    cases hfa : f s a with
    | none => simp [hfa] at h
    | some s' =>
      simp only [hfa] at h
      exact ih (fun s b s'' hb => hstep s b s'' (List.mem_cons_of_mem _ hb)) s'
        (hstep s a s' (List.mem_cons_self _ _) hs hfa) h

theorem foldl_flatMap_eq {σ α β : Type} (f : σ → β → σ) (g : α → List β) (l : List α) (s : σ) :
    l.foldl (fun acc a => (g a).foldl f acc) s = (l.flatMap g).foldl f s := by
  induction l generalizing s with
  | nil => rfl
  | cons a t ih => simp [List.flatMap_cons, List.foldl_append, ih]

theorem foldlM_flatMap_eq {σ α β : Type} (f : σ → β → Option σ) (g : α → List β) (l : List α)
    (s : σ) :
    l.foldlM (fun acc a => (g a).foldlM f acc) s = (l.flatMap g).foldlM f s := by
  induction l generalizing s with
  | nil => rfl
  | cons a t ih =>
    simp only [List.foldlM_cons, List.flatMap_cons, List.foldlM_append]
    cases h : (g a).foldlM f s with
    | none => rfl
    | some s' => simp [ih]

theorem traceFeatures_eq (env : Env) (start dir : float3) (quads : List Int) (s : TraceResult) :
    traceFeatures env start dir quads s =
      (quads.flatMap fun q => (env.GetQuad q).features).foldl
        (traceFeatureStep env start dir) s := by
  unfold traceFeatures
  exact foldl_flatMap_eq _ _ _ _

theorem traceUnits_eq (env : Env) (start dir : float3) (iA iE iN iC : Bool)
    (owner : Option CUnit) (quads : List Int) (s : TraceResult) :
    traceUnits env start dir iA iE iN iC owner quads s =
      (quads.flatMap fun q => (env.GetQuad q).units).foldlM
        (traceUnitStep env start dir iA iE iN iC owner) s := by
  unfold traceUnits
  exact foldlM_flatMap_eq _ _ _ _

/-! ## The loop bodies of `TraceRay`, case by case -/

theorem traceFeatureStep_cases (env : Env) (start dir : float3) (s : TraceResult)
    (f : CFeature) :
    traceFeatureStep env start dir s f = s ∨
      (f.quadMapRays = true ∧ ∃ d, featureHitDist env start dir s.length f = some d ∧
        d < s.length ∧
        traceFeatureStep env start dir s f = acceptFeature s f d
          (env.DetectHitF f start (start.add (dir.scale s.length))).2) := by
  unfold traceFeatureStep featureHitDist acceptFeature
  by_cases hq : f.quadMapRays = true
  · by_cases hh : (env.DetectHitF f start (start.add (dir.scale s.length))).1 = true
    · by_cases hl : env.GetHitPosDist (env.DetectHitF f start (start.add (dir.scale s.length))).2
          start dir < s.length
      · right
        exact ⟨hq, _, by simp [hh], hl, by simp [hq, hh, hl]⟩
      · left
        simp [hq, hh, hl]
    · left
      simp [hq, hh]
  · left
    simp [hq]

theorem traceFeatureStep_miss (env : Env) (start dir : float3) (s : TraceResult)
    (f : CFeature) (h : ∀ d, featureHitDist env start dir s.length f = some d → s.length ≤ d) :
    traceFeatureStep env start dir s f = s := by
  rcases traceFeatureStep_cases env start dir s f with h1 | ⟨_, d, hd, hlt, _⟩
  · exact h1
  · exact absurd (h d hd) (not_le.mpr hlt)

theorem traceFeatureStep_hit (env : Env) (start dir : float3) (s : TraceResult)
    (f : CFeature) (d : ℚ) (hq : f.quadMapRays = true)
    (hd : featureHitDist env start dir s.length f = some d) (hlt : d < s.length) :
    traceFeatureStep env start dir s f = acceptFeature s f d
      (env.DetectHitF f start (start.add (dir.scale s.length))).2 := by
  unfold featureHitDist at hd
  by_cases hh : (env.DetectHitF f start (start.add (dir.scale s.length))).1 = true
  · simp only [hh, if_true, Option.some.injEq] at hd
    subst hd
    unfold traceFeatureStep acceptFeature
    simp [hq, hh, hlt]
  · simp [hh] at hd

theorem traceUnitStep_cases (env : Env) (start dir : float3) (avoidFlags : Nat)
    (owner : Option CUnit) (s s' : TraceResult) (u : CUnit)
    (h : traceUnitStep env start dir (hasFlag avoidFlags Collision.NOFRIENDLIES)
      (hasFlag avoidFlags Collision.NOENEMIES) (hasFlag avoidFlags Collision.NONEUTRALS)
      (hasFlag avoidFlags Collision.NOCLOAKED) owner s u = some s') :
    s' = s ∨
      (unitCandidate avoidFlags owner u ∧ ∃ d, unitHitDist env start dir s.length u = some d ∧
        d < s.length ∧
        s' = acceptUnit s u d (env.DetectHitU u start (start.add (dir.scale s.length))).2) := by
  unfold traceUnitStep at h
  by_cases ho : ptrEqU u owner = true
  · left
    simp [ho] at h
    exact h.symm
  · by_cases hq : u.quadMapRays = true
    · simp only [ho, hq, Bool.not_true, if_false, Bool.false_eq_true] at h
      rcases Option.bind_eq_some.mp h with ⟨skipped, hsk, hrest⟩
      cases skipped with
      | true =>
        left
        simp at hrest
        exact hrest.symm
      | false =>
        simp only [if_false, Bool.false_eq_true] at hrest
        by_cases hh : (env.DetectHitU u start (start.add (dir.scale s.length))).1 = true
        · by_cases hl : env.GetHitPosDist
              (env.DetectHitU u start (start.add (dir.scale s.length))).2 start dir < s.length
          · right
            refine ⟨⟨by simpa using ho, hq, hsk⟩, _, ?_, hl, ?_⟩
            · simp [unitHitDist, hh]
            · simp [hh, hl] at hrest
              simp [acceptUnit, ← hrest]
          · left
            simp [hh, hl] at hrest
            exact hrest.symm
        · left
          simp [hh] at hrest
          exact hrest.symm
    · left
      simp [ho, hq] at h
      exact h.symm

theorem traceUnitStep_skip (env : Env) (start dir : float3) (iA iE iN iC : Bool)
    (owner : Option CUnit) (s : TraceResult) (u : CUnit)
    (h : ptrEqU u owner = true ∨ u.quadMapRays = false) :
    traceUnitStep env start dir iA iE iN iC owner s u = some s := by
  unfold traceUnitStep
  rcases h with h | h
  · simp [h]
  · simp [h]

theorem traceUnitStep_candidate (env : Env) (start dir : float3) (avoidFlags : Nat)
    (owner : Option CUnit) (s : TraceResult) (u : CUnit)
    (hc : unitCandidate avoidFlags owner u) :
    traceUnitStep env start dir (hasFlag avoidFlags Collision.NOFRIENDLIES)
      (hasFlag avoidFlags Collision.NOENEMIES) (hasFlag avoidFlags Collision.NONEUTRALS)
      (hasFlag avoidFlags Collision.NOCLOAKED) owner s u =
      match unitHitDist env start dir s.length u with
      | some d =>
        if d < s.length then
          some (acceptUnit s u d (env.DetectHitU u start (start.add (dir.scale s.length))).2)
        else some s
      | none => some s := by
  obtain ⟨ho, hq, hsk⟩ := hc
  unfold traceUnitStep unitHitDist acceptUnit
  simp only [ho, hq, hsk, Bool.not_true, if_false, Bool.false_eq_true, Option.some_bind]
  by_cases hh : (env.DetectHitU u start (start.add (dir.scale s.length))).1 = true
  · simp [hh]
  · simp [hh]

theorem featureHitDist_some (env : Env) (start dir : float3) (len d : ℚ) (f : CFeature)
    (h : featureHitDist env start dir len f = some d) :
    d = env.GetHitPosDist (env.DetectHitF f start (start.add (dir.scale len))).2 start dir := by
  unfold featureHitDist at h
  by_cases hh : (env.DetectHitF f start (start.add (dir.scale len))).1 = true
  · simp only [hh, if_true, Option.some.injEq] at h
    exact h.symm
  · simp [hh] at h

theorem unitHitDist_some (env : Env) (start dir : float3) (len d : ℚ) (u : CUnit)
    (h : unitHitDist env start dir len u = some d) :
    d = env.GetHitPosDist (env.DetectHitU u start (start.add (dir.scale len))).2 start dir := by
  unfold unitHitDist at h
  by_cases hh : (env.DetectHitU u start (start.add (dir.scale len))).1 = true
  · simp only [hh, if_true, Option.some.injEq] at h
    exact h.symm
  · simp [hh] at h

/-- The general shape of `TraceRay` for a non-zero direction, with the two
entity loops flattened over the crossed quads. -/
theorem TraceRay_unfold (env : Env) (start dir : float3) (length : ℚ) (avoidFlags : Nat)
    (owner : Option CUnit) (hitColQuery : Option CollisionQuery) (hdir : dir ≠ ZeroVector) :
    TraceRay env start dir length avoidFlags owner hitColQuery =
      (traceEntities env start dir avoidFlags owner
        { length := length, hitUnit := none, hitFeature := none,
          hitColQuery := hitColQuery }).map
        (traceGround env start dir (hasFlag avoidFlags Collision.NOGROUND)) := by
  simp [TraceRay, hdir]

/-- An invariant of the state of `TraceRay`: it holds on return as soon as it
holds initially and every assignment of the function to its locals keeps it. -/
theorem TraceRay_invariant (P : TraceResult → Prop) (env : Env) (start dir : float3)
    (length : ℚ) (avoidFlags : Nat) (owner : Option CUnit)
    (hitColQuery : Option CollisionQuery) (r : TraceResult)
    (h0 : P { length := length, hitUnit := none, hitFeature := none,
              hitColQuery := hitColQuery })
    (hF : ∀ s f cq, P s → f.quadMapRays = true → env.GetHitPosDist cq start dir < s.length →
      P (acceptFeature s f (env.GetHitPosDist cq start dir) cq))
    (hU : ∀ s u cq, P s → unitCandidate avoidFlags owner u →
      env.GetHitPosDist cq start dir < s.length →
      P (acceptUnit s u (env.GetHitPosDist cq start dir) cq))
    (hclear : ∀ s, P s → s.hitUnit.isSome = true → P { s with hitFeature := none })
    (hG : ∀ s g, P s → 0 < g → g < s.length →
      P { s with length := g, hitUnit := none, hitFeature := none })
    (hdir : dir ≠ ZeroVector)
    (hr : TraceRay env start dir length avoidFlags owner hitColQuery = some r) : P r := by
  rw [TraceRay_unfold env start dir length avoidFlags owner hitColQuery hdir] at hr
  rcases Option.map_eq_some'.mp hr with ⟨s, hs, hsr⟩
  have hPs : P s := by
    unfold traceEntities at hs
    simp only at hs
    have hfeat : ∀ quads s1, P s1 → P (traceFeatures env start dir quads s1) := by
      intro quads s1 h1
      rw [traceFeatures_eq]
      refine foldl_invariant P _ _ ?_ s1 h1
      intro s2 f _ h2
      rcases traceFeatureStep_cases env start dir s2 f with h | ⟨hq, d, hd, hlt, h⟩
      · rw [h]; exact h2
      · rw [h]
        have hd' := featureHitDist_some env start dir _ d f hd
        subst hd'
        exact hF s2 f _ h2 hq hlt
    have hunit : ∀ quads s1 s2, P s1 →
        traceUnits env start dir (hasFlag avoidFlags Collision.NOFRIENDLIES)
          (hasFlag avoidFlags Collision.NOENEMIES) (hasFlag avoidFlags Collision.NONEUTRALS)
          (hasFlag avoidFlags Collision.NOCLOAKED) owner quads s1 = some s2 → P s2 := by
      intro quads s1 s2 h1 h12
      rw [traceUnits_eq] at h12
      refine foldlM_invariant P _ _ ?_ s1 s2 h1 h12
      intro s3 u s4 _ h3 h34
      rcases traceUnitStep_cases env start dir avoidFlags owner s3 s4 u h34 with
        h | ⟨hc, d, hd, hlt, h⟩
      · rw [h]; exact h3
      · rw [h]
        have hd' := unitHitDist_some env start dir _ d u hd
        subst hd'
        exact hU s3 u _ h3 hc hlt
    split at hs
    · have h1 : P (if (!hasFlag avoidFlags Collision.NOFEATURES) = true then
          traceFeatures env start dir (env.GetQuadsOnRay start dir length)
            { length := length, hitUnit := none, hitFeature := none,
              hitColQuery := hitColQuery }
          else { length := length, hitUnit := none, hitFeature := none,
                 hitColQuery := hitColQuery }) := by
        split
        · exact hfeat _ _ h0
        · exact h0
      split at hs
      · rcases Option.map_eq_some'.mp hs with ⟨s2, hs2, hs2s⟩
        have h2 := hunit _ _ _ h1 hs2
        rw [← hs2s]
        split
        · rename_i hsome
          exact hclear s2 h2 hsome
        · exact h2
      · cases hs
        exact h1
    · cases hs
      exact h0
  rw [← hsr]
  unfold traceGround
  split
  · dsimp only
    split
    · rename_i hg
      exact hG s _ hPs hg.2 hg.1
    · exact hPs
  · exact hPs

/-- The entity part of `TraceRay` is the feature pass followed by the unit
pass. -/
theorem traceEntities_phases (env : Env) (start dir : float3) (avoidFlags : Nat)
    (owner : Option CUnit) (s : TraceResult) :
    traceEntities env start dir avoidFlags owner s =
      tracePhaseU env start dir s.length avoidFlags owner
        (tracePhaseF env start dir s.length avoidFlags s) := by
  unfold traceEntities tracePhaseU tracePhaseF ignoreUnitsFlag crossedFeatures crossedUnits
  simp only [traceFeatures_eq, traceUnits_eq]
  cases hF : hasFlag avoidFlags Collision.NOFEATURES <;>
    cases hU : (hasFlag avoidFlags Collision.NOENEMIES &&
      hasFlag avoidFlags Collision.NOFRIENDLIES && hasFlag avoidFlags Collision.NONEUTRALS) <;>
    simp

/-- For a non-zero direction `TraceRay` is the feature pass, the unit pass and
the ground test, one after the other. -/
theorem TraceRay_phases (env : Env) (start dir : float3) (length : ℚ) (avoidFlags : Nat)
    (owner : Option CUnit) (hitColQuery : Option CollisionQuery) (hdir : dir ≠ ZeroVector) :
    TraceRay env start dir length avoidFlags owner hitColQuery =
      (tracePhaseU env start dir length avoidFlags owner
        (tracePhaseF env start dir length avoidFlags
          { length := length, hitUnit := none, hitFeature := none,
            hitColQuery := hitColQuery })).map
        (traceGround env start dir (hasFlag avoidFlags Collision.NOGROUND)) := by
  rw [TraceRay_unfold env start dir length avoidFlags owner hitColQuery hdir,
    traceEntities_phases]

theorem unitCandidate_owner (avoidFlags : Nat) (o u : CUnit)
    (h : unitCandidate avoidFlags (some o) u) :
    u.id ≠ o.id ∧ u.quadMapRays = true ∧
      (hasFlag avoidFlags Collision.NOFRIENDLIES = true → u.allyteam ≠ o.allyteam) ∧
      (hasFlag avoidFlags Collision.NOENEMIES = true → u.allyteam = o.allyteam) ∧
      (hasFlag avoidFlags Collision.NONEUTRALS = true → u.neutral = false) ∧
      (hasFlag avoidFlags Collision.NOCLOAKED = true → u.cloaked = false) := by
  obtain ⟨ho, hq, hsk⟩ := h
  refine ⟨by simpa [ptrEqU] using ho, hq, ?_⟩
  unfold traceUnitSkipped at hsk
  cases hA : hasFlag avoidFlags Collision.NOFRIENDLIES <;>
    cases hE : hasFlag avoidFlags Collision.NOENEMIES <;>
    cases hN : hasFlag avoidFlags Collision.NONEUTRALS <;>
    cases hC : hasFlag avoidFlags Collision.NOCLOAKED <;>
    by_cases hat : u.allyteam = o.allyteam <;>
    cases hn : u.neutral <;> cases hc : u.cloaked <;>
    simp [hA, hE, hN, hC, hat, hn, hc] at hsk ⊢

theorem guiUnitStep_one_output (env : Env) (start dir : float3) (len : ℚ)
    (exclude : Option CUnit) (useRadar : Bool) (s : GuiState) (u : CUnit)
    (h : s.hitUnit = none ∨ s.hitFeature = none) :
    (guiUnitStep env start dir len exclude useRadar s u).hitUnit = none ∨
      (guiUnitStep env start dir len exclude useRadar s u).hitFeature = none := by
  unfold guiUnitStep
  split
  · exact h
  · split
    · exact h
    · split
      · exact h
      · dsimp only
        split
        · split
          · right; rfl
          · exact h
        · exact h

theorem guiFeatureStep_one_output (env : Env) (start dir : float3) (len : ℚ) (s : GuiState)
    (f : CFeature) (h : s.hitUnit = none ∨ s.hitFeature = none) :
    (guiFeatureStep env start dir len s f).hitUnit = none ∨
      (guiFeatureStep env start dir len s f).hitFeature = none := by
  unfold guiFeatureStep
  split
  · exact h
  · split
    · exact h
    · dsimp only
      split
      · split
        · left; rfl
        · exact h
      · exact h

theorem foldl_fixed {σ α : Type} (f : σ → α → σ) (l : List α) (s : σ)
    (h : ∀ a, a ∈ l → f s a = s) : l.foldl f s = s := by
  induction l with
  | nil => rfl
  | cons a t ih =>
    simp only [List.foldl_cons, h a (List.mem_cons_self _ _)]
    exact ih (fun b hb => h b (List.mem_cons_of_mem _ hb))

theorem foldlM_fixed {σ α : Type} (f : σ → α → Option σ) (l : List α) (s : σ)
    (h : ∀ a, a ∈ l → f s a = some s) : l.foldlM f s = some s := by
  induction l with
  | nil => rfl
  | cons a t ih =>
    simp only [List.foldlM_cons, h a (List.mem_cons_self _ _)]
    exact ih (fun b hb => h b (List.mem_cons_of_mem _ hb))

theorem foldlM_defined {σ α : Type} (f : σ → α → Option σ) (l : List α)
    (h : ∀ s a, a ∈ l → ∃ s', f s a = some s') (s : σ) : ∃ s1, l.foldlM f s = some s1 := by
  induction l generalizing s with
  | nil => exact ⟨s, rfl⟩
  | cons a t ih =>
    obtain ⟨s', hs'⟩ := h s a (List.mem_cons_self _ _)
    simp only [List.foldlM_cons, hs']
    exact ih (fun s b hb => h s b (List.mem_cons_of_mem _ hb)) s'

theorem traceUnitSkipped_defined (iA iE iN iC : Bool) (owner : Option CUnit) (u : CUnit)
    (h : owner.isSome = true ∨ (iA = false ∧ iE = false)) :
    ∃ b, traceUnitSkipped iA iE iN iC owner u = some b := by
  unfold traceUnitSkipped
  rcases h with h | ⟨hA, hE⟩
  · cases owner with
    | none => simp at h
    | some o =>
      cases iA <;> cases iE <;> cases iN <;> cases iC <;>
        by_cases hat : u.allyteam = o.allyteam <;>
        cases hn : u.neutral <;> cases hc : u.cloaked <;> simp [hat]
  · subst hA hE
    cases iN <;> cases iC <;> cases hn : u.neutral <;> cases hc : u.cloaked <;> simp

theorem traceUnitStep_defined (env : Env) (start dir : float3) (iA iE iN iC : Bool)
    (owner : Option CUnit) (s : TraceResult) (u : CUnit)
    (h : owner.isSome = true ∨ (iA = false ∧ iE = false)) :
    ∃ s', traceUnitStep env start dir iA iE iN iC owner s u = some s' := by
  obtain ⟨b, hb⟩ := traceUnitSkipped_defined iA iE iN iC owner u h
  unfold traceUnitStep
  split
  · exact ⟨_, rfl⟩
  · split
    · exact ⟨_, rfl⟩
    · simp only [hb, Option.some_bind]
      split
      · exact ⟨_, rfl⟩
      · split
        · split
          · exact ⟨_, rfl⟩
          · exact ⟨_, rfl⟩
        · exact ⟨_, rfl⟩

/-- A unit that no `continue` skips is never tested by a call that sets both
NOENEMIES and NOFRIENDLIES. -/
theorem unitCandidate_not_ignoreUnits (avoidFlags : Nat) (owner : Option CUnit) (u : CUnit)
    (h : unitCandidate avoidFlags owner u) : ignoreUnitsFlag avoidFlags = false := by
  obtain ⟨_, _, hsk⟩ := h
  unfold traceUnitSkipped at hsk
  unfold ignoreUnitsFlag
  cases owner with
  | none =>
    cases hA : hasFlag avoidFlags Collision.NOFRIENDLIES <;>
      cases hE : hasFlag avoidFlags Collision.NOENEMIES <;>
      simp [hA, hE] at hsk ⊢
  | some o =>
    cases hA : hasFlag avoidFlags Collision.NOFRIENDLIES <;>
      cases hE : hasFlag avoidFlags Collision.NOENEMIES <;>
      by_cases hat : u.allyteam = o.allyteam <;>
      simp [hA, hE, hat] at hsk ⊢

/-- A unit that no `continue` skips shows that the call never dereferences a
null owner. -/
theorem unitCandidate_owner_available (avoidFlags : Nat) (owner : Option CUnit) (u : CUnit)
    (h : unitCandidate avoidFlags owner u) :
    owner.isSome = true ∨ (hasFlag avoidFlags Collision.NOFRIENDLIES = false ∧
      hasFlag avoidFlags Collision.NOENEMIES = false) := by
  obtain ⟨_, _, hsk⟩ := h
  unfold traceUnitSkipped at hsk
  cases owner with
  | some o => left; rfl
  | none =>
    right
    cases hA : hasFlag avoidFlags Collision.NOFRIENDLIES <;>
      cases hE : hasFlag avoidFlags Collision.NOENEMIES <;>
      simp [hA, hE] at hsk ⊢

theorem tracePhaseU_defined (env : Env) (start dir : float3) (length : ℚ) (avoidFlags : Nat)
    (owner : Option CUnit) (s : TraceResult) (h : ownerAvailable avoidFlags owner) :
    ∃ s', tracePhaseU env start dir length avoidFlags owner s = some s' := by
  unfold tracePhaseU
  split
  · exact ⟨_, rfl⟩
  · rename_i hig
    have h' : owner.isSome = true ∨ (hasFlag avoidFlags Collision.NOFRIENDLIES = false ∧
        hasFlag avoidFlags Collision.NOENEMIES = false) := by
      rcases h with h | h | h
      · exact Or.inl h
      · exact Or.inr h
      · exact absurd h hig
    obtain ⟨s1, hs1⟩ := foldlM_defined
      (traceUnitStep env start dir (hasFlag avoidFlags Collision.NOFRIENDLIES)
        (hasFlag avoidFlags Collision.NOENEMIES) (hasFlag avoidFlags Collision.NONEUTRALS)
        (hasFlag avoidFlags Collision.NOCLOAKED) owner)
      (crossedUnits env start dir length)
      (fun s u _ => traceUnitStep_defined env start dir _ _ _ _ owner s u h') s
    rw [hs1]
    exact ⟨_, rfl⟩

/-- The function `TraceRay` returns whenever the owner is available. -/
theorem TraceRay_defined (env : Env) (start dir : float3) (length : ℚ) (avoidFlags : Nat)
    (owner : Option CUnit) (hitColQuery : Option CollisionQuery)
    (h : ownerAvailable avoidFlags owner) :
    ∃ r, TraceRay env start dir length avoidFlags owner hitColQuery = some r := by
  by_cases hdir : dir = ZeroVector
  · exact ⟨{ length := -1, hitUnit := none, hitFeature := none, hitColQuery := hitColQuery },
      by simp [TraceRay, hdir]⟩
  · rw [TraceRay_phases env start dir length avoidFlags owner hitColQuery hdir]
    obtain ⟨s, hs⟩ := tracePhaseU_defined env start dir length avoidFlags owner
      (tracePhaseF env start dir length avoidFlags
        { length := length, hitUnit := none, hitFeature := none,
          hitColQuery := hitColQuery }) h
    rw [hs]
    exact ⟨_, rfl⟩

theorem traceUnitStep_miss (env : Env) (start dir : float3) (avoidFlags : Nat)
    (owner : Option CUnit) (s : TraceResult) (u : CUnit)
    (hdef : owner.isSome = true ∨ (hasFlag avoidFlags Collision.NOFRIENDLIES = false ∧
      hasFlag avoidFlags Collision.NOENEMIES = false))
    (h : unitCandidate avoidFlags owner u →
      ∀ d, unitHitDist env start dir s.length u = some d → s.length ≤ d) :
    traceUnitStep env start dir (hasFlag avoidFlags Collision.NOFRIENDLIES)
      (hasFlag avoidFlags Collision.NOENEMIES) (hasFlag avoidFlags Collision.NONEUTRALS)
      (hasFlag avoidFlags Collision.NOCLOAKED) owner s u = some s := by
  obtain ⟨s', hs'⟩ := traceUnitStep_defined env start dir
    (hasFlag avoidFlags Collision.NOFRIENDLIES) (hasFlag avoidFlags Collision.NOENEMIES)
    (hasFlag avoidFlags Collision.NONEUTRALS) (hasFlag avoidFlags Collision.NOCLOAKED)
    owner s u hdef
  rcases traceUnitStep_cases env start dir avoidFlags owner s s' u hs' with
    h1 | ⟨hc, d, hd, hlt, _⟩
  · rw [hs', h1]
  · exact absurd (h hc d hd) (not_le.mpr hlt)

/-- Invariants of the feature pass: `P` holds after it as soon as it holds
before and every accepted feature hit keeps it. -/
theorem tracePhaseF_invariant (P : TraceResult → Prop) (env : Env) (start dir : float3)
    (length : ℚ) (avoidFlags : Nat) (s : TraceResult) (hs : P s)
    (hF : ∀ s1 f d, f ∈ crossedFeatures env start dir length → P s1 →
      hasFlag avoidFlags Collision.NOFEATURES = false → f.quadMapRays = true →
      featureHitDist env start dir s1.length f = some d → d < s1.length →
      P (acceptFeature s1 f d (env.DetectHitF f start (start.add (dir.scale s1.length))).2)) :
    P (tracePhaseF env start dir length avoidFlags s) := by
  unfold tracePhaseF
  split
  · exact hs
  · rename_i hflag
    refine foldl_invariant P _ _ ?_ s hs
    intro s1 f hf h1
    rcases traceFeatureStep_cases env start dir s1 f with h | ⟨hq, d, hd, hlt, h⟩
    · rw [h]; exact h1
    · rw [h]
      exact hF s1 f d hf h1 (by simpa using hflag) hq hd hlt

/-- Invariants of the unit pass: the state after it is the unchanged input
when the pass is skipped, and otherwise a state satisfying the loop invariant
`P`, with `hitFeature` reset when a unit was hit. -/
theorem tracePhaseU_invariant (P : TraceResult → Prop) (env : Env) (start dir : float3)
    (length : ℚ) (avoidFlags : Nat) (owner : Option CUnit) (s s' : TraceResult) (hs : P s)
    (hU : ∀ s1 u d, u ∈ crossedUnits env start dir length → P s1 →
      unitCandidate avoidFlags owner u →
      unitHitDist env start dir s1.length u = some d → d < s1.length →
      P (acceptUnit s1 u d (env.DetectHitU u start (start.add (dir.scale s1.length))).2))
    (h : tracePhaseU env start dir length avoidFlags owner s = some s') :
    (ignoreUnitsFlag avoidFlags = true ∧ s' = s) ∨
      (ignoreUnitsFlag avoidFlags = false ∧ ∃ s2, P s2 ∧
        s' = if s2.hitUnit.isSome then { s2 with hitFeature := none } else s2) := by
  unfold tracePhaseU at h
  split at h
  · rename_i hig
    left
    cases h
    exact ⟨hig, rfl⟩
  · rename_i hig
    right
    rcases Option.map_eq_some'.mp h with ⟨s2, hs2, h2⟩
    refine ⟨by simpa using hig, s2, ?_, h2.symm⟩
    refine foldlM_invariant P _ _ ?_ s s2 hs hs2
    intro s3 u s4 hu h3 h34
    rcases traceUnitStep_cases env start dir avoidFlags owner s3 s4 u h34 with
      h | ⟨hc, d, hd, hlt, h⟩
    · rw [h]; exact h3
    · rw [h]
      exact hU s3 u d hu h3 hc hd hlt

theorem traceGround_cases (env : Env) (start dir : float3) (ig : Bool) (s : TraceResult) :
    traceGround env start dir ig s = s ∨
      (ig = false ∧ 0 < env.LineGroundCol start (start.add (dir.scale s.length)) ∧
        env.LineGroundCol start (start.add (dir.scale s.length)) < s.length ∧
        traceGround env start dir ig s =
          { s with length := env.LineGroundCol start (start.add (dir.scale s.length)),
                   hitUnit := none, hitFeature := none }) := by
  unfold traceGround
  split
  · rename_i hig
    dsimp only
    split
    · rename_i hg
      right
      exact ⟨by simpa using hig, hg.2, hg.1, rfl⟩
    · left; rfl
  · left; rfl

theorem traceGround_skip (env : Env) (start dir : float3) (ig : Bool) (s : TraceResult)
    (h : ig = true ∨ ¬ (0 < env.LineGroundCol start (start.add (dir.scale s.length)) ∧
      env.LineGroundCol start (start.add (dir.scale s.length)) < s.length)) :
    traceGround env start dir ig s = s := by
  rcases traceGround_cases env start dir ig s with h1 | ⟨hig, hpos, hlt, _⟩
  · exact h1
  · rcases h with h | h
    · rw [hig] at h
      cases h
    · exact absurd ⟨hpos, hlt⟩ h

/-! ## The search length only shrinks, and never stays beyond a candidate -/

theorem foldl_establish {σ α : Type} (Q : σ → Prop) (f : σ → α → σ) (l : List α) (a : α)
    (ha : a ∈ l) (hQ : ∀ s x, Q s → Q (f s x)) (hE : ∀ s, Q (f s a)) (s : σ) :
    Q (l.foldl f s) := by
  induction l generalizing s with
  | nil => cases ha
  | cons x t ih =>
    simp only [List.foldl_cons]
    rcases List.mem_cons.mp ha with h | h
    · subst h
      exact foldl_invariant Q f t (fun s x _ hs => hQ s x hs) _ (hE s)
    · exact ih h _

theorem foldlM_establish {σ α : Type} (Q : σ → Prop) (f : σ → α → Option σ) (l : List α)
    (a : α) (ha : a ∈ l) (hQ : ∀ s x s', Q s → f s x = some s' → Q s')
    (hE : ∀ s s', f s a = some s' → Q s') (s s1 : σ) (h : l.foldlM f s = some s1) : Q s1 := by
  induction l generalizing s with
  | nil => cases ha
  | cons x t ih =>
    simp only [List.foldlM_cons] at h
    cases hfx : f s x with
    | none => simp [hfx] at h
    | some s' =>
      simp only [hfx] at h
      rcases List.mem_cons.mp ha with h1 | h1
      · subst h1
        exact foldlM_invariant Q f t (fun s x s' _ hs hx => hQ s x s' hs hx) s' s1
          (hE s s' hfx) h
      · exact ih h1 s' h

theorem traceFeatureStep_le (env : Env) (start dir : float3) (s : TraceResult) (f : CFeature) :
    (traceFeatureStep env start dir s f).length ≤ s.length := by
  rcases traceFeatureStep_cases env start dir s f with h | ⟨_, d, _, hlt, h⟩
  · rw [h]
  · rw [h]
    exact le_of_lt hlt

theorem traceUnitStep_le (env : Env) (start dir : float3) (avoidFlags : Nat)
    (owner : Option CUnit) (s s' : TraceResult) (u : CUnit)
    (h : traceUnitStep env start dir (hasFlag avoidFlags Collision.NOFRIENDLIES)
      (hasFlag avoidFlags Collision.NOENEMIES) (hasFlag avoidFlags Collision.NONEUTRALS)
      (hasFlag avoidFlags Collision.NOCLOAKED) owner s u = some s') :
    s'.length ≤ s.length := by
  rcases traceUnitStep_cases env start dir avoidFlags owner s s' u h with h1 | ⟨_, d, _, hlt, h1⟩
  · rw [h1]
  · rw [h1]
    exact le_of_lt hlt

theorem tracePhaseF_le (env : Env) (start dir : float3) (length : ℚ) (avoidFlags : Nat)
    (s : TraceResult) : (tracePhaseF env start dir length avoidFlags s).length ≤ s.length :=
  tracePhaseF_invariant (fun s1 => s1.length ≤ s.length) env start dir length avoidFlags s
    (le_refl _) (fun _ _ _ _ h1 _ _ _ hlt => le_trans (le_of_lt hlt) h1)

theorem tracePhaseU_le (env : Env) (start dir : float3) (length : ℚ) (avoidFlags : Nat)
    (owner : Option CUnit) (s s' : TraceResult)
    (h : tracePhaseU env start dir length avoidFlags owner s = some s') :
    s'.length ≤ s.length := by
  rcases tracePhaseU_invariant (fun s1 => s1.length ≤ s.length) env start dir length avoidFlags
    owner s s' (le_refl _) (fun _ _ _ _ h1 _ _ hlt => le_trans (le_of_lt hlt) h1) h with
    ⟨_, h1⟩ | ⟨_, s2, h2, h1⟩
  · rw [h1]
  · rw [h1]
    split
    · exact h2
    · exact h2

/-- After the feature pass the search length is at most the hit distance of
any candidate feature that the collision query hits beyond that distance. -/
theorem tracePhaseF_le_candidate (env : Env) (start dir : float3) (length : ℚ)
    (avoidFlags : Nat) (s : TraceResult) (a : CFeature) (dA : ℚ)
    (hflag : hasFlag avoidFlags Collision.NOFEATURES = false)
    (ha : a ∈ crossedFeatures env start dir length) (hq : a.quadMapRays = true)
    (hA : ∀ len, dA < len → featureHitDist env start dir len a = some dA) :
    (tracePhaseF env start dir length avoidFlags s).length ≤ dA := by
  unfold tracePhaseF
  simp only [hflag, Bool.false_eq_true, if_false]
  refine foldl_establish (fun s1 : TraceResult => s1.length ≤ dA) _ _ a ha ?_ ?_ s
  · intro s1 f h1
    exact le_trans (traceFeatureStep_le env start dir s1 f) h1
  · intro s1
    by_cases hlt : dA < s1.length
    · rw [traceFeatureStep_hit env start dir s1 a dA hq (hA _ hlt) hlt]
      exact le_refl _
    · exact le_trans (traceFeatureStep_le env start dir s1 a) (not_lt.mp hlt)

/-- After the unit pass the search length is at most the hit distance of any
candidate unit that the collision query hits beyond that distance. -/
theorem tracePhaseU_le_candidate (env : Env) (start dir : float3) (length : ℚ)
    (avoidFlags : Nat) (owner : Option CUnit) (s s' : TraceResult) (a : CUnit) (dA : ℚ)
    (ha : a ∈ crossedUnits env start dir length) (hc : unitCandidate avoidFlags owner a)
    (hA : ∀ len, dA < len → unitHitDist env start dir len a = some dA)
    (h : tracePhaseU env start dir length avoidFlags owner s = some s') :
    s'.length ≤ dA := by
  unfold tracePhaseU at h
  rw [unitCandidate_not_ignoreUnits avoidFlags owner a hc] at h
  simp only [Bool.false_eq_true, if_false] at h
  rcases Option.map_eq_some'.mp h with ⟨s2, hs2, h2⟩
  have h3 : s2.length ≤ dA := by
    refine foldlM_establish (fun s1 : TraceResult => s1.length ≤ dA) _ _ a ha ?_ ?_ s s2 hs2
    · intro s1 u s1' h1 hstep
      exact le_trans (traceUnitStep_le env start dir avoidFlags owner s1 s1' u hstep) h1
    · intro s1 s1' hstep
      by_cases hlt : dA < s1.length
      · rw [traceUnitStep_candidate env start dir avoidFlags owner s1 a hc, hA _ hlt] at hstep
        simp only [hlt, if_true, Option.some.injEq] at hstep
        rw [← hstep]
        exact le_refl _
      · exact le_trans (traceUnitStep_le env start dir avoidFlags owner s1 s1' a hstep)
          (not_lt.mp hlt)
  rw [← h2]
  split
  · exact h3
  · exact h3

/-! ## The closest candidate wins -/

/-- After the entity loops of `TraceRay` the search length is at most the hit
distance `dA` of any valid candidate that the query hits beyond `dA`. -/
theorem traceEntities_le_candidate (env : Env) (start dir : float3) (length : ℚ)
    (avoidFlags : Nat) (owner : Option CUnit) (A : CSolidObject) (dA : ℚ)
    (s sU : TraceResult)
    (hAc : objCandidate env start dir length avoidFlags owner A)
    (hA : ∀ len, dA < len → objHitDist env start dir len A = some dA)
    (hU : tracePhaseU env start dir length avoidFlags owner
      (tracePhaseF env start dir length avoidFlags s) = some sU) :
    sU.length ≤ dA := by
  cases A with
  | unit a =>
    exact tracePhaseU_le_candidate env start dir length avoidFlags owner _ sU a dA
      hAc.1 hAc.2 hA hU
  | feature a =>
    exact le_trans (tracePhaseU_le env start dir length avoidFlags owner _ sU hU)
      (tracePhaseF_le_candidate env start dir length avoidFlags s a dA hAc.1 hAc.2.1 hAc.2.2 hA)

/-- If a valid candidate `A` is hit at distance `dA` and every distance the
query reports for `B` is greater than `dA`, the state after the entity loops
of `TraceRay` does not reference `B`. -/
theorem traceEntities_never_farther (env : Env) (start dir : float3) (length : ℚ)
    (avoidFlags : Nat) (owner : Option CUnit) (hitColQuery : Option CollisionQuery)
    (A B : CSolidObject) (dA : ℚ) (sU : TraceResult)
    (hAc : objCandidate env start dir length avoidFlags owner A)
    (hA : ∀ len, dA < len → objHitDist env start dir len A = some dA)
    (hB : ∀ len d, objHitDist env start dir len B = some d → dA < d)
    (hU : tracePhaseU env start dir length avoidFlags owner
      (tracePhaseF env start dir length avoidFlags
        { length := length, hitUnit := none, hitFeature := none,
          hitColQuery := hitColQuery }) = some sU) :
    ¬ sU.references B := by
  have hLA := traceEntities_le_candidate env start dir length avoidFlags owner A dA _ sU
    hAc hA hU
  have hPF := tracePhaseF_invariant
    (fun s => s.hitUnit = none ∧
      (∀ b, B = CSolidObject.feature b → s.hitFeature = some b → dA < s.length))
    env start dir length avoidFlags
    { length := length, hitUnit := none, hitFeature := none, hitColQuery := hitColQuery }
    ⟨rfl, fun b _ hb => by simp at hb⟩
    (fun s1 f d _ hP _ _ hd hlt => by
      refine ⟨hP.1, ?_⟩
      intro b hBb hfb
      simp only [acceptFeature, Option.some.injEq] at hfb
      subst hfb
      subst hBb
      exact hB _ d hd)
  rcases tracePhaseU_invariant
    (fun s => (∀ b, B = CSolidObject.unit b → s.hitUnit = some b → dA < s.length) ∧
      (∀ b, B = CSolidObject.feature b → s.hitFeature = some b →
        dA < s.length ∨ s.hitUnit.isSome = true))
    env start dir length avoidFlags owner _ sU
    ⟨fun b _ hb => absurd (hPF.1 ▸ hb : (none : Option CUnit) = some b) (by simp),
      fun b hBb hb => Or.inl (hPF.2 b hBb hb)⟩
    (fun s1 u d _ hP _ hd hlt => by
      constructor
      · intro b hBb hub
        simp only [acceptUnit, Option.some.injEq] at hub
        subst hub
        subst hBb
        exact hB _ d hd
      · intro b _ _
        right
        rfl) hU with ⟨hig, h⟩ | ⟨_, s2, h2, h⟩
  · rw [h] at hLA ⊢
    cases B with
    | unit b =>
      intro hb
      simp only [TraceResult.references] at hb
      rw [hPF.1] at hb
      cases hb
    | feature b =>
      intro hb
      exact absurd (hPF.2 b rfl hb) (not_lt.mpr hLA)
  · have hlen : sU.length = s2.length := by
      rw [h]
      split <;> rfl
    have hunit : sU.hitUnit = s2.hitUnit := by
      rw [h]
      split <;> rfl
    rw [hlen] at hLA
    cases B with
    | unit b =>
      intro hb
      simp only [TraceResult.references] at hb
      rw [hunit] at hb
      exact absurd (h2.1 b rfl hb) (not_lt.mpr hLA)
    | feature b =>
      intro hb
      simp only [TraceResult.references] at hb
      rw [h] at hb
      split at hb
      · cases hb
      · rename_i hnone
        rcases h2.2 b rfl hb with h3 | h3
        · exact absurd h3 (not_lt.mpr hLA)
        · exact hnone h3

/-- The ground test never adds a reference to an object. -/
theorem traceGround_references (env : Env) (start dir : float3) (ig : Bool) (s : TraceResult)
    (B : CSolidObject) (h : (traceGround env start dir ig s).references B) :
    s.references B := by
  rcases traceGround_cases env start dir ig s with h1 | ⟨_, _, _, h1⟩
  · rw [h1] at h
    exact h
  · rw [h1] at h
    cases B with
    | unit b => cases h
    | feature b => cases h

/-- If a valid candidate `A` is hit at distance `dA` below the requested
length and every other candidate is only ever hit beyond `dA`, the state after
the entity loops of `TraceRay` has length `dA` and references `A` alone. -/
theorem traceEntities_closest (env : Env) (start dir : float3) (length : ℚ)
    (avoidFlags : Nat) (owner : Option CUnit) (hitColQuery : Option CollisionQuery)
    (A : CSolidObject) (dA : ℚ) (sU : TraceResult)
    (hAc : objCandidate env start dir length avoidFlags owner A) (hdA : dA < length)
    (hA : ∀ len, dA < len → objHitDist env start dir len A = some dA)
    (hA2 : ∀ d, objHitDist env start dir dA A = some d → dA ≤ d)
    (hOF : ∀ f, f ∈ crossedFeatures env start dir length → f.quadMapRays = true →
      CSolidObject.feature f ≠ A → ∀ len d, featureHitDist env start dir len f = some d → dA < d)
    (hOU : ∀ u, u ∈ crossedUnits env start dir length → unitCandidate avoidFlags owner u →
      CSolidObject.unit u ≠ A → ∀ len d, unitHitDist env start dir len u = some d → dA < d)
    (hU : tracePhaseU env start dir length avoidFlags owner
      (tracePhaseF env start dir length avoidFlags
        { length := length, hitUnit := none, hitFeature := none,
          hitColQuery := hitColQuery }) = some sU) :
    sU.length = dA ∧ sU.hitsOnly A := by
  have hLA := traceEntities_le_candidate env start dir length avoidFlags owner A dA _ sU
    hAc hA hU
  cases A with
  | feature a =>
    have hPF := tracePhaseF_invariant
      (fun s => s.hitUnit = none ∧
        (dA < s.length ∨ (s.length = dA ∧ s.hitFeature = some a)))
      env start dir length avoidFlags
      { length := length, hitUnit := none, hitFeature := none, hitColQuery := hitColQuery }
      ⟨rfl, Or.inl hdA⟩
      (fun s1 f d hf hP _ hq hd hlt => by
        refine ⟨hP.1, ?_⟩
        by_cases hfa : f = a
        · subst hfa
          rcases hP.2 with h | ⟨h, _⟩
          · have h1 := hA _ h
            simp only [objHitDist] at h1
            rw [h1] at hd
            cases hd
            right
            exact ⟨rfl, rfl⟩
          · rw [h] at hd hlt
            exact absurd (hA2 d hd) (not_le.mpr hlt)
        · left
          exact hOF f hf hq (fun h => hfa (by cases h; rfl)) _ d hd)
    have hLF := tracePhaseF_le_candidate env start dir length avoidFlags
      { length := length, hitUnit := none, hitFeature := none, hitColQuery := hitColQuery }
      a dA hAc.1 hAc.2.1 hAc.2.2 hA
    have hF : (tracePhaseF env start dir length avoidFlags
        { length := length, hitUnit := none, hitFeature := none,
          hitColQuery := hitColQuery }).length = dA ∧
        (tracePhaseF env start dir length avoidFlags
          { length := length, hitUnit := none, hitFeature := none,
            hitColQuery := hitColQuery }).hitFeature = some a ∧
        (tracePhaseF env start dir length avoidFlags
          { length := length, hitUnit := none, hitFeature := none,
            hitColQuery := hitColQuery }).hitUnit = none := by
      rcases hPF.2 with h | ⟨h1, h2⟩
      · exact absurd h (not_lt.mpr hLF)
      · exact ⟨h1, h2, hPF.1⟩
    rcases tracePhaseU_invariant
      (fun s => s.length = dA ∧ s.hitFeature = some a ∧ s.hitUnit = none)
      env start dir length avoidFlags owner _ sU hF
      (fun s1 u d hu hP hc hd hlt => by
        have h1 := hOU u hu hc (by simp) _ d hd
        rw [hP.1] at hlt
        exact absurd h1 (not_lt.mpr (le_of_lt hlt))) hU with ⟨_, h⟩ | ⟨_, s2, h2, h⟩
    · rw [h]
      exact ⟨hF.1, hF.2.1, hF.2.2⟩
    · rw [h]
      simp only [h2.2.2, Option.isSome_none, Bool.false_eq_true, if_false]
      exact ⟨h2.1, h2.2.1, h2.2.2⟩
  | unit a =>
    have hPF := tracePhaseF_invariant
      (fun s => s.hitUnit = none ∧ dA < s.length)
      env start dir length avoidFlags
      { length := length, hitUnit := none, hitFeature := none, hitColQuery := hitColQuery }
      ⟨rfl, hdA⟩
      (fun s1 f d hf hP _ hq hd _ => ⟨hP.1, hOF f hf hq (by simp) _ d hd⟩)
    rcases tracePhaseU_invariant
      (fun s => dA < s.length ∨ (s.length = dA ∧ s.hitUnit = some a))
      env start dir length avoidFlags owner _ sU (Or.inl hPF.2)
      (fun s1 u d hu hP hc hd hlt => by
        by_cases hua : u = a
        · subst hua
          rcases hP with h | ⟨h, _⟩
          · have h1 := hA _ h
            simp only [objHitDist] at h1
            rw [h1] at hd
            cases hd
            right
            exact ⟨rfl, rfl⟩
          · rw [h] at hd hlt
            exact absurd (hA2 d hd) (not_le.mpr hlt)
        · left
          exact hOU u hu hc (fun h => hua (by cases h; rfl)) _ d hd) hU with
      ⟨hig, _⟩ | ⟨_, s2, h2, h⟩
    · rw [unitCandidate_not_ignoreUnits avoidFlags owner a hAc.2] at hig
      cases hig
    · have hlen : sU.length = s2.length := by
        rw [h]
        split <;> rfl
      rw [hlen] at hLA
      rcases h2 with h3 | ⟨h3, h4⟩
      · exact absurd h3 (not_lt.mpr hLA)
      · rw [h]
        simp only [h4, Option.isSome_some, if_true]
        exact ⟨h3, rfl, rfl⟩

/-- The closest-candidate result for `TraceRay` itself: the ground test leaves
the entity result alone when the ground does not intersect before `dA`. -/
theorem TraceRay_closest (env : Env) (start dir : float3) (length : ℚ)
    (avoidFlags : Nat) (owner : Option CUnit) (hitColQuery : Option CollisionQuery)
    (A : CSolidObject) (dA : ℚ) (r : TraceResult) (hdir : dir ≠ ZeroVector)
    (hAc : objCandidate env start dir length avoidFlags owner A) (hdA : dA < length)
    (hA : ∀ len, dA < len → objHitDist env start dir len A = some dA)
    (hA2 : ∀ d, objHitDist env start dir dA A = some d → dA ≤ d)
    (hOF : ∀ f, f ∈ crossedFeatures env start dir length → f.quadMapRays = true →
      CSolidObject.feature f ≠ A → ∀ len d, featureHitDist env start dir len f = some d → dA < d)
    (hOU : ∀ u, u ∈ crossedUnits env start dir length → unitCandidate avoidFlags owner u →
      CSolidObject.unit u ≠ A → ∀ len d, unitHitDist env start dir len u = some d → dA < d)
    (hG : hasFlag avoidFlags Collision.NOGROUND = true ∨
      ¬ (0 < env.LineGroundCol start (start.add (dir.scale dA)) ∧
        env.LineGroundCol start (start.add (dir.scale dA)) < dA))
    (hr : TraceRay env start dir length avoidFlags owner hitColQuery = some r) :
    r.length = dA ∧ r.hitsOnly A := by
  rw [TraceRay_phases env start dir length avoidFlags owner hitColQuery hdir] at hr
  rcases Option.map_eq_some'.mp hr with ⟨sU, hsU, hsr⟩
  have h := traceEntities_closest env start dir length avoidFlags owner hitColQuery A dA sU
    hAc hdA hA hA2 hOF hOU hsU
  rw [traceGround_skip env start dir _ sU (by rw [h.1]; exact hG)] at hsr
  rw [← hsr]
  exact h

/-! ## The cone helpers on an object centred on the firing line -/

theorem dot_centre_on_line (pos dir : float3) (d : ℚ) (hnorm : dir.dot dir = 1) :
    (((pos.add (dir.scale d))).sub pos).dot dir = d := by
  simp only [float3.add, float3.sub, float3.scale, float3.dot] at *
  linear_combination d * hnorm

theorem Clamp_of_mem (d length : ℚ) (h0 : 0 ≤ d) (h1 : d ≤ length) : Clamp d 0 length = d := by
  unfold Clamp
  rw [max_eq_right h0, min_eq_right h1]

/-- With a normalized direction, an object whose volume centre lies on the
firing line at distance `d` in `[0, length]` and whose surface distance at its
centre is at most the cone size is inside the cone. -/
theorem TestConeHelper_centre (env : Env) (pos dir : float3) (length spread d : ℚ)
    (obj : CSolidObject) (hnorm : dir.dot dir = 1) (h0 : 0 ≤ d) (h1 : d ≤ length)
    (hc : obj.worldSpacePos env = pos.add (dir.scale d))
    (hs : obj.pointSurfaceDistance env (obj.worldSpacePos env) ≤ |d| * spread + 1) :
    TestConeHelper env pos dir length spread obj = true := by
  unfold TestConeHelper
  simp only [Bool.not_false, if_true]
  have hd : Clamp (((obj.worldSpacePos env).sub pos).dot dir) 0 length = d := by
    rw [hc, dot_centre_on_line pos dir d hnorm, Clamp_of_mem d length h0 h1]
  rw [hd, ← hc]
  have h2 : obj.pointSurfaceDistance env (obj.worldSpacePos env) - (|d| * spread + 1) ≤ 0 := by
    linarith
  by_cases h3 : obj.pointSurfaceDistance env pos - (|d| * spread + 1) ≤ 0
  · simp only [h3, decide_True, Bool.not_true, Bool.false_eq_true, if_false]
  · simp only [h3, decide_False, Bool.not_false, if_true, h2, decide_True]

/-! ## Units that the cone tests never look at -/

theorem any_insert_false {α : Type} (p : α → Bool) (l : List α) (n : Nat) (a : α)
    (h : p a = false) : (l.take n ++ a :: l.drop n).any p = l.any p := by
  rw [List.any_append, List.any_cons, h, Bool.false_or, ← List.any_append,
    List.take_append_drop]

theorem coneQuadHit_addUnit (env : Env) (helper : CSolidObject → Bool) (iA iN iF : Bool)
    (allyteam : Int) (owner : Option CUnit) (quadIdx : Int) (n : Nat) (u : CUnit) (team : Int)
    (hn : u.neutral = false) (hteam : team ≠ allyteam) (q : Int) :
    coneQuadHit (env.addUnit quadIdx n u team) helper iA iN iF allyteam owner q =
      coneQuadHit env helper iA iN iF allyteam owner q := by
  unfold coneQuadHit Env.addUnit
  by_cases hq : q = quadIdx
  · simp only [hq, if_true, Quad.addUnit, if_neg (Ne.symm hteam)]
    rw [any_insert_false _ _ n u (by simp [hn])]
  · simp only [hq, if_false]

/-! ## `GuiTraceRay`, step by step -/

/-- For a non-zero direction and `groundOnly` unset, `GuiTraceRay` is the
terrain-occlusion check applied to the outcome of the quad loop. -/
theorem GuiTraceRay_unfold (env : Env) (start dir : float3) (length : ℚ)
    (exclude : Option CUnit) (useRadar ignoreWater : Bool) (hdir : dir ≠ ZeroVector) :
    GuiTraceRay env start dir length exclude useRadar false ignoreWater =
      guiFinish (guiMinRayLength env start dir length ignoreWater)
        (guiLoop env start dir length exclude useRadar) := by
  simp [GuiTraceRay, guiLoop, hdir]

/-! ## Quads that are listed twice -/

theorem foldl_establish_inv {σ α : Type} (P Q : σ → Prop) (f : σ → α → σ) (l : List α)
    (a : α) (ha : a ∈ l) (hP : ∀ s x, x ∈ l → P s → P (f s x))
    (hQ : ∀ s x, x ∈ l → Q s → Q (f s x)) (hE : ∀ s, P s → Q (f s a)) (s : σ) (hs : P s) :
    Q (l.foldl f s) := by
  induction l generalizing s with
  | nil => cases ha
  | cons x t ih =>
    simp only [List.foldl_cons]
    rcases List.mem_cons.mp ha with h | h
    · subst h
      exact foldl_invariant Q f t (fun s x hx hs => hQ s x (List.mem_cons_of_mem _ hx) hs) _
        (hE s hs)
    · exact ih h (fun s x hx => hP s x (List.mem_cons_of_mem _ hx))
        (fun s x hx => hQ s x (List.mem_cons_of_mem _ hx)) _
        (hP s x (List.mem_cons_self _ _) hs)

theorem foldl_congr_mem {σ α : Type} (f g : σ → α → σ) (l : List α)
    (h : ∀ s a, a ∈ l → f s a = g s a) (s : σ) : l.foldl f s = l.foldl g s := by
  induction l generalizing s with
  | nil => rfl
  | cons a t ih =>
    simp only [List.foldl_cons, h s a (List.mem_cons_self _ _)]
    exact ih (fun s b hb => h s b (List.mem_cons_of_mem _ hb)) _

/-- A unit that is skipped or missed leaves the locals of `GuiTraceRay`
unchanged. -/
theorem guiUnitStep_miss (env : Env) (start dir : float3) (length : ℚ)
    (exclude : Option CUnit) (useRadar : Bool) (s : GuiState) (u : CUnit)
    (h : guiUnitCandidate env exclude useRadar u →
      guiUnitHit env start dir length useRadar u = none) :
    guiUnitStep env start dir length exclude useRadar s u = s := by
  unfold guiUnitStep
  split
  · rfl
  · rename_i h1
    split
    · rfl
    · rename_i h2
      split
      · rfl
      · rename_i h3
        have hc : guiUnitCandidate env exclude useRadar u :=
          ⟨by simpa using h1, by simpa using h2, by simpa using h3⟩
        have hh := h hc
        unfold guiUnitHit at hh
        by_cases hm : (env.MouseHit u start (start.add (dir.scale length))
            (guiUnitVolume env useRadar u)).1 = true
        · simp [hm] at hh
        · simp [hm]

/-- A candidate unit that is hit is selected exactly when the priority test
of source line 351 succeeds. -/
theorem guiUnitStep_hit (env : Env) (start dir : float3) (length : ℚ)
    (exclude : Option CUnit) (useRadar : Bool) (s : GuiState) (u : CUnit) (i e : ℚ)
    (hc : guiUnitCandidate env exclude useRadar u)
    (hh : guiUnitHit env start dir length useRadar u = some (i, e)) :
    guiUnitStep env start dir length exclude useRadar s u =
      if s.hitUnit.isNone ||
          (u.isFactory &&
            ((s.hitFactory && decide (i < s.minIngressDist)) ||
              (!s.hitFactory && decide (e < s.minIngressDist)))) ||
          (!u.isFactory &&
            ((s.hitFactory && decide (i < s.minEgressDist)) ||
              (!s.hitFactory && decide (i < s.minIngressDist))))
      then guiSelectUnit u i e else s := by
  obtain ⟨h1, h2, h3⟩ := hc
  unfold guiUnitHit at hh
  by_cases hm : (env.MouseHit u start (start.add (dir.scale length))
      (guiUnitVolume env useRadar u)).1 = true
  · simp only [hm, if_true, Option.some.injEq, Prod.mk.injEq] at hh
    obtain ⟨hi, he⟩ := hh
    unfold guiUnitStep guiSelectUnit
    simp only [h1, h2, h3, hm, hi, he, Bool.not_true, if_true, if_false, Bool.false_eq_true]
  · simp [hm] at hh

/-- A feature that is skipped or missed leaves the locals of `GuiTraceRay`
unchanged. -/
theorem guiFeatureStep_miss (env : Env) (start dir : float3) (length : ℚ) (s : GuiState)
    (f : CFeature)
    (h : guiFeatureCandidate env f → featureHitDist env start dir length f = none) :
    guiFeatureStep env start dir length s f = s := by
  unfold guiFeatureStep
  split
  · rfl
  · rename_i h1
    split
    · rfl
    · rename_i h2
      have hc : guiFeatureCandidate env f := by
        refine ⟨?_, by simpa using h2⟩
        cases hv : env.spectatingFullView
        · right
          simpa [hv] using h1
        · left
          rfl
      have hh := h hc
      unfold featureHitDist at hh
      by_cases hm : (env.DetectHitF f start (start.add (dir.scale length))).1 = true
      · simp [hm] at hh
      · simp [hm]

/-- When no feature is hit, the quad loop of `GuiTraceRay` is one pass of the
unit loop body over the units of the crossed quads. -/
theorem guiLoop_units_only (env : Env) (start dir : float3) (length : ℚ)
    (exclude : Option CUnit) (useRadar : Bool)
    (hfeat : ∀ f, f ∈ crossedFeatures env start dir length → guiFeatureCandidate env f →
      featureHitDist env start dir length f = none) :
    guiLoop env start dir length exclude useRadar =
      (crossedUnits env start dir length).foldl
        (guiUnitStep env start dir length exclude useRadar)
        { minIngressDist := length, minEgressDist := length, hitFactory := false,
          hitUnit := none, hitFeature := none } := by
  unfold guiLoop crossedUnits
  rw [← foldl_flatMap_eq]
  refine foldl_congr_mem _ _ _ ?_ _
  intro s q hq
  unfold guiQuadStep
  refine foldl_fixed _ _ _ ?_
  intro f hf
  exact guiFeatureStep_miss env start dir length _ f
    (hfeat f (List.mem_flatMap.mpr ⟨q, hq, hf⟩))

/-- The three states the locals of `GuiTraceRay` can be in when only a factory
`F` and a non-factory unit `U` are hit, and how the two units move between
them. -/
theorem guiUnitStep_factory_unit (env : Env) (start dir : float3) (length : ℚ)
    (exclude : Option CUnit) (useRadar : Bool) (F U : CUnit) (Fi Fe Ui Ue : ℚ)
    (hFfac : F.isFactory = true) (hUfac : U.isFactory = false)
    (hFc : guiUnitCandidate env exclude useRadar F)
    (hUc : guiUnitCandidate env exclude useRadar U)
    (hFhit : guiUnitHit env start dir length useRadar F = some (Fi, Fe))
    (hUhit : guiUnitHit env start dir length useRadar U = some (Ui, Ue)) :
    let step := guiUnitStep env start dir length exclude useRadar
    step (guiInitial length) F = guiSelectUnit F Fi Fe ∧
      step (guiInitial length) U = guiSelectUnit U Ui Ue ∧
      step (guiSelectUnit F Fi Fe) F = guiSelectUnit F Fi Fe ∧
      step (guiSelectUnit U Ui Ue) U = guiSelectUnit U Ui Ue ∧
      step (guiSelectUnit F Fi Fe) U =
        (if Ui < Fe then guiSelectUnit U Ui Ue else guiSelectUnit F Fi Fe) ∧
      step (guiSelectUnit U Ui Ue) F =
        (if Fe < Ui then guiSelectUnit F Fi Fe else guiSelectUnit U Ui Ue) := by
  intro step
  refine ⟨?_, ?_, ?_, ?_, ?_, ?_⟩
  · show guiUnitStep env start dir length exclude useRadar _ F = _
    rw [guiUnitStep_hit env start dir length exclude useRadar _ F Fi Fe hFc hFhit]
    simp [guiInitial]
  · show guiUnitStep env start dir length exclude useRadar _ U = _
    rw [guiUnitStep_hit env start dir length exclude useRadar _ U Ui Ue hUc hUhit]
    simp [guiInitial]
  · show guiUnitStep env start dir length exclude useRadar _ F = _
    rw [guiUnitStep_hit env start dir length exclude useRadar _ F Fi Fe hFc hFhit]
    simp [guiSelectUnit, hFfac]
  · show guiUnitStep env start dir length exclude useRadar _ U = _
    rw [guiUnitStep_hit env start dir length exclude useRadar _ U Ui Ue hUc hUhit]
    simp [guiSelectUnit, hUfac]
  · show guiUnitStep env start dir length exclude useRadar _ U = _
    rw [guiUnitStep_hit env start dir length exclude useRadar _ U Ui Ue hUc hUhit]
    simp [guiSelectUnit, hFfac, hUfac]
  · show guiUnitStep env start dir length exclude useRadar _ F = _
    rw [guiUnitStep_hit env start dir length exclude useRadar _ F Fi Fe hFc hFhit]
    simp [guiSelectUnit, hFfac, hUfac]

/-- The outcome of the quad loop of `GuiTraceRay` when only a factory `F` and
a non-factory unit `U` are hit. -/
theorem guiLoop_factory_unit (env : Env) (start dir : float3) (length : ℚ)
    (exclude : Option CUnit) (useRadar : Bool) (F U : CUnit) (Fi Fe Ui Ue : ℚ)
    (hFfac : F.isFactory = true) (hUfac : U.isFactory = false)
    (hFc : guiUnitCandidate env exclude useRadar F)
    (hUc : guiUnitCandidate env exclude useRadar U)
    (hFmem : F ∈ crossedUnits env start dir length)
    (hUmem : U ∈ crossedUnits env start dir length)
    (hFhit : guiUnitHit env start dir length useRadar F = some (Fi, Fe))
    (hUhit : guiUnitHit env start dir length useRadar U = some (Ui, Ue))
    (hothers : ∀ u, u ∈ crossedUnits env start dir length →
      guiUnitCandidate env exclude useRadar u → u ≠ F → u ≠ U →
      guiUnitHit env start dir length useRadar u = none)
    (hfeat : ∀ f, f ∈ crossedFeatures env start dir length → guiFeatureCandidate env f →
      featureHitDist env start dir length f = none) :
    (Ui < Fe → guiLoop env start dir length exclude useRadar = guiSelectUnit U Ui Ue) ∧
    (Fe < Ui → guiLoop env start dir length exclude useRadar = guiSelectUnit F Fi Fe) := by
  obtain ⟨h0F, h0U, hFF, hUU, hFU, hUF⟩ := guiUnitStep_factory_unit env start dir length
    exclude useRadar F U Fi Fe Ui Ue hFfac hUfac hFc hUc hFhit hUhit
  rw [guiLoop_units_only env start dir length exclude useRadar hfeat]
  show (∀ _ : Ui < Fe, (crossedUnits env start dir length).foldl
      (guiUnitStep env start dir length exclude useRadar) (guiInitial length) = _) ∧
    (∀ _ : Fe < Ui, (crossedUnits env start dir length).foldl
      (guiUnitStep env start dir length exclude useRadar) (guiInitial length) = _)
  have hother : ∀ s u, u ∈ crossedUnits env start dir length → u ≠ F → u ≠ U →
      guiUnitStep env start dir length exclude useRadar s u = s := by
    intro s u hu h1 h2
    exact guiUnitStep_miss env start dir length exclude useRadar s u
      (fun hc => hothers u hu hc h1 h2)
  constructor
  · intro hlt
    have hnlt : ¬ Fe < Ui := not_lt.mpr (le_of_lt hlt)
    rw [if_pos hlt] at hFU
    rw [if_neg hnlt] at hUF
    refine foldl_establish_inv
      (fun s => s = guiInitial length ∨
        s = guiSelectUnit F Fi Fe ∨ s = guiSelectUnit U Ui Ue)
      (fun s => s = guiSelectUnit U Ui Ue) _ _ U hUmem ?_ ?_ ?_ _ (Or.inl rfl)
    · intro s x hx hs
      by_cases hxF : x = F
      · subst hxF
        rcases hs with h | h | h
        · rw [h, h0F]; exact Or.inr (Or.inl rfl)
        · rw [h, hFF]; exact Or.inr (Or.inl rfl)
        · rw [h, hUF]; exact Or.inr (Or.inr rfl)
      · by_cases hxU : x = U
        · subst hxU
          rcases hs with h | h | h
          · rw [h, h0U]; exact Or.inr (Or.inr rfl)
          · rw [h, hFU]; exact Or.inr (Or.inr rfl)
          · rw [h, hUU]; exact Or.inr (Or.inr rfl)
        · rw [hother s x hx hxF hxU]
          exact hs
    · intro s x hx hs
      by_cases hxF : x = F
      · subst hxF
        rw [hs, hUF]
      · by_cases hxU : x = U
        · subst hxU
          rw [hs, hUU]
        · rw [hother s x hx hxF hxU]
          exact hs
    · intro s hs
      rcases hs with h | h | h
      · rw [h, h0U]
      · rw [h, hFU]
      · rw [h, hUU]
  · intro hlt
    have hnlt : ¬ Ui < Fe := not_lt.mpr (le_of_lt hlt)
    rw [if_neg hnlt] at hFU
    rw [if_pos hlt] at hUF
    refine foldl_establish_inv
      (fun s => s = guiInitial length ∨
        s = guiSelectUnit F Fi Fe ∨ s = guiSelectUnit U Ui Ue)
      (fun s => s = guiSelectUnit F Fi Fe) _ _ F hFmem ?_ ?_ ?_ _ (Or.inl rfl)
    · intro s x hx hs
      by_cases hxF : x = F
      · subst hxF
        rcases hs with h | h | h
        · rw [h, h0F]; exact Or.inr (Or.inl rfl)
        · rw [h, hFF]; exact Or.inr (Or.inl rfl)
        · rw [h, hUF]; exact Or.inr (Or.inl rfl)
      · by_cases hxU : x = U
        · subst hxU
          rcases hs with h | h | h
          · rw [h, h0U]; exact Or.inr (Or.inr rfl)
          · rw [h, hFU]; exact Or.inr (Or.inl rfl)
          · rw [h, hUU]; exact Or.inr (Or.inr rfl)
        · rw [hother s x hx hxF hxU]
          exact hs
    · intro s x hx hs
      by_cases hxF : x = F
      · subst hxF
        rw [hs, hFF]
      · by_cases hxU : x = U
        · subst hxU
          rw [hs, hFU]
        · rw [hother s x hx hxF hxU]
          exact hs
    · intro s hs
      rcases hs with h | h | h
      · rw [h, h0F]
      · rw [h, hFF]
      · rw [h, hUF]

/-! ## The cone tests compared -/

theorem any_mono {α : Type} (p q : α → Bool) (l : List α)
    (h : ∀ x, p x = true → q x = true) (hp : l.any p = true) : l.any q = true := by
  rw [List.any_eq_true] at hp ⊢
  obtain ⟨x, hx, hpx⟩ := hp
  exact ⟨x, hx, h x hpx⟩

/-- The quad test of the cone functions is monotone in the helper. -/
theorem coneQuadHit_mono (env : Env) (h1 h2 : CSolidObject → Bool) (iA iN iF : Bool)
    (allyteam : Int) (owner : Option CUnit) (q : Int)
    (h : ∀ obj, h1 obj = true → h2 obj = true)
    (hq : coneQuadHit env h1 iA iN iF allyteam owner q = true) :
    coneQuadHit env h2 iA iN iF allyteam owner q = true := by
  unfold coneQuadHit at hq ⊢
  simp only [Bool.or_eq_true, Bool.and_eq_true] at hq ⊢
  rcases hq with (⟨hf, ha⟩ | ⟨hf, ha⟩) | ⟨hf, ha⟩
  · refine Or.inl (Or.inl ⟨hf, any_mono _ _ _ ?_ ha⟩)
    intro u hu
    simp only [Bool.and_eq_true] at hu ⊢
    exact ⟨hu.1, h _ hu.2⟩
  · refine Or.inl (Or.inr ⟨hf, any_mono _ _ _ ?_ ha⟩)
    intro u hu
    simp only [Bool.and_eq_true] at hu ⊢
    exact ⟨hu.1, h _ hu.2⟩
  · refine Or.inr ⟨hf, any_mono _ _ _ ?_ ha⟩
    intro f hu
    simp only [Bool.and_eq_true] at hu ⊢
    exact ⟨hu.1, h _ hu.2⟩

theorem TestTrajectoryConeHelper_true_iff (env : Env) (pos3D dir2D : float3)
    (length linear quadratic spread baseSize : ℚ) (obj : CSolidObject) :
    TestTrajectoryConeHelper env pos3D dir2D length linear quadratic spread baseSize obj =
        true ↔
      (obj.pointSurfaceDistance env pos3D ≤
          |Clamp (((obj.worldSpacePos env).sub pos3D).dot dir2D) 0 length| * spread + baseSize ∨
        obj.pointSurfaceDistance env
            ((pos3D.add (dir2D.scale
              (Clamp (((obj.worldSpacePos env).sub pos3D).dot dir2D) 0 length))).add
              (UpVector.scale
                (quadratic * Clamp (((obj.worldSpacePos env).sub pos3D).dot dir2D) 0 length *
                    Clamp (((obj.worldSpacePos env).sub pos3D).dot dir2D) 0 length +
                  linear * Clamp (((obj.worldSpacePos env).sub pos3D).dot dir2D) 0 length))) ≤
          |Clamp (((obj.worldSpacePos env).sub pos3D).dot dir2D) 0 length| * spread +
            baseSize) := by
  unfold TestTrajectoryConeHelper
  simp only [Bool.not_false, if_true]
  by_cases h1 : obj.pointSurfaceDistance env pos3D ≤
      |Clamp (((obj.worldSpacePos env).sub pos3D).dot dir2D) 0 length| * spread + baseSize
  · simp [h1]
  · simp [h1]

theorem TestConeHelper_true_iff (env : Env) (pos3D dir3D : float3) (length spread : ℚ)
    (obj : CSolidObject) :
    TestConeHelper env pos3D dir3D length spread obj = true ↔
      (obj.pointSurfaceDistance env pos3D ≤
          |Clamp (((obj.worldSpacePos env).sub pos3D).dot dir3D) 0 length| * spread + 1 ∨
        obj.pointSurfaceDistance env
            (pos3D.add (dir3D.scale (Clamp (((obj.worldSpacePos env).sub pos3D).dot dir3D) 0
              length))) ≤
          |Clamp (((obj.worldSpacePos env).sub pos3D).dot dir3D) 0 length| * spread + 1) := by
  unfold TestConeHelper
  simp only [Bool.not_false, if_true]
  by_cases h1 : obj.pointSurfaceDistance env pos3D ≤
      |Clamp (((obj.worldSpacePos env).sub pos3D).dot dir3D) 0 length| * spread + 1
  · simp [h1]
  · simp [h1]

/-- On a flat trajectory the impact sample of the trajectory helper is the
impact sample of the straight helper. -/
theorem flat_impact_point (pos dir : float3) (d : ℚ) :
    (pos.add (dir.scale d)).add (UpVector.scale (0 * d * d + 0 * d)) = pos.add (dir.scale d) := by
  simp [float3.add, float3.scale, UpVector]

theorem TestConeHelper_mono (env : Env) (pos dir : float3) (length s s' : ℚ)
    (obj : CSolidObject) (hs : s ≤ s')
    (h : TestConeHelper env pos dir length s obj = true) :
    TestConeHelper env pos dir length s' obj = true := by
  rw [TestConeHelper_true_iff] at h ⊢
  have hm : |Clamp (((obj.worldSpacePos env).sub pos).dot dir) 0 length| * s ≤
      |Clamp (((obj.worldSpacePos env).sub pos).dot dir) 0 length| * s' :=
    mul_le_mul_of_nonneg_left hs (abs_nonneg _)
  rcases h with h | h
  · left; linarith
  · right; linarith

theorem TestTrajectoryConeHelper_mono (env : Env) (pos dir : float3)
    (length linear quadratic s s' b b' : ℚ) (obj : CSolidObject) (hs : s ≤ s') (hb : b ≤ b')
    (h : TestTrajectoryConeHelper env pos dir length linear quadratic s b obj = true) :
    TestTrajectoryConeHelper env pos dir length linear quadratic s' b' obj = true := by
  rw [TestTrajectoryConeHelper_true_iff] at h ⊢
  have hm : |Clamp (((obj.worldSpacePos env).sub pos).dot dir) 0 length| * s ≤
      |Clamp (((obj.worldSpacePos env).sub pos).dot dir) 0 length| * s' :=
    mul_le_mul_of_nonneg_left hs (abs_nonneg _)
  rcases h with h | h
  · left; linarith
  · right; linarith

/-- The trajectory helper on a flat trajectory with base size `1` is the
straight helper. -/
theorem TestTrajectoryConeHelper_flat (env : Env) (pos dir : float3) (length spread : ℚ)
    (obj : CSolidObject) :
    TestTrajectoryConeHelper env pos dir length 0 0 spread 1 obj =
      TestConeHelper env pos dir length spread obj := by
  rw [Bool.eq_iff_iff, TestTrajectoryConeHelper_true_iff, TestConeHelper_true_iff,
    flat_impact_point]

/-! ## Invariants of the quad loop of `GuiTraceRay` -/

theorem guiUnitStep_cases (env : Env) (start dir : float3) (length : ℚ)
    (exclude : Option CUnit) (useRadar : Bool) (s : GuiState) (u : CUnit) :
    guiUnitStep env start dir length exclude useRadar s u = s ∨
      (guiUnitCandidate env exclude useRadar u ∧ ∃ i e,
        guiUnitHit env start dir length useRadar u = some (i, e) ∧
        guiUnitStep env start dir length exclude useRadar s u = guiSelectUnit u i e) := by
  by_cases hc : guiUnitCandidate env exclude useRadar u
  · cases hh : guiUnitHit env start dir length useRadar u with
    | none =>
      left
      exact guiUnitStep_miss env start dir length exclude useRadar s u (fun _ => hh)
    | some p =>
      obtain ⟨i, e⟩ := p
      rw [guiUnitStep_hit env start dir length exclude useRadar s u i e hc hh]
      split
      · right
        exact ⟨hc, i, e, rfl, rfl⟩
      · left
        rfl
  · left
    exact guiUnitStep_miss env start dir length exclude useRadar s u (fun h => absurd h hc)

theorem guiFeatureStep_cases (env : Env) (start dir : float3) (length : ℚ) (s : GuiState)
    (f : CFeature) :
    guiFeatureStep env start dir length s f = s ∨
      (guiFeatureCandidate env f ∧ ∃ d, featureHitDist env start dir length f = some d ∧
        guiFeatureStep env start dir length s f = guiSelectFeature s f d) := by
  by_cases hc : guiFeatureCandidate env f
  · cases hh : featureHitDist env start dir length f with
    | none =>
      left
      exact guiFeatureStep_miss env start dir length s f (fun _ => hh)
    | some d =>
      have hd := featureHitDist_some env start dir length d f hh
      unfold featureHitDist at hh
      by_cases hm : (env.DetectHitF f start (start.add (dir.scale length))).1 = true
      · obtain ⟨h1, h2⟩ := hc
        have h1' : (!env.spectatingFullView &&
            !env.IsInLosForAllyTeam f env.myAllyTeam) = false := by
          rcases h1 with h | h <;> simp [h]
        unfold guiFeatureStep guiSelectFeature
        simp only [h1', h2, hm, Bool.false_eq_true, if_false, if_true]
        split
        · right
          exact ⟨⟨h1, h2⟩, d, rfl, by rw [hd]⟩
        · left
          rfl
      · simp [hm] at hh
  · left
    exact guiFeatureStep_miss env start dir length s f (fun h => absurd h hc)

/-- An invariant of the locals of `GuiTraceRay`: it holds when the quad loop is
left as soon as it holds before the loop and every selection keeps it. -/
theorem guiLoop_invariant (P : GuiState → Prop) (env : Env) (start dir : float3) (length : ℚ)
    (exclude : Option CUnit) (useRadar : Bool) (h0 : P (guiInitial length))
    (hU : ∀ s u i e, P s → u ∈ crossedUnits env start dir length →
      guiUnitCandidate env exclude useRadar u →
      guiUnitHit env start dir length useRadar u = some (i, e) → P (guiSelectUnit u i e))
    (hF : ∀ s f d, P s → f ∈ crossedFeatures env start dir length →
      guiFeatureCandidate env f → featureHitDist env start dir length f = some d →
      P (guiSelectFeature s f d)) :
    P (guiLoop env start dir length exclude useRadar) := by
  unfold guiLoop
  refine foldl_invariant P _ _ ?_ _ h0
  intro s q hq hs
  unfold guiQuadStep
  refine foldl_invariant P _ _ ?_ _ ?_
  · intro s1 f hf h1
    rcases guiFeatureStep_cases env start dir length s1 f with h | ⟨hc, d, hd, h⟩
    · rw [h]; exact h1
    · rw [h]
      exact hF s1 f d h1 (List.mem_flatMap.mpr ⟨q, hq, hf⟩) hc hd
  · refine foldl_invariant P _ _ ?_ _ hs
    intro s1 u hu h1
    rcases guiUnitStep_cases env start dir length exclude useRadar s1 u with
      h | ⟨hc, i, e, hh, h⟩
    · rw [h]; exact h1
    · rw [h]
      exact hU s1 u i e h1 (List.mem_flatMap.mpr ⟨q, hq, hu⟩) hc hh

/-- The hit outputs of `GuiTraceRay` are null or those of its quad loop. -/
theorem GuiTraceRay_outputs (env : Env) (start dir : float3) (length : ℚ)
    (exclude : Option CUnit) (useRadar groundOnly ignoreWater : Bool) :
    ((GuiTraceRay env start dir length exclude useRadar groundOnly ignoreWater).hitUnit = none ∨
      (GuiTraceRay env start dir length exclude useRadar groundOnly ignoreWater).hitUnit =
        (guiLoop env start dir length exclude useRadar).hitUnit) ∧
    ((GuiTraceRay env start dir length exclude useRadar groundOnly ignoreWater).hitFeature =
        none ∨
      (GuiTraceRay env start dir length exclude useRadar groundOnly ignoreWater).hitFeature =
        (guiLoop env start dir length exclude useRadar).hitFeature) := by
  by_cases hdir : dir = ZeroVector
  · simp [GuiTraceRay, hdir]
  · cases groundOnly with
    | true => simp [GuiTraceRay, hdir]
    | false =>
      rw [GuiTraceRay_unfold env start dir length exclude useRadar ignoreWater hdir]
      unfold guiFinish
      split
      · exact ⟨Or.inl rfl, Or.inl rfl⟩
      · exact ⟨Or.inr rfl, Or.inr rfl⟩

/-! ## The owner and the team filters of `TraceRay` -/

/-- With a non-null owner and both NOENEMIES and NOFRIENDLIES set, no unit
passes the team filters. -/
theorem not_unitCandidate_of_both (avoidFlags : Nat) (o u : CUnit)
    (hE : hasFlag avoidFlags Collision.NOENEMIES = true)
    (hA : hasFlag avoidFlags Collision.NOFRIENDLIES = true) :
    ¬ unitCandidate avoidFlags (some o) u := by
  intro hc
  obtain ⟨_, _, h1, h2, _⟩ := unitCandidate_owner avoidFlags o u hc
  exact h1 hA (h2 hE)

/-- With a null owner, a unit that reaches the team filters of a call with
NOFRIENDLIES or NOENEMIES set makes the step undefined. -/
theorem traceUnitStep_null_owner (env : Env) (start dir : float3) (iA iE iN iC : Bool)
    (s : TraceResult) (u : CUnit) (hq : u.quadMapRays = true)
    (h : iA = true ∨ iE = true) :
    traceUnitStep env start dir iA iE iN iC none s u = none := by
  unfold traceUnitStep traceUnitSkipped
  cases iA <;> cases iE <;> simp [ptrEqU, hq] at h ⊢

/-- The query record after the entity loops of `TraceRay`: the caller's record
when nothing was accepted, otherwise the record written for the entity that is
referenced. -/
theorem traceEntities_record (env : Env) (start dir : float3) (length : ℚ)
    (avoidFlags : Nat) (owner : Option CUnit) (c0 : CollisionQuery) (s : TraceResult)
    (hs : tracePhaseU env start dir length avoidFlags owner
      (tracePhaseF env start dir length avoidFlags
        { length := length, hitUnit := none, hitFeature := none,
          hitColQuery := some c0 }) = some s) :
    (s.length = length ∧ s.hitUnit = none ∧ s.hitFeature = none ∧
        s.hitColQuery = some c0) ∨
      (s.length < length ∧
        ((∃ u len, s.hitUnit = some u ∧
            s.hitColQuery = some (env.DetectHitU u start (start.add (dir.scale len))).2 ∧
            unitHitDist env start dir len u = some s.length) ∨
          (∃ f len, s.hitUnit = none ∧ s.hitFeature = some f ∧
            s.hitColQuery = some (env.DetectHitF f start (start.add (dir.scale len))).2 ∧
            featureHitDist env start dir len f = some s.length))) := by
  have hPF := tracePhaseF_invariant
    (fun s => s.hitUnit = none ∧ s.length ≤ length ∧
      ((s.length = length ∧ s.hitFeature = none ∧ s.hitColQuery = some c0) ∨
        (s.length < length ∧ ∃ f len, s.hitFeature = some f ∧
          s.hitColQuery = some (env.DetectHitF f start (start.add (dir.scale len))).2 ∧
          featureHitDist env start dir len f = some s.length)))
    env start dir length avoidFlags
    { length := length, hitUnit := none, hitFeature := none, hitColQuery := some c0 }
    ⟨rfl, le_refl _, Or.inl ⟨rfl, rfl, rfl⟩⟩
    (fun s1 f d _ hP _ _ hd hlt => by
      refine ⟨hP.1, le_of_lt (lt_of_lt_of_le hlt hP.2.1), Or.inr ⟨lt_of_lt_of_le hlt hP.2.1,
        f, s1.length, rfl, ?_, hd⟩⟩
      have hsome : ∃ c, s1.hitColQuery = some c := by
        rcases hP.2.2 with h | ⟨_, _, _, _, h, _⟩
        · exact ⟨_, h.2.2⟩
        · exact ⟨_, h⟩
      obtain ⟨c, hc⟩ := hsome
      simp [acceptFeature, hc])
  rcases tracePhaseU_invariant
    (fun s => s.length ≤ length ∧ (∃ c, s.hitColQuery = some c) ∧
      ((s.hitUnit = none ∧
          ((s.length = length ∧ s.hitFeature = none ∧ s.hitColQuery = some c0) ∨
            (s.length < length ∧ ∃ f len, s.hitFeature = some f ∧
              s.hitColQuery = some (env.DetectHitF f start (start.add (dir.scale len))).2 ∧
              featureHitDist env start dir len f = some s.length))) ∨
        (s.length < length ∧ ∃ u len, s.hitUnit = some u ∧
          s.hitColQuery = some (env.DetectHitU u start (start.add (dir.scale len))).2 ∧
          unitHitDist env start dir len u = some s.length)))
    env start dir length avoidFlags owner _ s
    ⟨hPF.2.1, by
        rcases hPF.2.2 with h | ⟨_, _, _, _, h, _⟩
        · exact ⟨_, h.2.2⟩
        · exact ⟨_, h⟩,
      Or.inl ⟨hPF.1, hPF.2.2⟩⟩
    (fun s1 u d _ hP _ hd hlt => by
      obtain ⟨c, hc⟩ := hP.2.1
      refine ⟨le_of_lt (lt_of_lt_of_le hlt hP.1),
        ⟨(env.DetectHitU u start (start.add (dir.scale s1.length))).2,
          by simp [acceptUnit, hc]⟩,
        Or.inr ⟨lt_of_lt_of_le hlt hP.1, u, s1.length, rfl, by simp [acceptUnit, hc], hd⟩⟩)
    hs with ⟨_, h⟩ | ⟨_, s2, h2, h⟩
  · rw [h]
    rcases hPF.2.2 with h1 | ⟨h1, f, len, h3, h4, h5⟩
    · exact Or.inl ⟨h1.1, hPF.1, h1.2.1, h1.2.2⟩
    · exact Or.inr ⟨h1, Or.inr ⟨f, len, hPF.1, h3, h4, h5⟩⟩
  · rcases h2.2.2 with ⟨hu, h3⟩ | ⟨hlt, u, len, hu, hq, hd⟩
    · have hs2 : s = s2 := by
        rw [h]
        simp [hu]
      rw [hs2]
      rcases h3 with h1 | ⟨h1, f, len, h4, h5, h6⟩
      · exact Or.inl ⟨h1.1, hu, h1.2.1, h1.2.2⟩
      · exact Or.inr ⟨h1, Or.inr ⟨f, len, hu, h4, h5, h6⟩⟩
    · have hs2 : s = { s2 with hitFeature := none } := by
        rw [h]
        simp [hu]
      rw [hs2]
      exact Or.inr ⟨hlt, Or.inl ⟨u, len, hu, hq, hd⟩⟩

/-! ## The unit loop of `GuiTraceRay` and the store of unit volumes -/

/-- One pass of the unit loop body leaves the store of unit volumes as it
is. -/
theorem guiUnitStepFrame_store (env : Env) (start dir : float3) (length : ℚ)
    (exclude : Option CUnit) (useRadar : Bool) (ms : (Nat → CollisionVolume) × GuiState)
    (u : CUnit) :
    (guiUnitStepFrame env start dir length exclude useRadar ms u).1 = ms.1 := by
  unfold guiUnitStepFrame
  dsimp only
  split_ifs <;> rfl

/-- When the store holds the unit's own volume, the locals after one pass of
the unit loop body on explicit memory are those of `guiUnitStep`. -/
theorem guiUnitStepFrame_locals (env : Env) (start dir : float3) (length : ℚ)
    (exclude : Option CUnit) (useRadar : Bool) (ms : (Nat → CollisionVolume) × GuiState)
    (u : CUnit) (hm : ms.1 u.id = u.collisionVolume) :
    (guiUnitStepFrame env start dir length exclude useRadar ms u).2 =
      guiUnitStep env start dir length exclude useRadar ms.2 u := by
  unfold guiUnitStepFrame guiUnitStep guiUnitVolume CollisionVolume.copy
  dsimp only
  rw [hm]
  split_ifs <;> rfl

theorem guiUnitFrame_fold (env : Env) (start dir : float3) (length : ℚ)
    (exclude : Option CUnit) (useRadar : Bool) (l : List CUnit) (m : Nat → CollisionVolume)
    (s : GuiState) :
    (l.foldl (guiUnitStepFrame env start dir length exclude useRadar) (m, s)).1 = m ∧
      ((∀ v, v ∈ l → m v.id = v.collisionVolume) →
        (l.foldl (guiUnitStepFrame env start dir length exclude useRadar) (m, s)).2 =
          l.foldl (guiUnitStep env start dir length exclude useRadar) s) := by
  induction l generalizing s with
  | nil => exact ⟨rfl, fun _ => rfl⟩
  | cons a t ih =>
    simp only [List.foldl_cons]
    have h1 := guiUnitStepFrame_store env start dir length exclude useRadar (m, s) a
    have hp : guiUnitStepFrame env start dir length exclude useRadar (m, s) a =
        (m, (guiUnitStepFrame env start dir length exclude useRadar (m, s) a).2) :=
      Prod.ext h1 rfl
    rw [hp]
    refine ⟨(ih _).1, fun hm => ?_⟩
    rw [(ih _).2 (fun v hv => hm v (List.mem_cons_of_mem _ hv))]
    rw [guiUnitStepFrame_locals env start dir length exclude useRadar (m, s) a
      (hm a (List.mem_cons_self _ _))]

theorem guiQuadFrame_fold (env : Env) (start dir : float3) (length : ℚ)
    (exclude : Option CUnit) (useRadar : Bool) (quads : List Int) (m : Nat → CollisionVolume)
    (s : GuiState) :
    (quads.foldl (guiQuadStepFrame env start dir length exclude useRadar) (m, s)).1 = m ∧
      ((∀ q, q ∈ quads → ∀ v, v ∈ (env.GetQuad q).units → m v.id = v.collisionVolume) →
        (quads.foldl (guiQuadStepFrame env start dir length exclude useRadar) (m, s)).2 =
          quads.foldl (guiQuadStep env start dir length exclude useRadar) s) := by
  induction quads generalizing s with
  | nil => exact ⟨rfl, fun _ => rfl⟩
  | cons q t ih =>
    simp only [List.foldl_cons]
    have hu := guiUnitFrame_fold env start dir length exclude useRadar (env.GetQuad q).units m s
    have hp : guiQuadStepFrame env start dir length exclude useRadar (m, s) q =
        (m, (guiQuadStepFrame env start dir length exclude useRadar (m, s) q).2) :=
      Prod.ext hu.1 rfl
    rw [hp]
    refine ⟨(ih _).1, fun hm => ?_⟩
    rw [(ih _).2 (fun q' hq' => hm q' (List.mem_cons_of_mem _ hq'))]
    have h2 : (guiQuadStepFrame env start dir length exclude useRadar (m, s) q).2 =
        guiQuadStep env start dir length exclude useRadar s q := by
      unfold guiQuadStepFrame guiQuadStep
      dsimp only
      rw [hu.2 (hm q (List.mem_cons_self _ _))]
    rw [h2]

/-- The function `GuiTraceRay` on explicit memory leaves the store of unit
volumes as it is, and returns what `GuiTraceRay` returns when the store holds
the own volume of every unit of a crossed quad. -/
theorem GuiTraceRayFrame_eq (env : Env) (start dir : float3) (length : ℚ)
    (exclude : Option CUnit) (useRadar groundOnly ignoreWater : Bool)
    (m : Nat → CollisionVolume) :
    (GuiTraceRayFrame env start dir length exclude useRadar groundOnly ignoreWater m).1 = m ∧
      ((∀ v, v ∈ crossedUnits env start dir length → m v.id = v.collisionVolume) →
        (GuiTraceRayFrame env start dir length exclude useRadar groundOnly ignoreWater m).2 =
          GuiTraceRay env start dir length exclude useRadar groundOnly ignoreWater) := by
  have hq := guiQuadFrame_fold env start dir length exclude useRadar
    (env.GetQuadsOnRay start dir length) m
    { minIngressDist := length, minEgressDist := length, hitFactory := false,
      hitUnit := none, hitFeature := none }
  unfold GuiTraceRayFrame GuiTraceRay
  dsimp only
  split_ifs
  · exact ⟨rfl, fun _ => rfl⟩
  · exact ⟨rfl, fun _ => rfl⟩
  · refine ⟨hq.1, fun hm => ?_⟩
    dsimp only
    rw [hq.2 (fun q hq' v hv => hm v (List.mem_flatMap.mpr ⟨q, hq', hv⟩))]

/-! ## A unit that passes the test of `GuiTraceRay` -/

/-- What `guiUnitHit` reports is what `MouseHit` answers for the volume
`guiUnitVolume`. -/
theorem guiUnitHit_of_hit (env : Env) (start dir : float3) (length : ℚ) (useRadar : Bool)
    (u : CUnit)
    (h : (env.MouseHit u start (start.add (dir.scale length))
      (guiUnitVolume env useRadar u)).1 = true) :
    guiUnitHit env start dir length useRadar u =
      some (env.GetIngressPosDist (env.MouseHit u start (start.add (dir.scale length))
          (guiUnitVolume env useRadar u)).2 start dir,
        env.GetEgressPosDist (env.MouseHit u start (start.add (dir.scale length))
          (guiUnitVolume env useRadar u)).2 start dir) := by
  unfold guiUnitHit
  simp [h]

theorem guiUnitHit_some_hit (env : Env) (start dir : float3) (length : ℚ) (useRadar : Bool)
    (u : CUnit) (p : ℚ × ℚ) (h : guiUnitHit env start dir length useRadar u = some p) :
    (env.MouseHit u start (start.add (dir.scale length))
      (guiUnitVolume env useRadar u)).1 = true := by
  unfold guiUnitHit at h
  by_cases hm : (env.MouseHit u start (start.add (dir.scale length))
      (guiUnitVolume env useRadar u)).1 = true
  · exact hm
  · simp [hm] at h

/-- Once a candidate unit of a crossed quad passes the test against its
volume `guiUnitVolume`, the quad loop of `GuiTraceRay` is left with a hit. -/
theorem guiLoop_hit_of_unit_hit (env : Env) (start dir : float3) (length : ℚ)
    (exclude : Option CUnit) (useRadar : Bool) (u : CUnit)
    (hu : u ∈ crossedUnits env start dir length)
    (hc : guiUnitCandidate env exclude useRadar u)
    (hh : (env.MouseHit u start (start.add (dir.scale length))
      (guiUnitVolume env useRadar u)).1 = true) :
    (guiLoop env start dir length exclude useRadar).hitUnit ≠ none ∨
      (guiLoop env start dir length exclude useRadar).hitFeature ≠ none := by
  obtain ⟨q, hq, huq⟩ := List.mem_flatMap.mp hu
  have hUstep : ∀ s v, (s.hitUnit ≠ none ∨ s.hitFeature ≠ none) →
      ((guiUnitStep env start dir length exclude useRadar s v).hitUnit ≠ none ∨
        (guiUnitStep env start dir length exclude useRadar s v).hitFeature ≠ none) := by
    intro s v hs
    rcases guiUnitStep_cases env start dir length exclude useRadar s v with
      h | ⟨_, i, e, _, h⟩
    · rw [h]; exact hs
    · rw [h]; left; simp [guiSelectUnit]
  have hFstep : ∀ s f, (s.hitUnit ≠ none ∨ s.hitFeature ≠ none) →
      ((guiFeatureStep env start dir length s f).hitUnit ≠ none ∨
        (guiFeatureStep env start dir length s f).hitFeature ≠ none) := by
    intro s f hs
    rcases guiFeatureStep_cases env start dir length s f with h | ⟨_, d, _, h⟩
    · rw [h]; exact hs
    · rw [h]; right; simp [guiSelectFeature]
  have hQstep : ∀ s q', (s.hitUnit ≠ none ∨ s.hitFeature ≠ none) →
      ((guiQuadStep env start dir length exclude useRadar s q').hitUnit ≠ none ∨
        (guiQuadStep env start dir length exclude useRadar s q').hitFeature ≠ none) := by
    intro s q' hs
    unfold guiQuadStep
    refine foldl_invariant (fun s => s.hitUnit ≠ none ∨ s.hitFeature ≠ none) _ _
      (fun s f _ h => hFstep s f h) _ ?_
    exact foldl_invariant (fun s => s.hitUnit ≠ none ∨ s.hitFeature ≠ none) _ _
      (fun s v _ h => hUstep s v h) _ hs
  have hE : ∀ s, (guiUnitStep env start dir length exclude useRadar s u).hitUnit ≠ none ∨
      (guiUnitStep env start dir length exclude useRadar s u).hitFeature ≠ none := by
    intro s
    rw [guiUnitStep_hit env start dir length exclude useRadar s u _ _ hc
      (guiUnitHit_of_hit env start dir length useRadar u hh)]
    split
    · left; simp [guiSelectUnit]
    · rename_i hn
      left
      intro h0
      apply hn
      simp [h0]
  unfold guiLoop
  refine foldl_establish (fun s => s.hitUnit ≠ none ∨ s.hitFeature ≠ none) _ _ q hq
    (fun s q' hs => hQstep s q' hs) ?_ _
  intro s
  unfold guiQuadStep
  refine foldl_invariant (fun s => s.hitUnit ≠ none ∨ s.hitFeature ≠ none) _ _
    (fun s f _ h => hFstep s f h) _ ?_
  exact foldl_establish (fun s => s.hitUnit ≠ none ∨ s.hitFeature ≠ none) _ _ u huq
    (fun s v hs => hUstep s v hs) hE _

/-- When a candidate unit is the only entity of the crossed quads, the quad
loop of `GuiTraceRay` selects it exactly when `MouseHit` answers `true` for
the volume `guiUnitVolume`. -/
theorem guiLoop_lone_unit (env : Env) (start dir : float3) (length : ℚ)
    (exclude : Option CUnit) (useRadar : Bool) (u : CUnit)
    (hu : crossedUnits env start dir length = [u])
    (hf : crossedFeatures env start dir length = [])
    (hc : guiUnitCandidate env exclude useRadar u) :
    guiLoop env start dir length exclude useRadar =
      if (env.MouseHit u start (start.add (dir.scale length))
          (guiUnitVolume env useRadar u)).1 = true then
        guiSelectUnit u
          (env.GetIngressPosDist (env.MouseHit u start (start.add (dir.scale length))
            (guiUnitVolume env useRadar u)).2 start dir)
          (env.GetEgressPosDist (env.MouseHit u start (start.add (dir.scale length))
            (guiUnitVolume env useRadar u)).2 start dir)
      else guiInitial length := by
  rw [guiLoop_units_only env start dir length exclude useRadar
    (fun f hmem => by rw [hf] at hmem; cases hmem), hu]
  simp only [List.foldl_cons, List.foldl_nil]
  split
  · rename_i hh
    rw [guiUnitStep_hit env start dir length exclude useRadar _ u _ _ hc
      (guiUnitHit_of_hit env start dir length useRadar u hh)]
    simp
  · rename_i hh
    refine guiUnitStep_miss env start dir length exclude useRadar _ u (fun _ => ?_)
    unfold guiUnitHit
    simp [hh]

/-! ## Properties -/

/-- C1: with the zero vector as direction, `TraceRay` returns the sentinel `-1`
with both hit outputs null (and the caller's query record untouched), and
`GuiTraceRay` returns `-1` with both hit outputs null; the result of
`GuiTraceRay` is the same in any other environment `env'`, so neither the
spatial index nor the ground service is consulted. -/
theorem C1_zero_direction_sentinel (env env' : Env) (start : float3) (length : ℚ)
    (avoidFlags : Nat) (owner exclude : Option CUnit) (hitColQuery : Option CollisionQuery)
    (useRadar groundOnly ignoreWater : Bool) :
    TraceRay env start ZeroVector length avoidFlags owner hitColQuery =
        some { length := -1, hitUnit := none, hitFeature := none, hitColQuery := hitColQuery } ∧
      GuiTraceRay env start ZeroVector length exclude useRadar groundOnly ignoreWater =
        { length := -1, hitUnit := none, hitFeature := none } ∧
      GuiTraceRay env' start ZeroVector length exclude useRadar groundOnly ignoreWater =
        GuiTraceRay env start ZeroVector length exclude useRadar groundOnly ignoreWater := by
  simp [TraceRay, GuiTraceRay]

/-- C5: in `TraceRay` (non-zero direction), let `s` be the best result after
the entity loops and `g` the ground distance for the segment of length
`s.length`. If NOGROUND is not set and `0 < g < s.length`, the function returns
length `g` with both hit outputs null; in every other case it returns `s`
unchanged. -/
theorem C5_ground_supersedes_iff (env : Env) (start dir : float3) (length : ℚ)
    (avoidFlags : Nat) (owner : Option CUnit) (hitColQuery : Option CollisionQuery)
    (s : TraceResult) (hdir : dir ≠ ZeroVector)
    (hs : traceEntities env start dir avoidFlags owner
      { length := length, hitUnit := none, hitFeature := none, hitColQuery := hitColQuery } =
        some s) :
    ((hasFlag avoidFlags Collision.NOGROUND = false ∧
        0 < env.LineGroundCol start (start.add (dir.scale s.length)) ∧
        env.LineGroundCol start (start.add (dir.scale s.length)) < s.length) →
      TraceRay env start dir length avoidFlags owner hitColQuery =
        some { length := env.LineGroundCol start (start.add (dir.scale s.length)),
               hitUnit := none, hitFeature := none, hitColQuery := s.hitColQuery }) ∧
    (¬ (hasFlag avoidFlags Collision.NOGROUND = false ∧
        0 < env.LineGroundCol start (start.add (dir.scale s.length)) ∧
        env.LineGroundCol start (start.add (dir.scale s.length)) < s.length) →
      TraceRay env start dir length avoidFlags owner hitColQuery = some s) := by
  constructor
  · rintro ⟨hg, hpos, hlt⟩
    simp [TraceRay, hdir, hs, traceGround, hg, hpos, hlt]
  · intro hn
    simp only [TraceRay, hdir, hs, traceGround, if_false, Option.map_some']
    by_cases hg : hasFlag avoidFlags Collision.NOGROUND = false
    · have hn' : ¬ (s.length > env.LineGroundCol start (start.add (dir.scale s.length)) ∧
          env.LineGroundCol start (start.add (dir.scale s.length)) > 0) := by
        rintro ⟨h1, h2⟩
        exact hn ⟨hg, h2, h1⟩
      simp [hg, hn']
    · simp at hg
      simp [hg]

/-- Witness of C5: in `groundScene` the feature hit at distance 90 is replaced
by the ground at distance 50. -/
theorem C5_ground_supersedes_iff_witness :
    TraceRay groundScene sceneStart sceneDir 200 0 none none =
      some { length := 50, hitUnit := none, hitFeature := none, hitColQuery := none } :=
  (C5_ground_supersedes_iff groundScene sceneStart sceneDir 200 0 none none
    { length := 90, hitUnit := none, hitFeature := some (sceneFeature 1), hitColQuery := none }
    (by decide) (by decide)).1 (by decide)

/-- C10: when the spatial index returns no quad for the ray, `TestCone` and
`TestTrajectoryCone` both return `true` (unsafe), whatever the other arguments
and the content of the scene. -/
theorem C10_no_quads_is_unsafe (env : Env) (frm dir : float3)
    (length linear quadratic spread : ℚ) (allyteam : Int) (avoidFlags : Nat)
    (owner : Option CUnit) (hq : env.GetQuadsOnRay frm dir length = []) :
    TestCone env frm dir length spread allyteam avoidFlags owner = true ∧
      TestTrajectoryCone env frm dir length linear quadratic spread allyteam avoidFlags owner =
        true := by
  simp [TestCone, TestTrajectoryCone, hq]

/-- Witness of C10: the empty scene, whose ray crosses no quad. -/
theorem C10_no_quads_is_unsafe_witness :
    TestCone emptyScene sceneStart sceneDir 200 0 0 0 none = true ∧
      TestTrajectoryCone emptyScene sceneStart sceneDir 200 0 0 0 0 0 none = true :=
  C10_no_quads_is_unsafe emptyScene sceneStart sceneDir 200 0 0 0 0 0 none (by decide)

/-- C8: with a non-null owner `o`, a unit that `TraceRay` returns in `hitUnit`
passed every active filter: it is not the owner, it has the QUADMAPRAYS bit, it
is not on the owner's ally-team if NOFRIENDLIES is set, it is on the owner's
ally-team if NOENEMIES is set, it is not neutral if NONEUTRALS is set and not
cloaked if NOCLOAKED is set; a feature returned in `hitFeature` has the
QUADMAPRAYS bit. -/
theorem C8_hits_passed_the_filters (env : Env) (start dir : float3) (length : ℚ)
    (avoidFlags : Nat) (o : CUnit) (hitColQuery : Option CollisionQuery) (r : TraceResult)
    (hr : TraceRay env start dir length avoidFlags (some o) hitColQuery = some r) :
    (∀ u, r.hitUnit = some u →
      u.id ≠ o.id ∧ u.quadMapRays = true ∧
      (hasFlag avoidFlags Collision.NOFRIENDLIES = true → u.allyteam ≠ o.allyteam) ∧
      (hasFlag avoidFlags Collision.NOENEMIES = true → u.allyteam = o.allyteam) ∧
      (hasFlag avoidFlags Collision.NONEUTRALS = true → u.neutral = false) ∧
      (hasFlag avoidFlags Collision.NOCLOAKED = true → u.cloaked = false)) ∧
    (∀ f, r.hitFeature = some f → f.quadMapRays = true) := by
  by_cases hdir : dir = ZeroVector
  · subst hdir
    simp [TraceRay] at hr
    subst hr
    simp
  · have hinv := TraceRay_invariant
      (fun s => (∀ u, s.hitUnit = some u → unitCandidate avoidFlags (some o) u) ∧
        (∀ f, s.hitFeature = some f → f.quadMapRays = true))
      env start dir length avoidFlags (some o) hitColQuery r
      (by simp)
      (by
        intro s f cq hP hq _
        refine ⟨hP.1, ?_⟩
        intro f' hf'
        simp only [acceptFeature, Option.some.injEq] at hf'
        subst hf'
        exact hq)
      (by
        intro s u cq hP hc _
        refine ⟨?_, hP.2⟩
        intro u' hu'
        simp only [acceptUnit, Option.some.injEq] at hu'
        subst hu'
        exact hc)
      (by
        intro s hP _
        exact ⟨hP.1, by simp⟩)
      (by
        intro s g _ _ _
        simp)
      hdir hr
    exact ⟨fun u hu => unitCandidate_owner avoidFlags o u (hinv.1 u hu), hinv.2⟩

/-- Witness of C8: in `unitFeatureScene`, with owner of ally-team 0 and
NOFRIENDLIES set, the unit returned is the enemy unit of ally-team 1. -/
theorem C8_hits_passed_the_filters_witness :
    (sceneUnit 2 1).id ≠ (sceneUnit 7 0).id ∧ (sceneUnit 2 1).quadMapRays = true ∧
      (hasFlag 2 Collision.NOFRIENDLIES = true →
        (sceneUnit 2 1).allyteam ≠ (sceneUnit 7 0).allyteam) ∧
      (hasFlag 2 Collision.NOENEMIES = true →
        (sceneUnit 2 1).allyteam = (sceneUnit 7 0).allyteam) ∧
      (hasFlag 2 Collision.NONEUTRALS = true → (sceneUnit 2 1).neutral = false) ∧
      (hasFlag 2 Collision.NOCLOAKED = true → (sceneUnit 2 1).cloaked = false) :=
  (C8_hits_passed_the_filters unitFeatureScene sceneStart sceneDir 200 2 (sceneUnit 7 0) none
    { length := 90, hitUnit := some (sceneUnit 2 1), hitFeature := none, hitColQuery := none }
    (by decide)).1 (sceneUnit 2 1) rfl

/-- C9: on every return of `TraceRay` and of `GuiTraceRay` at most one of
`hitUnit` and `hitFeature` is non-null; in particular, after the entity loops
of `TraceRay` (before the ground test) a recorded unit hit leaves no feature
hit behind. -/
theorem C9_at_most_one_hit_output (env : Env) (start dir : float3) (length : ℚ)
    (avoidFlags : Nat) (owner exclude : Option CUnit) (hitColQuery : Option CollisionQuery)
    (useRadar groundOnly ignoreWater : Bool) :
    (∀ r, TraceRay env start dir length avoidFlags owner hitColQuery = some r →
      r.hitUnit = none ∨ r.hitFeature = none) ∧
    ((GuiTraceRay env start dir length exclude useRadar groundOnly ignoreWater).hitUnit = none ∨
      (GuiTraceRay env start dir length exclude useRadar groundOnly ignoreWater).hitFeature =
        none) ∧
    (∀ s, traceEntities env start dir avoidFlags owner
        { length := length, hitUnit := none, hitFeature := none,
          hitColQuery := hitColQuery } = some s →
      s.hitUnit.isSome = true → s.hitFeature = none) := by
  have hent : ∀ s, tracePhaseU env start dir length avoidFlags owner
      (tracePhaseF env start dir length avoidFlags
        { length := length, hitUnit := none, hitFeature := none,
          hitColQuery := hitColQuery }) = some s →
      s.hitUnit = none ∨ s.hitFeature = none := by
    intro s hs
    have hF : (tracePhaseF env start dir length avoidFlags
        { length := length, hitUnit := none, hitFeature := none,
          hitColQuery := hitColQuery }).hitUnit = none := by
      unfold tracePhaseF
      split
      · rfl
      · refine foldl_invariant (fun s : TraceResult => s.hitUnit = none) _ _ ?_ _ rfl
        intro s1 f _ h1
        rcases traceFeatureStep_cases env start dir s1 f with h | ⟨_, d, _, _, h⟩
        · rw [h]; exact h1
        · rw [h]; exact h1
    unfold tracePhaseU at hs
    split at hs
    · cases hs
      exact Or.inl hF
    · rcases Option.map_eq_some'.mp hs with ⟨s2, _, h2⟩
      rw [← h2]
      split
      · right; rfl
      · rename_i hn
        left
        cases hu : s2.hitUnit with
        | none => rfl
        | some u => simp [hu] at hn
  refine ⟨?_, ?_, ?_⟩
  · intro r hr
    by_cases hdir : dir = ZeroVector
    · subst hdir
      simp [TraceRay] at hr
      subst hr
      left; rfl
    · rw [TraceRay_phases env start dir length avoidFlags owner hitColQuery hdir] at hr
      rcases Option.map_eq_some'.mp hr with ⟨s, hs, hsr⟩
      have h1 := hent s hs
      rw [← hsr]
      unfold traceGround
      split
      · dsimp only
        split
        · left; rfl
        · exact h1
      · exact h1
  · unfold GuiTraceRay
    split
    · left; rfl
    · dsimp only
      split
      · left; rfl
      · unfold guiFinish
        split
        · left; rfl
        · dsimp only
          refine foldl_invariant (fun s : GuiState => s.hitUnit = none ∨ s.hitFeature = none)
            _ _ ?_ _ (Or.inl rfl)
          intro s q _ hs
          unfold guiQuadStep
          dsimp only
          refine foldl_invariant (fun s : GuiState => s.hitUnit = none ∨ s.hitFeature = none)
            _ _ (fun s1 f _ h1 => guiFeatureStep_one_output env start dir length s1 f h1) _ ?_
          exact foldl_invariant (fun s : GuiState => s.hitUnit = none ∨ s.hitFeature = none)
            _ _ (fun s1 u _ h1 =>
              guiUnitStep_one_output env start dir length exclude useRadar s1 u h1) _ hs
  · intro s hs hsome
    rw [traceEntities_phases] at hs
    rcases hent s hs with h | h
    · simp [h] at hsome
    · exact h

/-- Witness of C9: in `unitFeatureScene` the feature at distance 120 is
recorded first, then the unit at distance 90 is found and the feature hit is
cleared. -/
theorem C9_at_most_one_hit_output_witness :
    (some (sceneUnit 2 1) = none ∨ (none : Option CFeature) = none) :=
  (C9_at_most_one_hit_output unitFeatureScene sceneStart sceneDir 200 0 none none none
    false false false).1
    { length := 90, hitUnit := some (sceneUnit 2 1), hitFeature := none, hitColQuery := none }
    (by decide)

/-- C7: when NOFEATURES is set, `TraceRay` gives the same result as on the
scene with every feature removed, and `hitFeature` is null; when NOENEMIES,
NOFRIENDLIES and NONEUTRALS are all set, it gives the same result as on the
scene with every unit removed, and `hitUnit` is null. -/
theorem C7_excluded_kind_is_ignored (env : Env) (start dir : float3) (length : ℚ)
    (avoidFlags : Nat) (owner : Option CUnit) (hitColQuery : Option CollisionQuery) :
    (hasFlag avoidFlags Collision.NOFEATURES = true →
      TraceRay env start dir length avoidFlags owner hitColQuery =
        TraceRay env.withoutFeatures start dir length avoidFlags owner hitColQuery ∧
      ∀ r, TraceRay env start dir length avoidFlags owner hitColQuery = some r →
        r.hitFeature = none) ∧
    (ignoreUnitsFlag avoidFlags = true →
      TraceRay env start dir length avoidFlags owner hitColQuery =
        TraceRay env.withoutUnits start dir length avoidFlags owner hitColQuery ∧
      ∀ r, TraceRay env start dir length avoidFlags owner hitColQuery = some r →
        r.hitUnit = none) := by
  constructor
  · intro hflag
    by_cases hdir : dir = ZeroVector
    · subst hdir
      refine ⟨by simp [TraceRay], ?_⟩
      intro r hr
      simp [TraceRay] at hr
      subst hr
      rfl
    · constructor
      · rw [TraceRay_phases env start dir length avoidFlags owner hitColQuery hdir,
          TraceRay_phases env.withoutFeatures start dir length avoidFlags owner hitColQuery hdir]
        simp only [tracePhaseF, hflag, if_true]
        rfl
      · intro r hr
        rw [TraceRay_phases env start dir length avoidFlags owner hitColQuery hdir] at hr
        rcases Option.map_eq_some'.mp hr with ⟨s, hs, hsr⟩
        simp only [tracePhaseF, hflag, if_true] at hs
        have hs' : s.hitFeature = none := by
          rcases tracePhaseU_invariant (fun s => s.hitFeature = none) env start dir length
            avoidFlags owner _ s rfl (fun s1 u d _ h1 _ _ _ => h1) hs with
            ⟨_, h⟩ | ⟨_, s2, h2, h⟩
          · rw [h]
          · rw [h]
            split
            · rfl
            · exact h2
        rw [← hsr]
        rcases traceGround_cases env start dir (hasFlag avoidFlags Collision.NOGROUND) s with
          h | ⟨_, _, _, h⟩
        · rw [h]; exact hs'
        · rw [h]
  · intro hflag
    by_cases hdir : dir = ZeroVector
    · subst hdir
      refine ⟨by simp [TraceRay], ?_⟩
      intro r hr
      simp [TraceRay] at hr
      subst hr
      rfl
    · constructor
      · rw [TraceRay_phases env start dir length avoidFlags owner hitColQuery hdir,
          TraceRay_phases env.withoutUnits start dir length avoidFlags owner hitColQuery hdir]
        simp only [tracePhaseU, hflag, if_true]
        rfl
      · intro r hr
        rw [TraceRay_phases env start dir length avoidFlags owner hitColQuery hdir] at hr
        rcases Option.map_eq_some'.mp hr with ⟨s, hs, hsr⟩
        simp only [tracePhaseU, hflag, if_true, Option.some.injEq] at hs
        have hs' : s.hitUnit = none := by
          rw [← hs]
          exact tracePhaseF_invariant (fun s => s.hitUnit = none) env start dir length
            avoidFlags _ rfl (fun s1 f d _ h1 _ _ _ _ => h1)
        rw [← hsr]
        rcases traceGround_cases env start dir (hasFlag avoidFlags Collision.NOGROUND) s with
          h | ⟨_, _, _, h⟩
        · rw [h]; exact hs'
        · rw [h]

/-- Witness of C7: in `unitFeatureScene` with NOFEATURES set the feature is
ignored (the result is the one of the scene without features), and with
NOENEMIES, NOFRIENDLIES and NONEUTRALS set the unit is ignored. -/
theorem C7_excluded_kind_is_ignored_witness :
    (TraceRay unitFeatureScene sceneStart sceneDir 100 4 none none =
        TraceRay unitFeatureScene.withoutFeatures sceneStart sceneDir 100 4 none none ∧
      ∀ r, TraceRay unitFeatureScene sceneStart sceneDir 100 4 none none = some r →
        r.hitFeature = none) ∧
    (TraceRay unitFeatureScene sceneStart sceneDir 100 11 none none =
        TraceRay unitFeatureScene.withoutUnits sceneStart sceneDir 100 11 none none ∧
      ∀ r, TraceRay unitFeatureScene sceneStart sceneDir 100 11 none none = some r →
        r.hitUnit = none) :=
  ⟨(C7_excluded_kind_is_ignored unitFeatureScene sceneStart sceneDir 100 4 none none).1
      (by decide),
    (C7_excluded_kind_is_ignored unitFeatureScene sceneStart sceneDir 100 11 none none).2
      (by decide)⟩

/-- C4: for a non-zero direction (and an owner that is available whenever it is
read), if the collision query hits no candidate feature and no candidate unit
of the crossed quads on the requested segment, and the ground is filtered out
or reports no intersection (a non-positive distance), `TraceRay` returns
exactly the requested length and leaves `hitUnit` and `hitFeature` null. -/
theorem C4_no_hit_returns_requested_length (env : Env) (start dir : float3) (length : ℚ)
    (avoidFlags : Nat) (owner : Option CUnit) (hitColQuery : Option CollisionQuery)
    (hdir : dir ≠ ZeroVector) (hown : ownerAvailable avoidFlags owner)
    (hF : ∀ f, f ∈ crossedFeatures env start dir length → f.quadMapRays = true →
      featureHitDist env start dir length f = none)
    (hU : ∀ u, u ∈ crossedUnits env start dir length → unitCandidate avoidFlags owner u →
      unitHitDist env start dir length u = none)
    (hG : hasFlag avoidFlags Collision.NOGROUND = true ∨
      env.LineGroundCol start (start.add (dir.scale length)) ≤ 0) :
    TraceRay env start dir length avoidFlags owner hitColQuery =
      some { length := length, hitUnit := none, hitFeature := none,
             hitColQuery := hitColQuery } := by
  rw [TraceRay_phases env start dir length avoidFlags owner hitColQuery hdir]
  have h1 : tracePhaseF env start dir length avoidFlags
      { length := length, hitUnit := none, hitFeature := none, hitColQuery := hitColQuery } =
      { length := length, hitUnit := none, hitFeature := none, hitColQuery := hitColQuery } := by
    unfold tracePhaseF
    split
    · rfl
    · refine foldl_fixed _ _ _ ?_
      intro f hf
      rcases traceFeatureStep_cases env start dir
        { length := length, hitUnit := none, hitFeature := none, hitColQuery := hitColQuery }
        f with h | ⟨hq, d, hd, _, _⟩
      · exact h
      · rw [hF f hf hq] at hd
        cases hd
  have h2 : tracePhaseU env start dir length avoidFlags owner
      { length := length, hitUnit := none, hitFeature := none, hitColQuery := hitColQuery } =
      some { length := length, hitUnit := none, hitFeature := none,
             hitColQuery := hitColQuery } := by
    unfold tracePhaseU
    split
    · rfl
    · rename_i hig
      have hdef : owner.isSome = true ∨ (hasFlag avoidFlags Collision.NOFRIENDLIES = false ∧
          hasFlag avoidFlags Collision.NOENEMIES = false) := by
        rcases hown with h | h | h
        · exact Or.inl h
        · exact Or.inr h
        · exact absurd h hig
      rw [foldlM_fixed _ _ _ (fun u hu => traceUnitStep_miss env start dir avoidFlags owner
        { length := length, hitUnit := none, hitFeature := none, hitColQuery := hitColQuery }
        u hdef (fun hc d hd => by rw [hU u hu hc] at hd; cases hd))]
      rfl
  rw [h1, h2]
  simp only [Option.map_some', Option.some.injEq]
  refine traceGround_skip env start dir _ _ ?_
  rcases hG with h | h
  · exact Or.inl h
  · exact Or.inr (fun hc => absurd hc.1 (not_lt.mpr h))

/-- Witness of C4: in `missScene` nothing is hit and the requested length 200
is returned. -/
theorem C4_no_hit_returns_requested_length_witness :
    TraceRay missScene sceneStart sceneDir 200 0 none none =
      some { length := 200, hitUnit := none, hitFeature := none, hitColQuery := none } :=
  C4_no_hit_returns_requested_length missScene sceneStart sceneDir 200 0 none none
    (by decide) (Or.inr (Or.inl (by decide)))
    (fun f _ _ => by
      unfold featureHitDist missScene sceneEnv
      rfl)
    (fun u _ _ => by
      unfold unitHitDist missScene sceneEnv
      rfl)
    (Or.inr (by decide))

/-- C2 (counterexample): with the non-zero direction `sceneDir` and the
requested length `-5`, `TraceRay` returns `-5` on `missScene` (nothing is hit),
which is not in the (empty) interval `[0, -5]`. -/
theorem C2_negative_length_counterexample :
    TraceRay missScene sceneStart sceneDir (-5) 0 none none =
        some { length := -5, hitUnit := none, hitFeature := none, hitColQuery := none } ∧
      sceneDir ≠ ZeroVector ∧ ¬ ((0 : ℚ) ≤ -5 ∧ (-5 : ℚ) ≤ -5) := by
  decide

/-- C2 (amended): for a non-zero direction, whenever `TraceRay` returns, the
returned length is at most the requested length; it is also at least `0` when
the requested length is non-negative and every hit distance reported by the
collision query is non-negative. The function does return whenever the owner
is available. -/
theorem C2_returned_length_bounds (env : Env) (start dir : float3) (length : ℚ)
    (avoidFlags : Nat) (owner : Option CUnit) (hitColQuery : Option CollisionQuery)
    (hdir : dir ≠ ZeroVector) :
    (∀ r, TraceRay env start dir length avoidFlags owner hitColQuery = some r →
      r.length ≤ length ∧
      (0 ≤ length →
        (∀ f len d, featureHitDist env start dir len f = some d → 0 ≤ d) →
        (∀ u len d, unitHitDist env start dir len u = some d → 0 ≤ d) → 0 ≤ r.length)) ∧
    (ownerAvailable avoidFlags owner →
      ∃ r, TraceRay env start dir length avoidFlags owner hitColQuery = some r) := by
  refine ⟨?_, TraceRay_defined env start dir length avoidFlags owner hitColQuery⟩
  intro r hr
  rw [TraceRay_phases env start dir length avoidFlags owner hitColQuery hdir] at hr
  rcases Option.map_eq_some'.mp hr with ⟨s, hs, hsr⟩
  have hPF := tracePhaseF_invariant
    (fun s => s.length ≤ length ∧
      (0 ≤ length →
        (∀ f len d, featureHitDist env start dir len f = some d → 0 ≤ d) →
        (∀ u len d, unitHitDist env start dir len u = some d → 0 ≤ d) → 0 ≤ s.length))
    env start dir length avoidFlags
    { length := length, hitUnit := none, hitFeature := none, hitColQuery := hitColQuery }
    ⟨le_refl _, fun h _ _ => h⟩
    (fun s1 f d _ hP _ _ hd hlt =>
      ⟨le_trans (le_of_lt hlt) hP.1, fun _ hnnF _ => hnnF f _ d hd⟩)
  have hPs : s.length ≤ length ∧
      (0 ≤ length →
        (∀ f len d, featureHitDist env start dir len f = some d → 0 ≤ d) →
        (∀ u len d, unitHitDist env start dir len u = some d → 0 ≤ d) → 0 ≤ s.length) := by
    rcases tracePhaseU_invariant
      (fun s => s.length ≤ length ∧
        (0 ≤ length →
          (∀ f len d, featureHitDist env start dir len f = some d → 0 ≤ d) →
          (∀ u len d, unitHitDist env start dir len u = some d → 0 ≤ d) → 0 ≤ s.length))
      env start dir length avoidFlags owner _ s hPF
      (fun s1 u d _ hP _ hd hlt =>
        ⟨le_trans (le_of_lt hlt) hP.1, fun _ _ hnnU => hnnU u _ d hd⟩) hs with
      ⟨_, h⟩ | ⟨_, s2, h2, h⟩
    · rw [h]; exact hPF
    · rw [h]
      split
      · exact h2
      · exact h2
  rw [← hsr]
  rcases traceGround_cases env start dir (hasFlag avoidFlags Collision.NOGROUND) s with
    h | ⟨_, hpos, hlt, h⟩
  · rw [h]; exact hPs
  · rw [h]
    exact ⟨le_trans (le_of_lt hlt) hPs.1, fun _ _ _ => le_of_lt hpos⟩

/-- Witness of C2 (amended): in `unitFeatureScene` the requested length is 200
and the returned length 90 lies in `[0, 200]`. -/
theorem C2_returned_length_bounds_witness :
    (90 : ℚ) ≤ 200 ∧ (0 : ℚ) ≤ 90 :=
  have h := (C2_returned_length_bounds unitFeatureScene sceneStart sceneDir 200 0 none none
    (by decide)).1
    { length := 90, hitUnit := some (sceneUnit 2 1), hitFeature := none, hitColQuery := none }
    (by decide)
  ⟨h.1, h.2 (by decide)
    (fun f len d hd => by
      unfold featureHitDist unitFeatureScene sceneEnv at hd
      by_cases hf : f.id = 1
      · simp [hf, sceneQuery] at hd
        rw [← hd]
        decide
      · simp [hf] at hd)
    (fun u len d hd => by
      unfold unitHitDist unitFeatureScene sceneEnv at hd
      by_cases hu : u.id = 2
      · simp [hu, sceneQuery] at hd
        rw [← hd]
        decide
      · simp [hu] at hd)⟩

/-- C6: for a non-zero direction and no filter flags, let `e` be a candidate of
the crossed quads that the collision query hits at distance `d`, below the
requested length (it is hit at `d` on every segment longer than `d`, and a
re-test on the segment of length `d` reports nothing nearer), while no other
candidate is hit, and the ground does not intersect the ray before `d`. Then
`TraceRay` returns `d`, sets the hit output of the kind of `e` to `e` and the
other hit output to null. -/
theorem C6_single_hit_is_returned (env : Env) (start dir : float3) (length d : ℚ)
    (owner : Option CUnit) (hitColQuery : Option CollisionQuery) (e : CSolidObject)
    (hdir : dir ≠ ZeroVector) (hd : d < length)
    (he : objCandidate env start dir length 0 owner e)
    (hhit : ∀ len, d < len → objHitDist env start dir len e = some d)
    (hhit2 : ∀ d', objHitDist env start dir d e = some d' → d ≤ d')
    (hOF : ∀ f, f ∈ crossedFeatures env start dir length → f.quadMapRays = true →
      CSolidObject.feature f ≠ e → ∀ len, featureHitDist env start dir len f = none)
    (hOU : ∀ u, u ∈ crossedUnits env start dir length → unitCandidate 0 owner u →
      CSolidObject.unit u ≠ e → ∀ len, unitHitDist env start dir len u = none)
    (hG : ¬ (0 < env.LineGroundCol start (start.add (dir.scale d)) ∧
      env.LineGroundCol start (start.add (dir.scale d)) < d)) :
    ∃ r, TraceRay env start dir length 0 owner hitColQuery = some r ∧
      r.length = d ∧ r.hitsOnly e := by
  obtain ⟨r, hr⟩ := TraceRay_defined env start dir length 0 owner hitColQuery
    (Or.inr (Or.inl (by decide)))
  refine ⟨r, hr, ?_⟩
  exact TraceRay_closest env start dir length 0 owner hitColQuery e d r hdir he hd hhit hhit2
    (fun f hf hq hne len d' hd' => by rw [hOF f hf hq hne len] at hd'; cases hd')
    (fun u hu hc hne len d' hd' => by rw [hOU u hu hc hne len] at hd'; cases hd')
    (Or.inr hG) hr

/-- Witness of C6: the scenario of the spec, requested length 200 and entry
distance 90; `TraceRay` returns 90 with `hitUnit` set to the unit and
`hitFeature` null. -/
theorem C6_single_hit_is_returned_witness :
    ∃ r, TraceRay sphereScene sceneStart sceneDir 200 0 none none = some r ∧
      r.length = 90 ∧ r.hitsOnly (CSolidObject.unit (sceneUnit 2 1)) :=
  C6_single_hit_is_returned sphereScene sceneStart sceneDir 200 90 none none
    (CSolidObject.unit (sceneUnit 2 1)) (by decide) (by decide)
    ⟨by decide, by decide, by decide, by decide⟩
    (fun _ _ => rfl)
    (fun d' hd' => by
      have h : d' = 90 := by
        simp [objHitDist, unitHitDist, sphereScene, sceneEnv, sceneUnit, sceneQuery] at hd'
        exact hd'.symm
      rw [h])
    (fun f _ _ _ len => rfl)
    (fun u hu _ hne len => by
      simp [crossedUnits, sphereScene, sceneEnv] at hu
      exact absurd (by rw [hu]) hne)
    (by decide)

/-- C3 (counterexample): `A` (the feature with identity 1, hit at distance 90)
and `B` (the unit with identity 2, hit at distance 150) are valid candidates,
yet `TraceRay` does not reference `A`: it returns no entity when the ground is
hit at distance 50, and it returns a third unit when that unit is hit at
distance 40. -/
theorem C3_closer_candidate_not_referenced :
    (objCandidate (nearFarScene 50) sceneStart sceneDir 200 0 none
        (CSolidObject.feature (sceneFeature 1)) ∧
      objCandidate (nearFarScene 50) sceneStart sceneDir 200 0 none
        (CSolidObject.unit (sceneUnit 2 1)) ∧
      objHitDist (nearFarScene 50) sceneStart sceneDir 200
        (CSolidObject.feature (sceneFeature 1)) = some 90 ∧
      objHitDist (nearFarScene 50) sceneStart sceneDir 200
        (CSolidObject.unit (sceneUnit 2 1)) = some 150 ∧
      TraceRay (nearFarScene 50) sceneStart sceneDir 200 0 none none =
        some { length := 50, hitUnit := none, hitFeature := none, hitColQuery := none }) ∧
    (objCandidate threeScene sceneStart sceneDir 200 0 none
        (CSolidObject.feature (sceneFeature 1)) ∧
      objCandidate threeScene sceneStart sceneDir 200 0 none
        (CSolidObject.unit (sceneUnit 2 1)) ∧
      objHitDist threeScene sceneStart sceneDir 200
        (CSolidObject.feature (sceneFeature 1)) = some 90 ∧
      objHitDist threeScene sceneStart sceneDir 200
        (CSolidObject.unit (sceneUnit 2 1)) = some 150 ∧
      TraceRay threeScene sceneStart sceneDir 200 0 none none =
        some { length := 40, hitUnit := some (sceneUnit 3 1), hitFeature := none,
               hitColQuery := none }) := by
  refine ⟨⟨⟨?_, ?_, ?_⟩, ⟨?_, ?_, ?_, ?_⟩, ?_, ?_, ?_⟩,
    ⟨⟨?_, ?_, ?_⟩, ⟨?_, ?_, ?_, ?_⟩, ?_, ?_, ?_⟩⟩ <;> decide

/-- C3 (amended): if `A` is a valid candidate of `TraceRay` that the collision
query hits at distance `dA` (on every segment longer than `dA`) and every
distance the query reports for `B` is greater than `dA`, then on return
`TraceRay` references `B` neither as `hitUnit` nor as `hitFeature`, whatever
the kinds of `A` and `B` and the order of the quads. It references `A`, alone
and with returned length `dA`, when in addition the direction is non-zero,
`dA` is below the requested length, a re-test of `A` on the segment of length
`dA` reports nothing nearer, every other candidate is only hit beyond `dA`, and
the ground is filtered out or does not intersect before `dA`. -/
theorem C3_closest_candidate_wins (env : Env) (start dir : float3) (length : ℚ)
    (avoidFlags : Nat) (owner : Option CUnit) (hitColQuery : Option CollisionQuery)
    (A B : CSolidObject) (dA : ℚ) (r : TraceResult)
    (hAc : objCandidate env start dir length avoidFlags owner A)
    (hA : ∀ len, dA < len → objHitDist env start dir len A = some dA)
    (hB : ∀ len d, objHitDist env start dir len B = some d → dA < d)
    (hr : TraceRay env start dir length avoidFlags owner hitColQuery = some r) :
    ¬ r.references B ∧
    (dir ≠ ZeroVector → dA < length →
      (∀ d, objHitDist env start dir dA A = some d → dA ≤ d) →
      (∀ f, f ∈ crossedFeatures env start dir length → f.quadMapRays = true →
        CSolidObject.feature f ≠ A →
        ∀ len d, featureHitDist env start dir len f = some d → dA < d) →
      (∀ u, u ∈ crossedUnits env start dir length → unitCandidate avoidFlags owner u →
        CSolidObject.unit u ≠ A →
        ∀ len d, unitHitDist env start dir len u = some d → dA < d) →
      (hasFlag avoidFlags Collision.NOGROUND = true ∨
        ¬ (0 < env.LineGroundCol start (start.add (dir.scale dA)) ∧
          env.LineGroundCol start (start.add (dir.scale dA)) < dA)) →
      r.length = dA ∧ r.hitsOnly A) := by
  constructor
  · by_cases hdir : dir = ZeroVector
    · subst hdir
      simp [TraceRay] at hr
      subst hr
      cases B with
      | unit b => simp [TraceResult.references]
      | feature b => simp [TraceResult.references]
    · rw [TraceRay_phases env start dir length avoidFlags owner hitColQuery hdir] at hr
      rcases Option.map_eq_some'.mp hr with ⟨sU, hsU, hsr⟩
      intro hb
      rw [← hsr] at hb
      exact traceEntities_never_farther env start dir length avoidFlags owner hitColQuery
        A B dA sU hAc hA hB hsU (traceGround_references env start dir _ sU B hb)
  · intro hdir hdA hA2 hOF hOU hG
    exact TraceRay_closest env start dir length avoidFlags owner hitColQuery A dA r hdir hAc
      hdA hA hA2 hOF hOU hG hr

/-- Witness of C3 (amended): in `unitFeatureScene` the unit `A` is hit at
distance 90 and the feature `B` at distance 120; the feature is recorded
first, and `TraceRay` returns the unit alone, with length 90. -/
theorem C3_closest_candidate_wins_witness :
    ¬ (TraceResult.references
        { length := 90, hitUnit := some (sceneUnit 2 1), hitFeature := none,
          hitColQuery := none } (CSolidObject.feature (sceneFeature 1))) ∧
      (90 : ℚ) = 90 ∧
      TraceResult.hitsOnly
        { length := 90, hitUnit := some (sceneUnit 2 1), hitFeature := none,
          hitColQuery := none } (CSolidObject.unit (sceneUnit 2 1)) :=
  have h := C3_closest_candidate_wins unitFeatureScene sceneStart sceneDir 200 0 none none
    (CSolidObject.unit (sceneUnit 2 1)) (CSolidObject.feature (sceneFeature 1)) 90
    { length := 90, hitUnit := some (sceneUnit 2 1), hitFeature := none, hitColQuery := none }
    ⟨by decide, by decide, by decide, by decide⟩
    (fun _ _ => rfl)
    (fun len d hd => by
      have h : d = 120 := by
        simp [objHitDist, featureHitDist, unitFeatureScene, sceneEnv, sceneFeature,
          sceneQuery] at hd
        exact hd.symm
      rw [h]
      decide)
    (by decide)
  ⟨h.1, h.2 (by decide) (by decide)
    (fun d hd => by
      have h : d = 90 := by
        simp [objHitDist, unitHitDist, unitFeatureScene, sceneEnv, sceneUnit, sceneQuery] at hd
        exact hd.symm
      rw [h])
    (fun f hf _ _ len d hd => by
      simp [crossedFeatures, unitFeatureScene, sceneEnv] at hf
      subst hf
      have h : d = 120 := by
        simp [featureHitDist, unitFeatureScene, sceneEnv, sceneFeature, sceneQuery] at hd
        exact hd.symm
      rw [h]
      decide)
    (fun u hu _ hne len d hd => by
      simp [crossedUnits, unitFeatureScene, sceneEnv] at hu
      exact absurd (by rw [hu]) hne)
    (Or.inr (by decide))⟩

/-- C13: `TestConeHelper` returns `true` exactly when the point-to-surface
distance of the object at the muzzle position `pos3D`, or at the impact
position `pos3D + dir3D * d`, is at most `coneSize`, where
`d = Clamp(dot(centre - pos3D, dir3D), 0, length)` and
`coneSize = |d| * spread + 1`; a surface distance equal to `coneSize` counts
as inside. -/
theorem C13_cone_helper_iff (env : Env) (pos3D dir3D : float3) (length spread : ℚ)
    (obj : CSolidObject) :
    TestConeHelper env pos3D dir3D length spread obj = true ↔
      (obj.pointSurfaceDistance env pos3D ≤
          |Clamp (((obj.worldSpacePos env).sub pos3D).dot dir3D) 0 length| * spread + 1 ∨
        obj.pointSurfaceDistance env
            (pos3D.add (dir3D.scale (Clamp (((obj.worldSpacePos env).sub pos3D).dot dir3D) 0
              length))) ≤
          |Clamp (((obj.worldSpacePos env).sub pos3D).dot dir3D) 0 length| * spread + 1) := by
  unfold TestConeHelper
  simp only [Bool.not_false, if_true]
  by_cases h1 : obj.pointSurfaceDistance env pos3D ≤
      |Clamp (((obj.worldSpacePos env).sub pos3D).dot dir3D) 0 length| * spread + 1
  · simp [h1]
  · simp [h1]

/-- C14: `TestTrajectoryConeHelper` returns `true` exactly when the
point-to-surface distance of the object at the muzzle position `pos3D`, or at
the point `pos3D + dir2D * d + UpVector * (quadratic * d * d + linear * d)` of
the parabola, is at most `|d| * spread + baseSize`, where
`d = Clamp(dot(centre - pos3D, dir2D), 0, length)`; when `d = 0` that second
sample point is the muzzle position itself. -/
theorem C14_trajectory_helper_iff (env : Env) (pos3D dir2D : float3)
    (length linear quadratic spread baseSize : ℚ) (obj : CSolidObject) :
    (TestTrajectoryConeHelper env pos3D dir2D length linear quadratic spread baseSize obj =
        true ↔
      (obj.pointSurfaceDistance env pos3D ≤
          |Clamp (((obj.worldSpacePos env).sub pos3D).dot dir2D) 0 length| * spread + baseSize ∨
        obj.pointSurfaceDistance env
            ((pos3D.add (dir2D.scale
              (Clamp (((obj.worldSpacePos env).sub pos3D).dot dir2D) 0 length))).add
              (UpVector.scale
                (quadratic * Clamp (((obj.worldSpacePos env).sub pos3D).dot dir2D) 0 length *
                    Clamp (((obj.worldSpacePos env).sub pos3D).dot dir2D) 0 length +
                  linear * Clamp (((obj.worldSpacePos env).sub pos3D).dot dir2D) 0 length))) ≤
          |Clamp (((obj.worldSpacePos env).sub pos3D).dot dir2D) 0 length| * spread +
            baseSize)) ∧
    (Clamp (((obj.worldSpacePos env).sub pos3D).dot dir2D) 0 length = 0 →
      (pos3D.add (dir2D.scale
          (Clamp (((obj.worldSpacePos env).sub pos3D).dot dir2D) 0 length))).add
          (UpVector.scale
            (quadratic * Clamp (((obj.worldSpacePos env).sub pos3D).dot dir2D) 0 length *
                Clamp (((obj.worldSpacePos env).sub pos3D).dot dir2D) 0 length +
              linear * Clamp (((obj.worldSpacePos env).sub pos3D).dot dir2D) 0 length)) =
        pos3D) := by
  constructor
  · unfold TestTrajectoryConeHelper
    simp only [Bool.not_false, if_true]
    by_cases h1 : obj.pointSurfaceDistance env pos3D ≤
        |Clamp (((obj.worldSpacePos env).sub pos3D).dot dir2D) 0 length| * spread + baseSize
    · simp [h1]
    · simp [h1]
  · intro h0
    rw [h0]
    simp [float3.add, float3.scale, UpVector]

/-- C12: for a normalized firing direction and zero spread, let `u` be a
collidable unit that is not the owner and is listed in a crossed quad, either
in the unit list of the given ally-team with NOFRIENDLIES unset, or as a
neutral unit with NONEUTRALS unset. If its volume centre lies on the firing
line at distance `d` with `0 ≤ d < length` and its surface distance at its own
centre is at most `0`, `TestCone` returns `true` (unsafe). -/
theorem C12_centred_entity_is_unsafe (env : Env) (frm dir : float3) (length d : ℚ)
    (allyteam : Int) (avoidFlags : Nat) (owner : Option CUnit) (u : CUnit) (quadIdx : Int)
    (hnorm : dir.dot dir = 1)
    (hquad : quadIdx ∈ env.GetQuadsOnRay frm dir length)
    (hlisted :
      (u ∈ (env.GetQuad quadIdx).teamUnits allyteam ∧
        hasFlag avoidFlags Collision.NOFRIENDLIES = false) ∨
      (u ∈ (env.GetQuad quadIdx).units ∧ u.neutral = true ∧
        hasFlag avoidFlags Collision.NONEUTRALS = false))
    (hown : ptrEqU u owner = false) (hcol : u.quadMapRays = true)
    (hd0 : 0 ≤ d) (hdl : d < length)
    (hcentre : env.GetWorldSpacePosU u = frm.add (dir.scale d))
    (hsurf : env.GetPointSurfaceDistanceU u (env.GetWorldSpacePosU u) ≤ 0) :
    TestCone env frm dir length 0 allyteam avoidFlags owner = true := by
  have hhelper : TestConeHelper env frm dir length 0 (CSolidObject.unit u) = true := by
    refine TestConeHelper_centre env frm dir length 0 d (CSolidObject.unit u) hnorm hd0
      (le_of_lt hdl) hcentre ?_
    simp only [CSolidObject.pointSurfaceDistance, CSolidObject.worldSpacePos]
    linarith
  unfold TestCone
  have hne : (env.GetQuadsOnRay frm dir length).isEmpty = false := by
    cases hl : env.GetQuadsOnRay frm dir length with
    | nil => rw [hl] at hquad; cases hquad
    | cons a t => rfl
  simp only [hne, Bool.false_eq_true, if_false]
  rw [List.any_eq_true]
  refine ⟨quadIdx, hquad, ?_⟩
  unfold coneQuadHit
  rcases hlisted with ⟨hmem, hflag⟩ | ⟨hmem, hneutral, hflag⟩
  · have h1 : ((env.GetQuad quadIdx).teamUnits allyteam).any (fun u =>
        !ptrEqU u owner && u.quadMapRays &&
          TestConeHelper env frm dir length 0 (CSolidObject.unit u)) = true := by
      rw [List.any_eq_true]
      exact ⟨u, hmem, by simp [hown, hcol, hhelper]⟩
    simp [hflag, h1]
  · have h1 : (env.GetQuad quadIdx).units.any (fun u =>
        u.neutral && !ptrEqU u owner && u.quadMapRays &&
          TestConeHelper env frm dir length 0 (CSolidObject.unit u)) = true := by
      rw [List.any_eq_true]
      exact ⟨u, hmem, by simp [hneutral, hown, hcol, hhelper]⟩
    simp [hflag, h1]

/-- C11 (the code at the failing input): an allied unit whose cube of
half-extent 10 is centred at `(100, 21/2, 100)` lies half a length unit beside
the firing line from `(0, 0, 100)` along the x axis. With spread `0`,
`TestCone` (half-width `|d| * 0 + 1 = 1`) reports unsafe, but
`TestTrajectoryCone` with a flat trajectory, which passes `baseSize = 0` to
its helper (half-width `|d| * 0 + 0 = 0`), reports safe: at the impact point
the helper with base size `0` misses the unit and the same helper with base
size `1` would have caught it. -/
theorem C11_trajectory_cone_has_zero_base_radius :
    TestCone (coneScene ⟨100, 21 / 2, 100⟩ 10) sceneStart sceneDir 200 0 0 0 none = true ∧
    TestTrajectoryCone (coneScene ⟨100, 21 / 2, 100⟩ 10) sceneStart sceneDir 200 0 0 0 0 0
      none = false ∧
    TestTrajectoryConeHelper (coneScene ⟨100, 21 / 2, 100⟩ 10) sceneStart sceneDir 200 0 0 0 0
      (CSolidObject.unit (sceneUnit 2 0)) = false ∧
    TestTrajectoryConeHelper (coneScene ⟨100, 21 / 2, 100⟩ 10) sceneStart sceneDir 200 0 0 0 1
      (CSolidObject.unit (sceneUnit 2 0)) = true := by
  have h : |(21 / 2 : ℚ)| = 21 / 2 := abs_of_pos (by norm_num)
  refine ⟨?_, ?_, ?_, ?_⟩
  · simp [TestCone, coneScene, sceneEnv, coneQuadHit, hasFlag, Collision.NOFRIENDLIES,
      Collision.NONEUTRALS, Collision.NOFEATURES, sceneUnit, ptrEqU, TestConeHelper,
      CSolidObject.worldSpacePos, CSolidObject.pointSurfaceDistance, sceneStart, sceneDir,
      float3.add, float3.sub, float3.scale, float3.dot, Clamp]
    norm_num [h]
  · simp [TestTrajectoryCone, coneScene, sceneEnv, coneQuadHit, hasFlag,
      Collision.NOFRIENDLIES, Collision.NONEUTRALS, Collision.NOFEATURES, sceneUnit, ptrEqU,
      TestTrajectoryConeHelper, CSolidObject.worldSpacePos, CSolidObject.pointSurfaceDistance,
      sceneStart, sceneDir, float3.add, float3.sub, float3.scale, float3.dot, Clamp, UpVector]
    norm_num [h]
  · simp [coneScene, sceneEnv, sceneUnit,
      TestTrajectoryConeHelper, CSolidObject.worldSpacePos, CSolidObject.pointSurfaceDistance,
      sceneStart, sceneDir, float3.add, float3.sub, float3.scale, float3.dot, Clamp, UpVector]
    norm_num [h]
  · simp [coneScene, sceneEnv, sceneUnit,
      TestTrajectoryConeHelper, CSolidObject.worldSpacePos, CSolidObject.pointSurfaceDistance,
      sceneStart, sceneDir, float3.add, float3.sub, float3.scale, float3.dot, Clamp, UpVector]
    norm_num [h]

/-- Witness of C12: an allied unit whose cube of half-extent 10 is centred on
the firing line at distance 100 makes `TestCone` report unsafe at zero
spread. -/
theorem C12_centred_entity_is_unsafe_witness :
    TestCone (coneScene ⟨100, 0, 100⟩ 10) sceneStart sceneDir 200 0 0 0 none = true :=
  C12_centred_entity_is_unsafe (coneScene ⟨100, 0, 100⟩ 10) sceneStart sceneDir 200 100 0 0
    none (sceneUnit 2 0) 0
    (by norm_num [float3.dot, sceneDir])
    (by simp [coneScene, sceneEnv])
    (Or.inl ⟨by simp [coneScene, sceneEnv, sceneUnit], by decide⟩)
    (by decide) (by decide) (by norm_num) (by norm_num)
    (by norm_num [coneScene, sceneStart, sceneDir, float3.add, float3.scale])
    (by norm_num [coneScene])

/-- Witness of C14: for a unit centred at the muzzle position the clamped
distance is `0` and the second sample point is the muzzle position. -/
theorem C14_trajectory_helper_iff_witness :
    (sceneStart.add (sceneDir.scale
        (Clamp (((CSolidObject.worldSpacePos (coneScene sceneStart 10)
          (CSolidObject.unit (sceneUnit 2 0))).sub sceneStart).dot sceneDir) 0 200))).add
        (UpVector.scale
          (3 * Clamp (((CSolidObject.worldSpacePos (coneScene sceneStart 10)
                (CSolidObject.unit (sceneUnit 2 0))).sub sceneStart).dot sceneDir) 0 200 *
              Clamp (((CSolidObject.worldSpacePos (coneScene sceneStart 10)
                (CSolidObject.unit (sceneUnit 2 0))).sub sceneStart).dot sceneDir) 0 200 +
            2 * Clamp (((CSolidObject.worldSpacePos (coneScene sceneStart 10)
                (CSolidObject.unit (sceneUnit 2 0))).sub sceneStart).dot sceneDir) 0 200)) =
      sceneStart :=
  (C14_trajectory_helper_iff (coneScene sceneStart 10) sceneStart sceneDir 200 2 3 0 0
    (CSolidObject.unit (sceneUnit 2 0))).2
    (by norm_num [Clamp, CSolidObject.worldSpacePos, coneScene, float3.sub, float3.dot,
      sceneStart, sceneDir])

/-- C15: `TestCone` and `TestTrajectoryCone` give the same answer on the scene
`env` and on the scene where a non-neutral unit `u` has been added to a quad,
anywhere in its list of all units and in the unit list of a team other than
the given ally-team (read from right to left: where such a unit has been
removed). Enemy units are therefore never tested. -/
theorem C15_enemy_units_never_tested (env : Env) (frm dir : float3)
    (length linear quadratic spread : ℚ) (allyteam : Int) (avoidFlags : Nat)
    (owner : Option CUnit) (quadIdx : Int) (n : Nat) (u : CUnit) (team : Int)
    (hn : u.neutral = false) (hteam : team ≠ allyteam) :
    TestCone (env.addUnit quadIdx n u team) frm dir length spread allyteam avoidFlags owner =
        TestCone env frm dir length spread allyteam avoidFlags owner ∧
      TestTrajectoryCone (env.addUnit quadIdx n u team) frm dir length linear quadratic spread
          allyteam avoidFlags owner =
        TestTrajectoryCone env frm dir length linear quadratic spread allyteam avoidFlags
          owner := by
  constructor
  · unfold TestCone
    have h : (env.addUnit quadIdx n u team).GetQuadsOnRay = env.GetQuadsOnRay := rfl
    have hh : TestConeHelper (env.addUnit quadIdx n u team) frm dir length spread =
        TestConeHelper env frm dir length spread := rfl
    simp only [h, hh]
    split
    · rfl
    · congr 1
      funext q
      exact coneQuadHit_addUnit env _ _ _ _ allyteam owner quadIdx n u team hn hteam q
  · unfold TestTrajectoryCone
    have h : (env.addUnit quadIdx n u team).GetQuadsOnRay = env.GetQuadsOnRay := rfl
    have hh : TestTrajectoryConeHelper (env.addUnit quadIdx n u team) frm dir length linear
        quadratic spread 0 =
        TestTrajectoryConeHelper env frm dir length linear quadratic spread 0 := rfl
    simp only [h, hh]
    split
    · rfl
    · congr 1
      funext q
      exact coneQuadHit_addUnit env _ _ _ _ allyteam owner quadIdx n u team hn hteam q

/-- Witness of C15: adding an enemy unit (ally-team 1) whose cube is centred
on the firing line to the quad of the scene changes neither test for
ally-team 0. -/
theorem C15_enemy_units_never_tested_witness :
    TestCone ((coneScene ⟨100, 0, 100⟩ 10).addUnit 0 0 (sceneUnit 5 1) 1) sceneStart
        sceneDir 200 0 0 0 none =
        TestCone (coneScene ⟨100, 0, 100⟩ 10) sceneStart sceneDir 200 0 0 0 none ∧
      TestTrajectoryCone ((coneScene ⟨100, 0, 100⟩ 10).addUnit 0 0 (sceneUnit 5 1) 1)
          sceneStart sceneDir 200 0 0 0 0 0 none =
        TestTrajectoryCone (coneScene ⟨100, 0, 100⟩ 10) sceneStart sceneDir 200 0 0 0 0 0
          none :=
  C15_enemy_units_never_tested (coneScene ⟨100, 0, 100⟩ 10) sceneStart sceneDir 200 0 0 0 0 0
    none 0 0 (sceneUnit 5 1) 1 (by decide) (by decide)

/-- C18: with `groundOnly` set and a non-zero direction, `GuiTraceRay` returns
the smaller of the ground distance and the water-plane distance when
`ignoreWater` is false and the ground distance when `ignoreWater` is true,
with both hit outputs null; the result is the same in every scene `env'` with
the same ground service, so no entity is tested. -/
theorem C18_ground_only_pick (env env' : Env) (start dir : float3) (length : ℚ)
    (exclude : Option CUnit) (useRadar ignoreWater : Bool) (hdir : dir ≠ ZeroVector)
    (hground : env'.LineGroundColUnsynced = env.LineGroundColUnsynced) :
    GuiTraceRay env start dir length exclude useRadar true ignoreWater =
        { length :=
            if ignoreWater then env.LineGroundColUnsynced start (start.add (dir.scale length))
            else min (env.LineGroundColUnsynced start (start.add (dir.scale length)))
              (guiWaterRayLength start dir),
          hitUnit := none, hitFeature := none } ∧
      GuiTraceRay env' start dir length exclude useRadar true ignoreWater =
        GuiTraceRay env start dir length exclude useRadar true ignoreWater := by
  constructor
  · cases ignoreWater <;> simp [GuiTraceRay, guiMinRayLength, hdir]
  · simp [GuiTraceRay, guiMinRayLength, hdir, hground]

/-- Witness of C18: in `farUnitScene` the ground-only pick that ignores water
returns the ground distance 10 and no entity. -/
theorem C18_ground_only_pick_witness :
    GuiTraceRay farUnitScene sceneStart sceneDir 400 none false true true =
      { length := 10, hitUnit := none, hitFeature := none } :=
  (C18_ground_only_pick farUnitScene farUnitScene sceneStart sceneDir 400 none false true
    (by decide) rfl).1

/-- C20: for a non-zero direction and `groundOnly` unset, let `m` be
`minRayLength` and `s` the locals after the quad loop. If `m > 0` and
`m + 200 < s.minIngressDist`, `GuiTraceRay` returns `m` with both hit outputs
null; otherwise it returns the selected ingress distance `s.minIngressDist`
with the selected entity. Hence a returned entity never lies more than 200
beyond a positive `m`. -/
theorem C20_terrain_occlusion_check (env : Env) (start dir : float3) (length : ℚ)
    (exclude : Option CUnit) (useRadar ignoreWater : Bool) (hdir : dir ≠ ZeroVector) :
    ((0 < guiMinRayLength env start dir length ignoreWater ∧
        guiMinRayLength env start dir length ignoreWater + 200 <
          (guiLoop env start dir length exclude useRadar).minIngressDist) →
      GuiTraceRay env start dir length exclude useRadar false ignoreWater =
        { length := guiMinRayLength env start dir length ignoreWater,
          hitUnit := none, hitFeature := none }) ∧
    (¬ (0 < guiMinRayLength env start dir length ignoreWater ∧
        guiMinRayLength env start dir length ignoreWater + 200 <
          (guiLoop env start dir length exclude useRadar).minIngressDist) →
      GuiTraceRay env start dir length exclude useRadar false ignoreWater =
        { length := (guiLoop env start dir length exclude useRadar).minIngressDist,
          hitUnit := (guiLoop env start dir length exclude useRadar).hitUnit,
          hitFeature := (guiLoop env start dir length exclude useRadar).hitFeature }) ∧
    (((GuiTraceRay env start dir length exclude useRadar false ignoreWater).hitUnit ≠ none ∨
        (GuiTraceRay env start dir length exclude useRadar false ignoreWater).hitFeature ≠
          none) →
      ¬ (0 < guiMinRayLength env start dir length ignoreWater ∧
        guiMinRayLength env start dir length ignoreWater + 200 <
          (GuiTraceRay env start dir length exclude useRadar false ignoreWater).length)) := by
  rw [GuiTraceRay_unfold env start dir length exclude useRadar ignoreWater hdir]
  unfold guiFinish
  by_cases h : guiMinRayLength env start dir length ignoreWater > 0 ∧
      guiMinRayLength env start dir length ignoreWater + 200 <
        (guiLoop env start dir length exclude useRadar).minIngressDist
  · rw [if_pos h]
    refine ⟨fun _ => rfl, fun hn => absurd ⟨h.1, h.2⟩ hn, ?_⟩
    intro hne
    simp at hne
  · rw [if_neg h]
    refine ⟨fun hp => absurd ⟨hp.1, hp.2⟩ h, fun _ => rfl, ?_⟩
    intro _ hp
    exact h ⟨hp.1, hp.2⟩

/-- Witness of C20: in `farUnitScene` the unit entered at distance 300 lies
more than 200 beyond the ground hit at distance 10, so `GuiTraceRay` returns
10 and no entity. -/
theorem C20_terrain_occlusion_check_witness :
    GuiTraceRay farUnitScene sceneStart sceneDir 400 none false false true =
      { length := 10, hitUnit := none, hitFeature := none } :=
  (C20_terrain_occlusion_check farUnitScene sceneStart sceneDir 400 none false true
    (by decide)).1
    (by
      have hm : guiMinRayLength farUnitScene sceneStart sceneDir 400 true = 10 := by decide
      have hs : (guiLoop farUnitScene sceneStart sceneDir 400 none false).minIngressDist =
          300 := by decide
      rw [hm, hs]
      norm_num)

/-- C17 (the code at the failing input): in `twoCellScene` the features with
identities 1 and 2 are hit at distances 30 and 80. With the quads `[1, 2]`
`GuiTraceRay` returns the feature 2 at distance 80; with the quad 1 repeated,
`[1, 2, 1]`, it returns the feature 1 at distance 30. -/
theorem C17_repeated_quad_changes_pick :
    GuiTraceRay (twoCellScene [1, 2]) sceneStart sceneDir 200 none false false true =
        { length := 80, hitUnit := none, hitFeature := some (sceneFeature 2) } ∧
      GuiTraceRay (twoCellScene [1, 2, 1]) sceneStart sceneDir 200 none false false true =
        { length := 30, hitUnit := none, hitFeature := some (sceneFeature 1) } := by
  decide

/-- C19: in `GuiTraceRay` (non-zero direction, `groundOnly` unset), let the
factory `F` and the non-factory unit `U` be candidates listed in crossed quads
that `MouseHit` hits with ingress / egress distances `Fi`, `Fe` and `Ui`,
`Ue`, while no other candidate unit and no candidate feature is hit. If
`Ui < Fe` and the terrain-occlusion check does not fire on `Ui`, the unit `U`
is returned at distance `Ui`; if `Fe < Ui` and the check does not fire on
`Fi`, the factory `F` is returned at distance `Fi`. The order and the number
of times the quads list `F` and `U` are arbitrary. -/
theorem C19_factory_versus_unit (env : Env) (start dir : float3) (length : ℚ)
    (exclude : Option CUnit) (useRadar ignoreWater : Bool) (F U : CUnit) (Fi Fe Ui Ue : ℚ)
    (hdir : dir ≠ ZeroVector)
    (hFfac : F.isFactory = true) (hUfac : U.isFactory = false)
    (hFc : guiUnitCandidate env exclude useRadar F)
    (hUc : guiUnitCandidate env exclude useRadar U)
    (hFmem : F ∈ crossedUnits env start dir length)
    (hUmem : U ∈ crossedUnits env start dir length)
    (hFhit : guiUnitHit env start dir length useRadar F = some (Fi, Fe))
    (hUhit : guiUnitHit env start dir length useRadar U = some (Ui, Ue))
    (hothers : ∀ u, u ∈ crossedUnits env start dir length →
      guiUnitCandidate env exclude useRadar u → u ≠ F → u ≠ U →
      guiUnitHit env start dir length useRadar u = none)
    (hfeat : ∀ f, f ∈ crossedFeatures env start dir length → guiFeatureCandidate env f →
      featureHitDist env start dir length f = none) :
    (Ui < Fe →
      ¬ (0 < guiMinRayLength env start dir length ignoreWater ∧
        guiMinRayLength env start dir length ignoreWater + 200 < Ui) →
      GuiTraceRay env start dir length exclude useRadar false ignoreWater =
        { length := Ui, hitUnit := some U, hitFeature := none }) ∧
    (Fe < Ui →
      ¬ (0 < guiMinRayLength env start dir length ignoreWater ∧
        guiMinRayLength env start dir length ignoreWater + 200 < Fi) →
      GuiTraceRay env start dir length exclude useRadar false ignoreWater =
        { length := Fi, hitUnit := some F, hitFeature := none }) := by
  obtain ⟨hU, hF⟩ := guiLoop_factory_unit env start dir length exclude useRadar F U Fi Fe Ui
    Ue hFfac hUfac hFc hUc hFmem hUmem hFhit hUhit hothers hfeat
  rw [GuiTraceRay_unfold env start dir length exclude useRadar ignoreWater hdir]
  constructor
  · intro hlt hocc
    rw [hU hlt]
    unfold guiFinish guiSelectUnit
    rw [if_neg (fun h => hocc ⟨h.1, h.2⟩)]
  · intro hlt hocc
    rw [hF hlt]
    unfold guiFinish guiSelectUnit
    rw [if_neg (fun h => hocc ⟨h.1, h.2⟩)]

/-- Witness of C19: in `factoryScene` the unit is entered at distance 90,
before the factory is left at distance 140, and is returned although the
factory is listed first. -/
theorem C19_factory_versus_unit_witness :
    GuiTraceRay (factoryScene [sceneFactory, sceneUnit 2 0]) sceneStart sceneDir 200 none
        false false true =
      { length := 90, hitUnit := some (sceneUnit 2 0), hitFeature := none } :=
  (C19_factory_versus_unit (factoryScene [sceneFactory, sceneUnit 2 0]) sceneStart sceneDir
    200 none false true sceneFactory (sceneUnit 2 0) 40 140 90 100 (by decide) rfl rfl
    ⟨by decide, by decide, by decide⟩ ⟨by decide, by decide, by decide⟩
    (by decide) (by decide) rfl rfl
    (fun u hu _ h1 h2 => by
      simp [crossedUnits, factoryScene, sceneEnv] at hu
      rcases hu with h | h
      · exact absurd h h1
      · exact absurd h h2)
    (fun f hf _ => by
      simp [crossedFeatures, factoryScene, sceneEnv] at hf)).1
    (by norm_num) (fun h => absurd h.1 (by decide))

/-- C24: `TestCone` and `TestTrajectoryCone` are monotone in the spread: for
`s ≤ s'` and all other arguments and the scene fixed, a test that returns
`true` (unsafe) with spread `s` returns `true` with spread `s'`. -/
theorem C24_cone_tests_monotone_in_spread (env : Env) (frm dir : float3)
    (length linear quadratic s s' : ℚ) (allyteam : Int) (avoidFlags : Nat)
    (owner : Option CUnit) (hs : s ≤ s') :
    (TestCone env frm dir length s allyteam avoidFlags owner = true →
      TestCone env frm dir length s' allyteam avoidFlags owner = true) ∧
    (TestTrajectoryCone env frm dir length linear quadratic s allyteam avoidFlags owner =
        true →
      TestTrajectoryCone env frm dir length linear quadratic s' allyteam avoidFlags owner =
        true) := by
  constructor
  · unfold TestCone
    dsimp only
    split
    · exact fun h => h
    · intro h
      rw [List.any_eq_true] at h ⊢
      obtain ⟨q, hq, hhit⟩ := h
      exact ⟨q, hq, coneQuadHit_mono env _ _ _ _ _ allyteam owner q
        (fun obj ho => TestConeHelper_mono env frm dir length s s' obj hs ho) hhit⟩
  · unfold TestTrajectoryCone
    dsimp only
    split
    · exact fun h => h
    · intro h
      rw [List.any_eq_true] at h ⊢
      obtain ⟨q, hq, hhit⟩ := h
      exact ⟨q, hq, coneQuadHit_mono env _ _ _ _ _ allyteam owner q
        (fun obj ho => TestTrajectoryConeHelper_mono env frm dir length linear quadratic s s'
          0 0 obj hs (le_refl _) ho) hhit⟩

/-- Witness of C24: the allied unit half a length unit beside the firing line
is inside the straight cone at spread `0`, hence at spread `1`. -/
theorem C24_cone_tests_monotone_in_spread_witness :
    TestCone (coneScene ⟨100, 21 / 2, 100⟩ 10) sceneStart sceneDir 200 1 0 0 none = true :=
  (C24_cone_tests_monotone_in_spread (coneScene ⟨100, 21 / 2, 100⟩ 10) sceneStart sceneDir
    200 0 0 0 1 0 0 none (by norm_num)).1
    (by
      have h : |(21 / 2 : ℚ)| = 21 / 2 := abs_of_pos (by norm_num)
      simp [TestCone, coneScene, sceneEnv, coneQuadHit, hasFlag, Collision.NOFRIENDLIES,
        Collision.NONEUTRALS, Collision.NOFEATURES, sceneUnit, ptrEqU, TestConeHelper,
        CSolidObject.worldSpacePos, CSolidObject.pointSurfaceDistance, sceneStart, sceneDir,
        float3.add, float3.sub, float3.scale, float3.dot, Clamp]
      norm_num [h])

/-- C25: whenever `TestTrajectoryCone` with `linear = 0` and `quadratic = 0`
returns `true`, `TestCone` returns `true` on the same arguments and scene; and
`TestTrajectoryConeHelper` with `linear = 0`, `quadratic = 0` and
`baseSize = 1` returns the same value as `TestConeHelper` on every object. -/
theorem C25_straight_cone_covers_flat_trajectory (env : Env) (frm dir : float3)
    (length spread : ℚ) (allyteam : Int) (avoidFlags : Nat) (owner : Option CUnit) :
    (TestTrajectoryCone env frm dir length 0 0 spread allyteam avoidFlags owner = true →
      TestCone env frm dir length spread allyteam avoidFlags owner = true) ∧
    (∀ obj, TestTrajectoryConeHelper env frm dir length 0 0 spread 1 obj =
      TestConeHelper env frm dir length spread obj) := by
  refine ⟨?_, fun obj => TestTrajectoryConeHelper_flat env frm dir length spread obj⟩
  unfold TestTrajectoryCone TestCone
  dsimp only
  split
  · exact fun h => h
  · intro h
    rw [List.any_eq_true] at h ⊢
    obtain ⟨q, hq, hhit⟩ := h
    refine ⟨q, hq, coneQuadHit_mono env _ _ _ _ _ allyteam owner q ?_ hhit⟩
    intro obj ho
    rw [← TestTrajectoryConeHelper_flat]
    exact TestTrajectoryConeHelper_mono env frm dir length 0 0 spread spread 0 1 obj
      (le_refl _) (by norm_num) ho

/-- Witness of C25: the allied unit centred on the firing line is caught by
the flat trajectory test, hence by the straight cone test. -/
theorem C25_straight_cone_covers_flat_trajectory_witness :
    TestCone (coneScene ⟨100, 0, 100⟩ 10) sceneStart sceneDir 200 0 0 0 none = true :=
  (C25_straight_cone_covers_flat_trajectory (coneScene ⟨100, 0, 100⟩ 10) sceneStart sceneDir
    200 0 0 0 none).1
    (by
      simp [TestTrajectoryCone, coneScene, sceneEnv, coneQuadHit, hasFlag,
        Collision.NOFRIENDLIES, Collision.NONEUTRALS, Collision.NOFEATURES, sceneUnit, ptrEqU,
        TestTrajectoryConeHelper, CSolidObject.worldSpacePos,
        CSolidObject.pointSurfaceDistance, sceneStart, sceneDir, float3.add, float3.sub,
        float3.scale, float3.dot, Clamp, UpVector]
      norm_num)

/-- C28: the divisor `min(dir.y, -0.00001)` of the water-plane distance of
`GuiTraceRay` is at most `-0.00001`, hence never zero: the division of source
line 293 is always defined and yields the `waterRayLength` that `GuiTraceRay`
uses. That value is a non-negative integer `n`, the integer part of
`|start.y|` divided by the guarded divisor's magnitude:
`n * |divisor| ≤ |start.y| < (n + 1) * |divisor|`, for every start and every
direction, horizontal and upward rays included. -/
theorem C28_water_distance_is_safe (start dir : float3) :
    guiWaterDivisor dir ≤ -(1 / 100000 : ℚ) ∧
      guiWaterDivisor dir ≠ 0 ∧
      guiWaterRayLengthChecked start dir = some (guiWaterRayLength start dir) ∧
      0 ≤ guiWaterRayLength start dir ∧
      ∃ n : ℕ, guiWaterRayLength start dir = (n : ℚ) ∧
        (n : ℚ) * |guiWaterDivisor dir| ≤ |start.y| ∧
        |start.y| < ((n : ℚ) + 1) * |guiWaterDivisor dir| := by
  have h1 : guiWaterDivisor dir ≤ -(1 / 100000 : ℚ) := min_le_right _ _
  have hneg : guiWaterDivisor dir < 0 := lt_of_le_of_lt h1 (by norm_num)
  have hne : guiWaterDivisor dir ≠ 0 := ne_of_lt hneg
  have hpos : 0 < |guiWaterDivisor dir| := abs_pos.mpr hne
  have h2 : (0 : ℤ) ≤ ⌊|start.y / guiWaterDivisor dir|⌋ :=
    Int.floor_nonneg.mpr (abs_nonneg _)
  have hval : guiWaterRayLength start dir =
      ((⌊|start.y / guiWaterDivisor dir|⌋ : ℤ) : ℚ) := rfl
  have hq : |start.y / guiWaterDivisor dir| * |guiWaterDivisor dir| = |start.y| := by
    rw [abs_div, div_mul_cancel₀ _ (ne_of_gt hpos)]
  refine ⟨h1, hne, ?_, ?_, ?_⟩
  · unfold guiWaterRayLengthChecked checkedDiv
    rw [if_neg hne, hval]
    rfl
  · rw [hval]
    exact_mod_cast h2
  · refine ⟨⌊|start.y / guiWaterDivisor dir|⌋.toNat, ?_, ?_, ?_⟩
    · rw [hval]
      have h3 := Int.toNat_of_nonneg h2
      exact_mod_cast h3.symm
    · have h3 : ((⌊|start.y / guiWaterDivisor dir|⌋.toNat : ℕ) : ℚ) =
          ((⌊|start.y / guiWaterDivisor dir|⌋ : ℤ) : ℚ) := by
        have h4 := Int.toNat_of_nonneg h2
        exact_mod_cast h4
      rw [h3, ← hq]
      exact mul_le_mul_of_nonneg_right (Int.floor_le _) (le_of_lt hpos)
    · have h3 : ((⌊|start.y / guiWaterDivisor dir|⌋.toNat : ℕ) : ℚ) =
          ((⌊|start.y / guiWaterDivisor dir|⌋ : ℤ) : ℚ) := by
        have h4 := Int.toNat_of_nonneg h2
        exact_mod_cast h4
      rw [h3, ← hq]
      exact mul_lt_mul_of_pos_right (Int.lt_floor_add_one _) hpos

/-- C21: a unit that `GuiTraceRay` returns in `hitUnit` is not the excluded
unit, is not flagged `noSelect`, and is visible to the observer: it is allied
with the observer's ally-team, or `useRadar` is set and it is in radar, or its
LOS status for the observer has the in-los or the continuous-radar bit, or the
observer spectates with full view. A feature returned in `hitFeature` is not
flagged `noSelect` and is in the observer's line of sight, or the observer
has full view. -/
theorem C21_picked_entities_are_visible (env : Env) (start dir : float3) (length : ℚ)
    (exclude : Option CUnit) (useRadar groundOnly ignoreWater : Bool) :
    (∀ u, (GuiTraceRay env start dir length exclude useRadar groundOnly ignoreWater).hitUnit =
        some u →
      ptrEqU u exclude = false ∧ u.noSelect = false ∧
      (env.Ally u.allyteam env.myAllyTeam = true ∨
        (useRadar = true ∧ env.InRadar u env.myAllyTeam = true) ∨
        (env.losStatus u env.myAllyTeam &&& (env.LOS_INLOS ||| env.LOS_CONTRADAR)) ≠ 0 ∨
        env.spectatingFullView = true)) ∧
    (∀ f, (GuiTraceRay env start dir length exclude useRadar groundOnly
        ignoreWater).hitFeature = some f →
      f.noSelect = false ∧
      (env.IsInLosForAllyTeam f env.myAllyTeam = true ∨ env.spectatingFullView = true)) := by
  have hinv := guiLoop_invariant
    (fun s => (∀ u, s.hitUnit = some u → guiUnitCandidate env exclude useRadar u) ∧
      (∀ f, s.hitFeature = some f → guiFeatureCandidate env f))
    env start dir length exclude useRadar
    ⟨fun u hu => by simp [guiInitial] at hu, fun f hf => by simp [guiInitial] at hf⟩
    (fun s u i e _ _ hc _ => by
      constructor
      · intro u' hu'
        simp only [guiSelectUnit, Option.some.injEq] at hu'
        subst hu'
        exact hc
      · intro f hf
        simp [guiSelectUnit] at hf)
    (fun s f d _ _ hc _ => by
      constructor
      · intro u hu
        simp [guiSelectFeature] at hu
      · intro f' hf'
        simp only [guiSelectFeature, Option.some.injEq] at hf'
        subst hf'
        exact hc)
  obtain ⟨hu, hf⟩ := GuiTraceRay_outputs env start dir length exclude useRadar groundOnly
    ignoreWater
  constructor
  · intro u h
    rcases hu with h1 | h1
    · rw [h1] at h
      cases h
    · rw [h1] at h
      obtain ⟨c1, c2, c3⟩ := hinv.1 u h
      refine ⟨c1, c2, ?_⟩
      unfold guiUnitVisible guiUnitIsEnemy guiUnitOnRadar guiUnitInSight at c3
      simp only [Bool.or_eq_true, Bool.not_eq_true', Bool.not_eq_false', Bool.and_eq_true,
        bne_iff_ne, ne_eq] at c3
      rcases c3 with ((c | c) | c) | c
      · exact Or.inl c
      · exact Or.inr (Or.inl c)
      · exact Or.inr (Or.inr (Or.inl c))
      · exact Or.inr (Or.inr (Or.inr c))
  · intro f h
    rcases hf with h1 | h1
    · rw [h1] at h
      cases h
    · rw [h1] at h
      obtain ⟨c1, c2⟩ := hinv.2 f h
      exact ⟨c2, c1.symm⟩

/-- Witness of C21: in `factoryScene` the unit that is returned is selectable
and allied with the observer. -/
theorem C21_picked_entities_are_visible_witness :
    ptrEqU (sceneUnit 2 0) none = false ∧ (sceneUnit 2 0).noSelect = false ∧
      ((factoryScene [sceneFactory, sceneUnit 2 0]).Ally (sceneUnit 2 0).allyteam
          (factoryScene [sceneFactory, sceneUnit 2 0]).myAllyTeam = true ∨
        (false = true ∧ (factoryScene [sceneFactory, sceneUnit 2 0]).InRadar (sceneUnit 2 0)
          (factoryScene [sceneFactory, sceneUnit 2 0]).myAllyTeam = true) ∨
        ((factoryScene [sceneFactory, sceneUnit 2 0]).losStatus (sceneUnit 2 0)
            (factoryScene [sceneFactory, sceneUnit 2 0]).myAllyTeam &&&
          ((factoryScene [sceneFactory, sceneUnit 2 0]).LOS_INLOS |||
            (factoryScene [sceneFactory, sceneUnit 2 0]).LOS_CONTRADAR)) ≠ 0 ∨
        (factoryScene [sceneFactory, sceneUnit 2 0]).spectatingFullView = true) :=
  (C21_picked_entities_are_visible (factoryScene [sceneFactory, sceneUnit 2 0]) sceneStart
    sceneDir 200 none false false true).1 (sceneUnit 2 0) (by decide)

/-- C22 (the code at the failing input): in `twoFeatureScene` no unit is hit
and the features with identities 1 and 2 are hit at distances 30 and 80.
`GuiTraceRay` returns the feature 2 at distance 80, not the closest one;
`TraceRay` on the same scene returns the feature 1 at distance 30. -/
theorem C22_last_feature_hit_is_picked :
    featureHitDist twoFeatureScene sceneStart sceneDir 200 (sceneFeature 1) = some 30 ∧
      featureHitDist twoFeatureScene sceneStart sceneDir 200 (sceneFeature 2) = some 80 ∧
      GuiTraceRay twoFeatureScene sceneStart sceneDir 200 none false false true =
        { length := 80, hitUnit := none, hitFeature := some (sceneFeature 2) } ∧
      TraceRay twoFeatureScene sceneStart sceneDir 200 0 none none =
        some { length := 30, hitUnit := none, hitFeature := some (sceneFeature 1),
               hitColQuery := none } := by
  decide

/-- C27: in `GuiTraceRay` with a non-zero direction and `groundOnly` unset,
when no candidate unit and no candidate feature of the crossed quads is hit,
the function returns `minRayLength` if `minRayLength > 0` and
`minRayLength + 200 < length`, and the requested length otherwise, with both
hit outputs null; `minRayLength` is the ground distance when water is ignored
and the minimum of the ground and the water distance otherwise. -/
theorem C27_nothing_hit_pick (env : Env) (start dir : float3) (length : ℚ)
    (exclude : Option CUnit) (useRadar ignoreWater : Bool) (hdir : dir ≠ ZeroVector)
    (hunits : ∀ u, u ∈ crossedUnits env start dir length →
      guiUnitCandidate env exclude useRadar u →
      guiUnitHit env start dir length useRadar u = none)
    (hfeat : ∀ f, f ∈ crossedFeatures env start dir length → guiFeatureCandidate env f →
      featureHitDist env start dir length f = none) :
    ((0 < guiMinRayLength env start dir length ignoreWater ∧
        guiMinRayLength env start dir length ignoreWater + 200 < length) →
      GuiTraceRay env start dir length exclude useRadar false ignoreWater =
        { length := guiMinRayLength env start dir length ignoreWater,
          hitUnit := none, hitFeature := none }) ∧
    (¬ (0 < guiMinRayLength env start dir length ignoreWater ∧
        guiMinRayLength env start dir length ignoreWater + 200 < length) →
      GuiTraceRay env start dir length exclude useRadar false ignoreWater =
        { length := length, hitUnit := none, hitFeature := none }) ∧
    guiMinRayLength env start dir length ignoreWater =
      (if ignoreWater then env.LineGroundColUnsynced start (start.add (dir.scale length))
       else min (env.LineGroundColUnsynced start (start.add (dir.scale length)))
        (guiWaterRayLength start dir)) := by
  have hloop : guiLoop env start dir length exclude useRadar = guiInitial length := by
    rw [guiLoop_units_only env start dir length exclude useRadar hfeat]
    exact foldl_fixed _ _ _ (fun u hu =>
      guiUnitStep_miss env start dir length exclude useRadar _ u (hunits u hu))
  rw [GuiTraceRay_unfold env start dir length exclude useRadar ignoreWater hdir, hloop]
  unfold guiFinish guiInitial
  refine ⟨?_, ?_, ?_⟩
  · intro h
    rw [if_pos ⟨h.1, h.2⟩]
  · intro h
    rw [if_neg (fun hc => h ⟨hc.1, hc.2⟩)]
  · cases ignoreWater <;> simp [guiMinRayLength]

/-- Witness of C27: in `missScene` nothing is hit and the ground is not hit
either, so the requested length 200 is returned. -/
theorem C27_nothing_hit_pick_witness :
    GuiTraceRay missScene sceneStart sceneDir 200 none false false true =
      { length := 200, hitUnit := none, hitFeature := none } :=
  (C27_nothing_hit_pick missScene sceneStart sceneDir 200 none false true (by decide)
    (fun _ _ _ => rfl) (fun _ _ _ => rfl)).2.1 (fun h => absurd h.1 (by decide))

/-- C23: the volume that `GuiTraceRay` tests a unit against is a pure sphere
of the unit's icon radius when the unit is iconified or is an enemy on radar
and not in sight, and a copy of the unit's own volume otherwise. The test is
made against that volume: a unit is returned only if `MouseHit` answered
`true` for it; a candidate unit that is the only entity of the crossed quads
is selected exactly when `MouseHit` answers `true` for it; and once a
candidate unit of a crossed quad passes it, `GuiTraceRay` returns a hit or
its terrain distance. On explicit memory, `GuiTraceRay` leaves the store of
the units' own volumes as it found it, and returns the same result. -/
theorem C23_icon_sphere_substitute (env : Env) (start dir : float3) (length : ℚ)
    (exclude : Option CUnit) (useRadar groundOnly ignoreWater : Bool) (u : CUnit)
    (m : Nat → CollisionVolume) :
    ((u.isIcon = true ∨ (guiUnitInSight env u = false ∧ guiUnitOnRadar env useRadar u = true ∧
          guiUnitIsEnemy env u = true)) →
      guiUnitVolume env useRadar u =
        { shape := VolumeShape.sphere, extents := ⟨u.iconRadius, u.iconRadius, u.iconRadius⟩,
          offsets := ZeroVector }) ∧
    (¬ (u.isIcon = true ∨ (guiUnitInSight env u = false ∧
          guiUnitOnRadar env useRadar u = true ∧ guiUnitIsEnemy env u = true)) →
      guiUnitVolume env useRadar u = u.collisionVolume) ∧
    (∀ v, (GuiTraceRay env start dir length exclude useRadar groundOnly ignoreWater).hitUnit =
        some v →
      v ∈ crossedUnits env start dir length ∧
      (env.MouseHit v start (start.add (dir.scale length))
        (guiUnitVolume env useRadar v)).1 = true) ∧
    (dir ≠ ZeroVector → crossedUnits env start dir length = [u] →
      crossedFeatures env start dir length = [] → guiUnitCandidate env exclude useRadar u →
      GuiTraceRay env start dir length exclude useRadar false ignoreWater =
        guiFinish (guiMinRayLength env start dir length ignoreWater)
          (if (env.MouseHit u start (start.add (dir.scale length))
              (guiUnitVolume env useRadar u)).1 = true then
            guiSelectUnit u
              (env.GetIngressPosDist (env.MouseHit u start (start.add (dir.scale length))
                (guiUnitVolume env useRadar u)).2 start dir)
              (env.GetEgressPosDist (env.MouseHit u start (start.add (dir.scale length))
                (guiUnitVolume env useRadar u)).2 start dir)
          else guiInitial length)) ∧
    (dir ≠ ZeroVector → u ∈ crossedUnits env start dir length →
      guiUnitCandidate env exclude useRadar u →
      (env.MouseHit u start (start.add (dir.scale length))
        (guiUnitVolume env useRadar u)).1 = true →
      (GuiTraceRay env start dir length exclude useRadar false ignoreWater).hitUnit ≠ none ∨
      (GuiTraceRay env start dir length exclude useRadar false ignoreWater).hitFeature ≠
        none ∨
      (GuiTraceRay env start dir length exclude useRadar false ignoreWater).length =
        guiMinRayLength env start dir length ignoreWater) ∧
    (GuiTraceRayFrame env start dir length exclude useRadar groundOnly ignoreWater m).1 = m ∧
    ((∀ v, v ∈ crossedUnits env start dir length → m v.id = v.collisionVolume) →
      (GuiTraceRayFrame env start dir length exclude useRadar groundOnly ignoreWater m).2 =
        GuiTraceRay env start dir length exclude useRadar groundOnly ignoreWater) := by
  refine ⟨?_, ?_, ?_, ?_, ?_,
    (GuiTraceRayFrame_eq env start dir length exclude useRadar groundOnly ignoreWater m).1,
    (GuiTraceRayFrame_eq env start dir length exclude useRadar groundOnly ignoreWater m).2⟩
  · intro h
    unfold guiUnitVolume CollisionVolume.InitSphere
    rcases h with h | ⟨h1, h2, h3⟩
    · simp [h]
    · simp [h1, h2, h3]
  · intro h
    unfold guiUnitVolume
    rw [if_neg]
    intro hc
    apply h
    simp only [Bool.or_eq_true, Bool.and_eq_true, Bool.not_eq_true'] at hc
    rcases hc with hc | ⟨⟨h1, h2⟩, h3⟩
    · exact Or.inl hc
    · exact Or.inr ⟨h1, h2, h3⟩
  · intro v hv
    have hinv := guiLoop_invariant
      (fun s => ∀ v, s.hitUnit = some v → v ∈ crossedUnits env start dir length ∧
        (env.MouseHit v start (start.add (dir.scale length))
          (guiUnitVolume env useRadar v)).1 = true)
      env start dir length exclude useRadar
      (fun v hv => by simp [guiInitial] at hv)
      (fun s w i e _ hw _ hh v hv => by
        simp only [guiSelectUnit, Option.some.injEq] at hv
        subst hv
        exact ⟨hw, guiUnitHit_some_hit env start dir length useRadar w (i, e) hh⟩)
      (fun s f d _ _ _ _ v hv => by simp [guiSelectFeature] at hv)
    rcases (GuiTraceRay_outputs env start dir length exclude useRadar groundOnly
      ignoreWater).1 with h1 | h1
    · rw [h1] at hv
      cases hv
    · rw [h1] at hv
      exact hinv v hv
  · intro hdir hu hf hc
    rw [GuiTraceRay_unfold env start dir length exclude useRadar ignoreWater hdir,
      guiLoop_lone_unit env start dir length exclude useRadar u hu hf hc]
  · intro hdir hu hc hh
    have hl := guiLoop_hit_of_unit_hit env start dir length exclude useRadar u hu hc hh
    rw [GuiTraceRay_unfold env start dir length exclude useRadar ignoreWater hdir]
    unfold guiFinish
    split
    · exact Or.inr (Or.inr rfl)
    · rcases hl with hl | hl
      · exact Or.inl hl
      · exact Or.inr (Or.inl hl)

/-- Witness of C23: in `iconScene` the iconified unit with icon radius 7,
whose own volume is a sphere of radius 10, is tested against the sphere of
radius 7: `GuiTraceRay` returns it at the ingress distance 60 of that sphere
(its own volume is entered at distance 57). -/
theorem C23_icon_sphere_substitute_witness :
    GuiTraceRay (iconScene [sceneIconUnit]) sceneStart sceneDir 200 none false false true =
        { length := 60, hitUnit := some sceneIconUnit, hitFeature := none } ∧
      guiUnitVolume (iconScene [sceneIconUnit]) false sceneIconUnit =
        { shape := VolumeShape.sphere, extents := ⟨7, 7, 7⟩, offsets := ZeroVector } ∧
      sceneIconUnit.collisionVolume = sceneVolume ∧
      ((iconScene [sceneIconUnit]).MouseHit sceneIconUnit sceneStart
        (sceneStart.add (sceneDir.scale 200)) sceneIconUnit.collisionVolume).2.p0.x = 57 :=
  ⟨((C23_icon_sphere_substitute (iconScene [sceneIconUnit]) sceneStart sceneDir 200 none
      false false true sceneIconUnit (fun _ => sceneVolume)).2.2.2.1
      (by decide) rfl rfl ⟨by decide, by decide, by decide⟩).trans
      (by
        simp [guiFinish, guiMinRayLength, guiSelectUnit, guiUnitVolume, iconScene, sceneEnv,
          sceneIconUnit, sceneUnit, CollisionVolume.InitSphere]
        norm_num),
    (C23_icon_sphere_substitute (iconScene [sceneIconUnit]) sceneStart sceneDir 200 none
      false false true sceneIconUnit (fun _ => sceneVolume)).1 (Or.inl rfl),
    rfl,
    by
      simp [iconScene, sceneIconUnit, sceneUnit, sceneVolume]
      norm_num⟩

/-- C26: with a non-null owner and both NOENEMIES and NOFRIENDLIES set, the
unit loops of `TraceRay` return the state they are given (every unit is
skipped by one of the two team filters, so neither the length nor the feature
hit changes), whether or not NONEUTRALS is set; `TraceRay` returns, with a
null `hitUnit`, and for a non-zero direction its result is the ground test
applied to the outcome of the feature pass. -/
theorem C26_both_team_filters_skip_all_units (env : Env) (start dir : float3) (length : ℚ)
    (avoidFlags : Nat) (o : CUnit) (hitColQuery : Option CollisionQuery)
    (hE : hasFlag avoidFlags Collision.NOENEMIES = true)
    (hA : hasFlag avoidFlags Collision.NOFRIENDLIES = true) :
    (∀ quads s, traceUnits env start dir (hasFlag avoidFlags Collision.NOFRIENDLIES)
        (hasFlag avoidFlags Collision.NOENEMIES) (hasFlag avoidFlags Collision.NONEUTRALS)
        (hasFlag avoidFlags Collision.NOCLOAKED) (some o) quads s = some s) ∧
    (∃ r, TraceRay env start dir length avoidFlags (some o) hitColQuery = some r ∧
      r.hitUnit = none) ∧
    (dir ≠ ZeroVector →
      TraceRay env start dir length avoidFlags (some o) hitColQuery =
        some (traceGround env start dir (hasFlag avoidFlags Collision.NOGROUND)
          (tracePhaseF env start dir length avoidFlags
            { length := length, hitUnit := none, hitFeature := none,
              hitColQuery := hitColQuery }))) := by
  have hloop : ∀ (l : List CUnit) (s : TraceResult),
      l.foldlM (traceUnitStep env start dir (hasFlag avoidFlags Collision.NOFRIENDLIES)
        (hasFlag avoidFlags Collision.NOENEMIES) (hasFlag avoidFlags Collision.NONEUTRALS)
        (hasFlag avoidFlags Collision.NOCLOAKED) (some o)) s = some s := by
    intro l s
    refine foldlM_fixed _ _ _ ?_
    intro u _
    exact traceUnitStep_miss env start dir avoidFlags (some o) s u (Or.inl rfl)
      (fun hc => absurd hc (not_unitCandidate_of_both avoidFlags o u hE hA))
  have hF : (tracePhaseF env start dir length avoidFlags
      { length := length, hitUnit := none, hitFeature := none,
        hitColQuery := hitColQuery }).hitUnit = none :=
    tracePhaseF_invariant (fun s => s.hitUnit = none) env start dir length avoidFlags _ rfl
      (fun s1 f d _ h1 _ _ _ _ => h1)
  have h3 : dir ≠ ZeroVector →
      TraceRay env start dir length avoidFlags (some o) hitColQuery =
        some (traceGround env start dir (hasFlag avoidFlags Collision.NOGROUND)
          (tracePhaseF env start dir length avoidFlags
            { length := length, hitUnit := none, hitFeature := none,
              hitColQuery := hitColQuery })) := by
    intro hdir
    rw [TraceRay_phases env start dir length avoidFlags (some o) hitColQuery hdir]
    unfold tracePhaseU
    split
    · rfl
    · rw [hloop]
      simp [hF]
  refine ⟨?_, ?_, h3⟩
  · intro quads s
    rw [traceUnits_eq]
    exact hloop _ s
  · by_cases hdir : dir = ZeroVector
    · subst hdir
      exact ⟨{ length := -1, hitUnit := none, hitFeature := none, hitColQuery := hitColQuery },
        by simp [TraceRay], rfl⟩
    · refine ⟨_, h3 hdir, ?_⟩
      rcases traceGround_cases env start dir (hasFlag avoidFlags Collision.NOGROUND)
        (tracePhaseF env start dir length avoidFlags
          { length := length, hitUnit := none, hitFeature := none,
            hitColQuery := hitColQuery }) with h | ⟨_, _, _, h⟩
      · rw [h]; exact hF
      · rw [h]

/-- Witness of C26: in `unitFeatureScene` with NOENEMIES and NOFRIENDLIES set
(and NONEUTRALS unset) the unit at distance 90 is skipped and the feature at
distance 120 is returned. -/
theorem C26_both_team_filters_skip_all_units_witness :
    TraceRay unitFeatureScene sceneStart sceneDir 200 3 (some (sceneUnit 7 0)) none =
      some { length := 120, hitUnit := none, hitFeature := some (sceneFeature 1),
             hitColQuery := none } :=
  (C26_both_team_filters_skip_all_units unitFeatureScene sceneStart sceneDir 200 3
    (sceneUnit 7 0) none (by decide) (by decide)).2.2 (by decide)

/-- C29: `TraceRay` called with a null owner returns for every scene and ray
(the owner's ally-team is never read) exactly when the flags contain neither
NOFRIENDLIES nor NOENEMIES, or contain all of NOENEMIES, NOFRIENDLIES and
NONEUTRALS; no unit is skipped as being the null owner; and when neither
NOFRIENDLIES nor NOENEMIES is set the team and state filters are total for the
null owner. -/
theorem C29_null_owner_flag_combinations (avoidFlags : Nat) :
    (((hasFlag avoidFlags Collision.NOFRIENDLIES = false ∧
          hasFlag avoidFlags Collision.NOENEMIES = false) ∨
        ignoreUnitsFlag avoidFlags = true) ↔
      ∀ (env : Env) (start dir : float3) (length : ℚ) (hitColQuery : Option CollisionQuery),
        ∃ r, TraceRay env start dir length avoidFlags none hitColQuery = some r) ∧
    (∀ u : CUnit, ptrEqU u none = false) ∧
    ((hasFlag avoidFlags Collision.NOFRIENDLIES = false ∧
        hasFlag avoidFlags Collision.NOENEMIES = false) →
      ∀ u, ∃ b, traceUnitSkipped (hasFlag avoidFlags Collision.NOFRIENDLIES)
        (hasFlag avoidFlags Collision.NOENEMIES) (hasFlag avoidFlags Collision.NONEUTRALS)
        (hasFlag avoidFlags Collision.NOCLOAKED) none u = some b) := by
  refine ⟨⟨?_, ?_⟩, fun _ => rfl, ?_⟩
  · intro h env start dir length hitColQuery
    exact TraceRay_defined env start dir length avoidFlags none hitColQuery (Or.inr h)
  · intro h
    by_contra hn
    obtain ⟨r, hr⟩ := h missScene sceneStart sceneDir 200 none
    have hig : ignoreUnitsFlag avoidFlags = false := by
      cases hi : ignoreUnitsFlag avoidFlags
      · rfl
      · exact absurd (Or.inr hi) hn
    have hAE : hasFlag avoidFlags Collision.NOFRIENDLIES = true ∨
        hasFlag avoidFlags Collision.NOENEMIES = true := by
      cases hA : hasFlag avoidFlags Collision.NOFRIENDLIES
      · cases hE : hasFlag avoidFlags Collision.NOENEMIES
        · exact absurd (Or.inl ⟨hA, hE⟩) hn
        · exact Or.inr rfl
      · exact Or.inl rfl
    rw [TraceRay_phases missScene sceneStart sceneDir 200 avoidFlags none none (by decide)]
      at hr
    unfold tracePhaseU at hr
    rw [hig] at hr
    have hcu : crossedUnits missScene sceneStart sceneDir 200 = [sceneUnit 2 1] := rfl
    simp only [Bool.false_eq_true, if_false, hcu, List.foldlM_cons] at hr
    rw [traceUnitStep_null_owner missScene sceneStart sceneDir _ _ _ _ _ (sceneUnit 2 1) rfl
      hAE] at hr
    simp at hr
  · rintro ⟨hA, hE⟩ u
    exact traceUnitSkipped_defined _ _ _ _ none u (Or.inr ⟨hA, hE⟩)

/-- Witness of C29: with no flag set, `TraceRay` with a null owner returns on
`unitFeatureScene`. -/
theorem C29_null_owner_flag_combinations_witness :
    ∃ r, TraceRay unitFeatureScene sceneStart sceneDir 200 0 none none = some r :=
  (C29_null_owner_flag_combinations 0).1.mp (Or.inl ⟨by decide, by decide⟩) unitFeatureScene
    sceneStart sceneDir 200 none

/-- C30: when the caller supplies the query record `c0` to `TraceRay`
(non-zero direction), the record on return is the record `s.hitColQuery` left
by the entity loops, whatever the ground test does. If no candidate was
accepted (the search length is still the requested one) it is `c0`,
unchanged; otherwise it is the record that `DetectHit` wrote for the entity
the loops ended with, the unit in `hitUnit` or else the feature in
`hitFeature`. When the ground supersedes that entity, both hit outputs of the
result are null while the record still holds the entity's query. -/
theorem C30_query_record_written_on_accept (env : Env) (start dir : float3) (length : ℚ)
    (avoidFlags : Nat) (owner : Option CUnit) (c0 : CollisionQuery) (r : TraceResult)
    (hdir : dir ≠ ZeroVector)
    (hr : TraceRay env start dir length avoidFlags owner (some c0) = some r) :
    ∃ s, traceEntities env start dir avoidFlags owner
        { length := length, hitUnit := none, hitFeature := none,
          hitColQuery := some c0 } = some s ∧
      r.hitColQuery = s.hitColQuery ∧
      ((s.length = length ∧ s.hitUnit = none ∧ s.hitFeature = none ∧
          s.hitColQuery = some c0) ∨
        (s.length < length ∧
          ((∃ u len, s.hitUnit = some u ∧
              s.hitColQuery = some (env.DetectHitU u start (start.add (dir.scale len))).2 ∧
              unitHitDist env start dir len u = some s.length) ∨
            (∃ f len, s.hitUnit = none ∧ s.hitFeature = some f ∧
              s.hitColQuery = some (env.DetectHitF f start (start.add (dir.scale len))).2 ∧
              featureHitDist env start dir len f = some s.length)))) ∧
      (r = s ∨
        (r.hitUnit = none ∧ r.hitFeature = none ∧
          r.length = env.LineGroundCol start (start.add (dir.scale s.length)) ∧
          0 < r.length ∧ r.length < s.length)) := by
  rw [TraceRay_unfold env start dir length avoidFlags owner (some c0) hdir] at hr
  rcases Option.map_eq_some'.mp hr with ⟨s, hs, hsr⟩
  refine ⟨s, hs, ?_, ?_, ?_⟩
  · rw [← hsr]
    rcases traceGround_cases env start dir (hasFlag avoidFlags Collision.NOGROUND) s with
      h | ⟨_, _, _, h⟩
    · rw [h]
    · rw [h]
  · rw [traceEntities_phases] at hs
    exact traceEntities_record env start dir length avoidFlags owner c0 s hs
  · rw [← hsr]
    rcases traceGround_cases env start dir (hasFlag avoidFlags Collision.NOGROUND) s with
      h | ⟨_, hpos, hlt, h⟩
    · left
      exact h
    · right
      rw [h]
      exact ⟨rfl, rfl, rfl, hpos, hlt⟩

/-- Witness of C30: in `groundScene` the feature hit at distance 90 is
accepted and its query is written to the caller's record; the ground at
distance 50 then supersedes the feature, and the record still holds the
query of the feature. -/
theorem C30_query_record_written_on_accept_witness :
    ∃ s, traceEntities groundScene sceneStart sceneDir 0 none
        { length := 200, hitUnit := none, hitFeature := none,
          hitColQuery := some (sceneQuery 0) } = some s ∧
      (TraceResult.mk 50 none none (some (sceneQuery 90))).hitColQuery = s.hitColQuery ∧
      ((s.length = 200 ∧ s.hitUnit = none ∧ s.hitFeature = none ∧
          s.hitColQuery = some (sceneQuery 0)) ∨
        (s.length < 200 ∧
          ((∃ u len, s.hitUnit = some u ∧
              s.hitColQuery = some (groundScene.DetectHitU u sceneStart
                (sceneStart.add (sceneDir.scale len))).2 ∧
              unitHitDist groundScene sceneStart sceneDir len u = some s.length) ∨
            (∃ f len, s.hitUnit = none ∧ s.hitFeature = some f ∧
              s.hitColQuery = some (groundScene.DetectHitF f sceneStart
                (sceneStart.add (sceneDir.scale len))).2 ∧
              featureHitDist groundScene sceneStart sceneDir len f = some s.length)))) ∧
      (TraceResult.mk 50 none none (some (sceneQuery 90)) = s ∨
        ((TraceResult.mk 50 none none (some (sceneQuery 90))).hitUnit = none ∧
          (TraceResult.mk 50 none none (some (sceneQuery 90))).hitFeature = none ∧
          (TraceResult.mk 50 none none (some (sceneQuery 90))).length =
            groundScene.LineGroundCol sceneStart (sceneStart.add (sceneDir.scale s.length)) ∧
          0 < (TraceResult.mk 50 none none (some (sceneQuery 90))).length ∧
          (TraceResult.mk 50 none none (some (sceneQuery 90))).length < s.length)) :=
  C30_query_record_written_on_accept groundScene sceneStart sceneDir 200 0 none (sceneQuery 0)
    { length := 50, hitUnit := none, hitFeature := none, hitColQuery := some (sceneQuery 90) }
    (by decide) (by decide)

end Spring
